import Mathlib

/-!
OpenVRPerfKit: frame interception and post-processing orchestration.

A shallow embedding of `src/oculus/oculus_manager.cpp` (the session / resource
manager) and `src/d3d12/d3d12_injector.cpp` (the hook dispatcher), followed by
the properties established about them.

Conventions of the embedding

* C `int` values are `Int`; a conversion to `int` is `toInt32`, a conversion to
  the 64-bit unsigned `size_t` is `toSizeT`, and unsigned arithmetic is reduced
  modulo `2^64` explicitly.
* Pointers and COM handles are identities (`Nat`); a nullable handle is an
  `Option`, `none` being `nullptr`.
* The compositor, the graphics backend and the post-processor are external: they
  are a record of answer functions (`Runtime`), and every theorem quantifies over
  all of them.  The calls with an effect on the outside are recorded as `Event`s.
* `float` values are not computed; a projection centre is carried symbolically.
-/

namespace vrperfkit

/-! ## Machine integers -/

/-- Conversion of a mathematical integer to a 32-bit two's complement `int`. -/
def toInt32 (x : Int) : Int := (x + 2147483648) % 4294967296 - 2147483648

/-- Conversion of an integer to the 64-bit unsigned `size_t` (value modulo `2^64`). -/
def toSizeT (x : Int) : Nat := (x % 18446744073709551616).toNat

/-- The index arithmetic of `PostProcessD3D12`, line 288:
`index = (index - 1 + size) % size` with `index` an `int` and `size` a `size_t`.
`index - 1` is computed in `int`, converted to `size_t`, added to `size` modulo
`2^64`, reduced modulo `size` and stored back into the `int`.  A zero `size` is a
division by zero (`none`). -/
def submittedIndex (index : Int) (size : Nat) : Option Int :=
  if size = 0 then none
  else some (toInt32 ((((toSizeT (toInt32 (index - 1)) + size) % 18446744073709551616) % size : Nat) : Int))

/-! ## Handles, descriptors and the frame layer

The SDK and Direct3D types are declared outside the repository; only the fields
the manager reads or writes are kept. -/

/-- An `ovrSession` handle; `none` is `nullptr`. -/
abbrev ovrSession := Option Nat

/-- An `ovrTextureSwapChain` handle; `none` is `nullptr`. -/
abbrev ovrTextureSwapChain := Option Nat

/-- Identity of an `ID3D12Resource` (a texture). -/
abbrev ID3D12Resource := Nat

/-- Identity of an `ID3D12Device`. -/
abbrev ID3D12Device := Nat

/-- Identity of an `ID3D12DeviceContext`. -/
abbrev ID3D12DeviceContext := Nat

/-- A two-element C array indexed by the eye (`T x[2]`). -/
structure PerEye (α : Type) where
  left : α
  right : α
deriving DecidableEq, Repr

/-- Element read `x[eye]`. -/
def PerEye.get {α : Type} (p : PerEye α) (eye : Fin 2) : α :=
  if eye = 0 then p.left else p.right

/-- Element write `x[eye] = v`. -/
def PerEye.set {α : Type} (p : PerEye α) (eye : Fin 2) (v : α) : PerEye α :=
  if eye = 0 then { p with left := v } else { p with right := v }

/-- The `ovrTextureFormat` values the manager distinguishes; every other value of
the SDK enumeration is `other`. -/
inductive ovrTextureFormat where
  | OVR_FORMAT_R8G8B8A8_UNORM
  | OVR_FORMAT_R8G8B8A8_UNORM_SRGB
  | OVR_FORMAT_B8G8R8A8_UNORM
  | OVR_FORMAT_B8G8R8A8_UNORM_SRGB
  | OVR_FORMAT_B8G8R8X8_UNORM
  | OVR_FORMAT_B8G8R8X8_UNORM_SRGB
  | other (code : Nat)
deriving DecidableEq, Repr

/-- Flag `ovrTextureMisc_DX_Typeless` of the SDK. -/
def ovrTextureMisc_DX_Typeless : Nat := 1

/-- Flag `ovrTextureMisc_AutoGenerateMips` of the SDK. -/
def ovrTextureMisc_AutoGenerateMips : Nat := 8

/-- Flag `ovrTextureBind_DX_UnorderedAccess` of the SDK. -/
def ovrTextureBind_DX_UnorderedAccess : Nat := 2

/-- Flag `ovrLayerFlag_TextureOriginAtBottomLeft` of the SDK. -/
def ovrLayerFlag_TextureOriginAtBottomLeft : Nat := 2

/-- The fields of `ovrTextureSwapChainDesc` used by the manager. -/
structure ovrTextureSwapChainDesc where
  Format : ovrTextureFormat
  ArraySize : Int
  Width : Int
  Height : Int
  MipLevels : Int
  SampleCount : Int
  StaticImage : Bool
  MiscFlags : Nat
  BindFlags : Nat
deriving DecidableEq, Repr

/-- The fields of the texture description read by `PostProcessD3D12`. -/
structure D3D12_TEXTURE2D_DESC where
  Width : Int
  Height : Int
  MipLevels : Int
  Format : Nat
deriving DecidableEq, Repr

/-- An `ovrVector2i`. -/
structure ovrVector2i where
  x : Int
  y : Int
deriving DecidableEq, Repr

/-- An `ovrSizei`. -/
structure ovrSizei where
  w : Int
  h : Int
deriving DecidableEq, Repr

/-- An `ovrRecti`: the viewport of one eye in the submitted layer. -/
structure ovrRecti where
  Pos : ovrVector2i
  Size : ovrSizei
deriving DecidableEq, Repr

/-- The fields of `ovrLayerEyeFovDepth` used by the manager: header flags, the
colour swap chain and the viewport of each eye.  The `Fov` tangents are `float`s
and are not carried. -/
structure ovrLayerEyeFovDepth where
  Flags : Nat
  ColorTexture : PerEye ovrTextureSwapChain
  Viewport : PerEye ovrRecti
deriving DecidableEq, Repr

/-- Graphics backend of the session (`types.h`). -/
inductive GraphicsApi where
  | UNKNOWN
  | D3D12
deriving DecidableEq, Repr

/-- Stereo layout of the submitted textures (`types.h`). -/
inductive TextureMode where
  | SINGLE
  | COMBINED
  | ARRAY
deriving DecidableEq, Repr

/-- A `Viewport` of `types.h`. -/
structure Viewport where
  x : Int
  y : Int
  width : Int
  height : Int
deriving DecidableEq, Repr

/-- A shader resource view, identified with what it was created over: the
texture and the array slice given to `CreateShaderResourceView`. -/
structure ShaderResourceView where
  texture : Option ID3D12Resource
  arrayIndex : Int
deriving DecidableEq, Repr

/-- An unordered access view, identified with what it was created over. -/
structure UnorderedAccessView where
  texture : Option ID3D12Resource
  arrayIndex : Int
deriving DecidableEq, Repr

/-- A projection centre, carried symbolically: the centre that
`CalculateProjectionCenter` computes for `eye`, with its `y` mirrored
(`1.f - y`) when `flippedY`. -/
structure ProjectionCenter where
  eye : Fin 2
  flippedY : Bool
deriving DecidableEq, Repr

/-- The frame context handed to `D3D12PostProcessor::Apply`
(`d3d12_post_processor.h`). -/
structure D3D12PostProcessInput where
  inputTexture : ID3D12Resource
  outputTexture : ID3D12Resource
  inputView : ShaderResourceView
  outputView : ShaderResourceView
  outputUav : UnorderedAccessView
  inputViewport : Viewport
  eye : Fin 2
  mode : TextureMode
  projectionCenter : ProjectionCenter
deriving DecidableEq, Repr

/-- The inline helper `D3D12CalcSubresource(MipSlice, ArraySlice, MipLevels)`. -/
def D3D12CalcSubresource (MipSlice ArraySlice MipLevels : Int) : Int :=
  MipSlice + ArraySlice * MipLevels

/-! ## The dispatcher object as the manager sees it -/

/-- A `D3D12Listener*`: the identity of a listener object. -/
abbrev ListenerPtr := Nat

/-- The data of `D3D12Injector`: the registered listeners, in vector order. -/
structure D3D12Injector where
  listeners : List ListenerPtr
deriving DecidableEq, Repr

/-- `D3D12Injector::AddListener`: append unless already present. -/
def D3D12Injector.AddListener (inj : D3D12Injector) (listener : ListenerPtr) : D3D12Injector :=
  if listener ∈ inj.listeners then inj else { listeners := inj.listeners ++ [listener] }

/-- `D3D12Injector::RemoveListener`: erase the first occurrence, if any. -/
def D3D12Injector.RemoveListener (inj : D3D12Injector) (listener : ListenerPtr) : D3D12Injector :=
  { listeners := inj.listeners.erase listener }

/-! ## Manager state -/

/-- The record `OculusD3D12Resources`.  A freshly allocated record has empty
vectors and null pointers. -/
structure OculusD3D12Resources where
  injector : Option D3D12Injector := none
  variableRateShading : Option ListenerPtr := none
  postProcessor : Option ListenerPtr := none
  device : Option ID3D12Device := none
  context : Option ID3D12DeviceContext := none
  submittedTextures : PerEye (List ID3D12Resource) := ⟨[], []⟩
  resolveTexture : PerEye (Option ID3D12Resource) := ⟨none, none⟩
  submittedViews : PerEye (List ShaderResourceView) := ⟨[], []⟩
  outputTextures : PerEye (List ID3D12Resource) := ⟨[], []⟩
  outputViews : PerEye (List ShaderResourceView) := ⟨[], []⟩
  outputUavs : PerEye (List UnorderedAccessView) := ⟨[], []⟩
  multisampled : PerEye Bool := ⟨false, false⟩
  usingArrayTex : Bool := false
deriving DecidableEq, Repr

/-- The fields of `OculusManager` (`oculus_manager.h`), with their initialisers. -/
structure OculusManager where
  failed : Bool := false
  initialized : Bool := false
  graphicsApi : GraphicsApi := GraphicsApi.UNKNOWN
  session : ovrSession := none
  submittedEyeChains : PerEye ovrTextureSwapChain := ⟨none, none⟩
  outputEyeChains : PerEye ovrTextureSwapChain := ⟨none, none⟩
  d3d12Res : Option OculusD3D12Resources := none
deriving DecidableEq, Repr

/-- The calls the manager makes that act on the outside world, in program order. -/
inductive Event where
  | DestroyTextureSwapChain (session : ovrSession) (chain : ovrTextureSwapChain)
  | CreateTextureSwapChainDX (session : ovrSession) (desc : ovrTextureSwapChainDesc)
      (chain : ovrTextureSwapChain)
  | CommitTextureSwapChain (session : ovrSession) (chain : ovrTextureSwapChain)
  | ResolveSubresource (dst : Option ID3D12Resource) (dstSubresource : Int)
      (src : ID3D12Resource) (srcSubresource : Int) (format : Nat)
  | SetProjCenters
  | Apply (input : D3D12PostProcessInput) (result : Option Viewport)
  | UpdateTargetInformation (targetWidth targetHeight : Int) (mode : TextureMode)
      (flippedY : Bool)
  | EndFrame
  | CheckHotkeys
deriving DecidableEq, Repr

/-- Answers of everything outside the manager during one call into it: the
compositor (`ovr_*`), the Direct3D objects, the helpers of `d3d12_helper.h`,
`resolution_scaling.h`, `hotkeys.h`, and the post-processor.  A failing
compositor call is `none`; a helper or constructor that raises is `false` or
`none`. -/
structure Runtime where
  /-- Answer of `ovr_GetTextureSwapChainBufferDX`. -/
  GetTextureSwapChainBufferDX : ovrSession → ovrTextureSwapChain → Int → Option ID3D12Resource
  /-- Answer of `ovr_GetTextureSwapChainLength`. -/
  GetTextureSwapChainLength : ovrSession → ovrTextureSwapChain → Option Int
  /-- Answer of `ovr_GetTextureSwapChainDesc`. -/
  GetTextureSwapChainDesc : ovrSession → ovrTextureSwapChain → Option ovrTextureSwapChainDesc
  /-- Answer of `ovr_GetTextureSwapChainCurrentIndex`; on failure the out
  parameter is left as it was. -/
  GetTextureSwapChainCurrentIndex : ovrSession → ovrTextureSwapChain → Option Int
  /-- Answer of `ovr_CreateTextureSwapChainDX` to the request made while the
  given eye is set up; the two requests of one initialisation may be answered
  with different chains even for equal descriptors. -/
  CreateTextureSwapChainDX : Fin 2 → ovrSession → Option ID3D12Device →
    ovrTextureSwapChainDesc → Option Nat
  /-- Device of a texture (`ID3D12Resource::GetDevice`). -/
  GetDevice : ID3D12Resource → ID3D12Device
  /-- Immediate context of a device. -/
  GetImmediateContext : ID3D12Device → ID3D12DeviceContext
  /-- Description of a texture (`GetDesc`). -/
  GetDesc : ID3D12Resource → D3D12_TEXTURE2D_DESC
  /-- Whether `CreateShaderResourceView` returns (rather than raises). -/
  CreateShaderResourceView : Option ID3D12Device → Option ID3D12Resource → Int → Bool
  /-- Whether `CreateUnorderedAccessView` returns (rather than raises). -/
  CreateUnorderedAccessView : Option ID3D12Device → Option ID3D12Resource → Int → Bool
  /-- Result of `CreateResolveTexture`, `none` when it raises. -/
  CreateResolveTexture : Option ID3D12Device → ID3D12Resource → Option ID3D12Resource
  /-- The helper `TranslateTypelessFormats`. -/
  TranslateTypelessFormats : Nat → Nat
  /-- The helper `AdjustOutputResolution`, which rewrites width and height. -/
  AdjustOutputResolution : Int → Int → Int × Int
  /-- Result of `new D3D12PostProcessor(device)`, `none` when it raises. -/
  newD3D12PostProcessor : Option ID3D12Device → Option ListenerPtr
  /-- Result of `new D3D12VariableRateShading(device)`, `none` when it raises. -/
  newD3D12VariableRateShading : Option ID3D12Device → Option ListenerPtr
  /-- Whether `new D3D12Injector(device)` returns (rather than raises). -/
  newD3D12Injector : Option ID3D12Device → Bool
  /-- Result of `D3D12PostProcessor::Apply`: the output viewport it wrote when it
  returns `true`, `none` when it returns `false`. -/
  Apply : D3D12PostProcessInput → Option Viewport
  /-- Whether `CheckHotkeys` returns (rather than raises). -/
  CheckHotkeys : Bool

/-! ## Execution: state, outcome, sequencing -/

/-- Everything a call into the manager can change: the manager object itself,
the layer passed by reference to `OnFrameSubmission`, and the record of the
outside calls made so far. -/
structure World where
  self : OculusManager
  eyeLayer : ovrLayerEyeFovDepth
  events : List Event
deriving DecidableEq, Repr

/-- How a statement ends: normally with a value, by a `std::exception` in
flight, or in a situation the language leaves undefined (element access out of
range, null dereference, division by zero). -/
inductive Outcome (α : Type) where
  | ok (a : α)
  | threw
  | undefined
deriving DecidableEq, Repr

/-- A statement: from a world to an outcome and the world it leaves. -/
def Act (α : Type) : Type := World → Outcome α × World

/-- Normal completion with a value. -/
def Act.pure {α : Type} (a : α) : Act α := fun w => (Outcome.ok a, w)

/-- Sequencing: the second statement runs only if the first completes normally;
changes made before an exception persist. -/
def Act.bind {α β : Type} (x : Act α) (f : α → Act β) : Act β := fun w =>
  match x w with
  | (Outcome.ok a, w') => f a w'
  | (Outcome.threw, w') => (Outcome.threw, w')
  | (Outcome.undefined, w') => (Outcome.undefined, w')

instance : Monad Act where
  pure := Act.pure
  bind := Act.bind

/-- Read `*this`. -/
def getSelf : Act OculusManager := fun w => (Outcome.ok w.self, w)

/-- Update `*this`. -/
def modifySelf (f : OculusManager → OculusManager) : Act Unit :=
  fun w => (Outcome.ok (), { w with self := f w.self })

/-- Read the layer passed by reference. -/
def getLayer : Act ovrLayerEyeFovDepth := fun w => (Outcome.ok w.eyeLayer, w)

/-- Update the layer passed by reference. -/
def modifyLayer (f : ovrLayerEyeFovDepth → ovrLayerEyeFovDepth) : Act Unit :=
  fun w => (Outcome.ok (), { w with eyeLayer := f w.eyeLayer })

/-- Record a call made to the outside. -/
def emit (e : Event) : Act Unit :=
  fun w => (Outcome.ok (), { w with events := w.events ++ [e] })

/-- The helper `Check` (and helpers that raise likewise): `none` raises a
`std::exception`. -/
def Check {α : Type} (result : Option α) : Act α := fun w =>
  match result with
  | some a => (Outcome.ok a, w)
  | none => (Outcome.threw, w)

/-- An access that is only defined when the value exists. -/
def defined {α : Type} (value : Option α) : Act α := fun w =>
  match value with
  | some a => (Outcome.ok a, w)
  | none => (Outcome.undefined, w)

/-- Dereference `d3d12Res->`. -/
def getRes : Act OculusD3D12Resources := fun w =>
  match w.self.d3d12Res with
  | some r => (Outcome.ok r, w)
  | none => (Outcome.undefined, w)

/-- Update through `d3d12Res->`. -/
def modifyRes (f : OculusD3D12Resources → OculusD3D12Resources) : Act Unit := fun w =>
  match w.self.d3d12Res with
  | some r => (Outcome.ok (), { w with self := { w.self with d3d12Res := some (f r) } })
  | none => (Outcome.undefined, w)

/-- The block `try { body } catch (const std::exception &) { handler }`. -/
def tryCatch (body : Act Unit) (handler : Act Unit) : Act Unit := fun w =>
  match body w with
  | (Outcome.threw, w') => handler w'
  | r => r

/-- A `throw std::exception(...)`. -/
def raise {α : Type} : Act α := fun w => (Outcome.threw, w)

/-! ## `oculus_manager.cpp` -/

/-- `DetermineOutputFormat` (lines 28-48). -/
def DetermineOutputFormat (desc : ovrTextureSwapChainDesc) : ovrTextureFormat :=
  if desc.MiscFlags &&& ovrTextureMisc_DX_Typeless ≠ 0 then desc.Format
  else
    match desc.Format with
    | ovrTextureFormat.OVR_FORMAT_B8G8R8A8_UNORM_SRGB => ovrTextureFormat.OVR_FORMAT_B8G8R8A8_UNORM
    | ovrTextureFormat.OVR_FORMAT_B8G8R8X8_UNORM_SRGB => ovrTextureFormat.OVR_FORMAT_B8G8R8X8_UNORM
    | ovrTextureFormat.OVR_FORMAT_R8G8B8A8_UNORM_SRGB => ovrTextureFormat.OVR_FORMAT_R8G8B8A8_UNORM
    | f => f

/-- `ShouldCreateTypelessSwapchain` (lines 50-62). -/
def ShouldCreateTypelessSwapchain (format : ovrTextureFormat) : Bool :=
  match format with
  | ovrTextureFormat.OVR_FORMAT_B8G8R8A8_UNORM_SRGB => true
  | ovrTextureFormat.OVR_FORMAT_B8G8R8A8_UNORM => true
  | ovrTextureFormat.OVR_FORMAT_B8G8R8X8_UNORM_SRGB => true
  | ovrTextureFormat.OVR_FORMAT_B8G8R8X8_UNORM => true
  | ovrTextureFormat.OVR_FORMAT_R8G8B8A8_UNORM_SRGB => true
  | ovrTextureFormat.OVR_FORMAT_R8G8B8A8_UNORM => true
  | ovrTextureFormat.other _ => false

/-- One iteration of the loop of `Shutdown` (lines 117-123). -/
def Shutdown_eye (i : Fin 2) : Act Unit := do
  let m ← getSelf
  (if m.outputEyeChains.get i ≠ none then
    emit (Event.DestroyTextureSwapChain m.session (m.outputEyeChains.get i))
  else pure ())
  modifySelf fun m => { m with submittedEyeChains := m.submittedEyeChains.set i none }
  modifySelf fun m => { m with outputEyeChains := m.outputEyeChains.set i none }

/-- `OculusManager::Shutdown` (lines 112-125). -/
def Shutdown : Act Unit := do
  modifySelf fun m => { m with initialized := false }
  modifySelf fun m => { m with failed := false }
  modifySelf fun m => { m with graphicsApi := GraphicsApi.UNKNOWN }
  modifySelf fun m => { m with d3d12Res := none }
  Shutdown_eye 0
  Shutdown_eye 1
  modifySelf fun m => { m with session := none }

/-- The helper `CreateShaderResourceView(device, texture, arrayIndex)`. -/
def CreateShaderResourceView (rt : Runtime) (device : Option ID3D12Device)
    (texture : Option ID3D12Resource) (arrayIndex : Int) : Act ShaderResourceView :=
  if rt.CreateShaderResourceView device texture arrayIndex then
    pure { texture := texture, arrayIndex := arrayIndex }
  else raise

/-- The helper `CreateUnorderedAccessView(device, texture, arrayIndex)`. -/
def CreateUnorderedAccessView (rt : Runtime) (device : Option ID3D12Device)
    (texture : Option ID3D12Resource) (arrayIndex : Int) : Act UnorderedAccessView :=
  if rt.CreateUnorderedAccessView device texture arrayIndex then
    pure { texture := texture, arrayIndex := arrayIndex }
  else raise

/-- The loop of lines 181-185 over the remaining indices `i`: fetch buffer `i` of
the submitted chain and append it to `submittedTextures[eye]`. -/
def InitD3D12_submittedTextures (rt : Runtime) (eye : Fin 2) : List Nat → Act Unit
  | [] => pure ()
  | i :: rest => do
    let m ← getSelf
    let texture ← Check (rt.GetTextureSwapChainBufferDX m.session (m.submittedEyeChains.get eye) i)
    modifyRes fun r => { r with
      submittedTextures := r.submittedTextures.set eye (r.submittedTextures.get eye ++ [texture]) }
    InitD3D12_submittedTextures rt eye rest

/-- The loop of lines 199-205 over the remaining indices `i`: create the view of
submitted image `i` (of the resolve texture when multi-sampled) and append it. -/
def InitD3D12_submittedViews (rt : Runtime) (eye : Fin 2) (SampleCount : Int) :
    List Nat → Act Unit
  | [] => pure ()
  | i :: rest => do
    let r ← getRes
    let view ← (if SampleCount > 1 then
        CreateShaderResourceView rt r.device (r.resolveTexture.get eye) 0
      else do
        let texture ← defined ((r.submittedTextures.get eye)[i]?)
        CreateShaderResourceView rt r.device (some texture) 0)
    modifyRes fun r => { r with
      submittedViews := r.submittedViews.set eye (r.submittedViews.get eye ++ [view]) }
    InitD3D12_submittedViews rt eye SampleCount rest

/-- The loop of lines 223-233 over the remaining indices `i`: fetch buffer `i` of
the output chain, append it, and append a view and a UAV created over it. -/
def InitD3D12_outputTextures (rt : Runtime) (eye : Fin 2) : List Nat → Act Unit
  | [] => pure ()
  | i :: rest => do
    let m ← getSelf
    let texture ← Check (rt.GetTextureSwapChainBufferDX m.session (m.outputEyeChains.get eye) i)
    modifyRes fun r => { r with
      outputTextures := r.outputTextures.set eye (r.outputTextures.get eye ++ [texture]) }
    let r ← getRes
    let view ← CreateShaderResourceView rt r.device (some texture) 0
    modifyRes fun r => { r with
      outputViews := r.outputViews.set eye (r.outputViews.get eye ++ [view]) }
    let r ← getRes
    let uav ← CreateUnorderedAccessView rt r.device (some texture) 0
    modifyRes fun r => { r with
      outputUavs := r.outputUavs.set eye (r.outputUavs.get eye ++ [uav]) }
    InitD3D12_outputTextures rt eye rest

/-- The output chain descriptor built at lines 207-217 from the submitted chain's
descriptor. -/
def outputChainDesc (rt : Runtime) (chainDesc : ovrTextureSwapChainDesc) :
    ovrTextureSwapChainDesc :=
  let outputFormat := DetermineOutputFormat chainDesc
  let MiscFlags := if ShouldCreateTypelessSwapchain outputFormat then
      ovrTextureMisc_AutoGenerateMips ||| ovrTextureMisc_DX_Typeless
    else ovrTextureMisc_AutoGenerateMips
  { chainDesc with
    SampleCount := 1
    MipLevels := 1
    BindFlags := ovrTextureBind_DX_UnorderedAccess
    MiscFlags := MiscFlags
    Format := outputFormat
    StaticImage := false
    Width := (rt.AdjustOutputResolution chainDesc.Width chainDesc.Height).1
    Height := (rt.AdjustOutputResolution chainDesc.Width chainDesc.Height).2 }

/-- The assignment `multisampled[eye] = false` (line 175). -/
def clearMultisampled (eye : Fin 2) (r : OculusD3D12Resources) : OculusD3D12Resources :=
  { r with multisampled := r.multisampled.set eye false }

/-- The assignments of lines 186-187: the device of the first submitted texture
and its immediate context. -/
def setDevice (rt : Runtime) (first : ID3D12Resource) (r : OculusD3D12Resources) :
    OculusD3D12Resources :=
  { r with
    device := some (rt.GetDevice first)
    context := some (rt.GetImmediateContext (rt.GetDevice first)) }

/-- The assignments of lines 195-196 when a resolve texture was created
(`some`); nothing otherwise. -/
def setResolve (eye : Fin 2) (resolve : Option ID3D12Resource) (r : OculusD3D12Resources) :
    OculusD3D12Resources :=
  match resolve with
  | some texture =>
    { r with
      resolveTexture := r.resolveTexture.set eye (some texture)
      multisampled := r.multisampled.set eye true }
  | none => r

/-- Lines 193-197 of `InitD3D12`: for a multi-sampled chain, create the resolve
texture and mark the eye. -/
def InitD3D12_resolve (rt : Runtime) (eye : Fin 2) (chainDesc : ovrTextureSwapChainDesc) :
    Act Unit :=
  if chainDesc.SampleCount > 1 then do
    let r ← getRes
    let texture ← defined ((r.submittedTextures.get 0)[0]?)
    let resolve ← Check (rt.CreateResolveTexture r.device texture)
    modifyRes (setResolve eye (some resolve))
  else pure ()

/-- Lines 207-233 of `InitD3D12`: create the output chain of the eye, store it,
and fetch its images. -/
def InitD3D12_outputChain (rt : Runtime) (eye : Fin 2) (chainDesc : ovrTextureSwapChainDesc) :
    Act Unit := do
  let m ← getSelf
  let r ← getRes
  let outDesc := outputChainDesc rt chainDesc
  let chain ← Check (rt.CreateTextureSwapChainDX eye m.session r.device outDesc)
  modifySelf fun m => { m with outputEyeChains := m.outputEyeChains.set eye (some chain) }
  emit (Event.CreateTextureSwapChainDX m.session outDesc (some chain))
  let length ← Check (rt.GetTextureSwapChainLength m.session (some chain))
  InitD3D12_outputTextures rt eye (List.range length.toNat)

/-- The body of the per-eye loop of `InitD3D12` (lines 174-234). -/
def InitD3D12_eye (rt : Runtime) (eye : Fin 2) : Act Unit := do
  modifyRes (clearMultisampled eye)
  let m ← getSelf
  if m.submittedEyeChains.get eye = none ∨
      (eye = 1 ∧ m.submittedEyeChains.get 1 = m.submittedEyeChains.get 0) then
    pure ()
  else do
    let length ← Check (rt.GetTextureSwapChainLength m.session (m.submittedEyeChains.get eye))
    InitD3D12_submittedTextures rt eye (List.range length.toNat)
    let r ← getRes
    let first ← defined ((r.submittedTextures.get eye)[0]?)
    modifyRes (setDevice rt first)
    let chainDesc ← Check (rt.GetTextureSwapChainDesc m.session (m.submittedEyeChains.get eye))
    InitD3D12_resolve rt eye chainDesc
    InitD3D12_submittedViews rt eye chainDesc.SampleCount (List.range length.toNat)
    InitD3D12_outputChain rt eye chainDesc

/-- The loop of lines 254-257: a view on array slice 1 of every submitted texture
of the left eye, appended to the right eye's views. -/
def InitD3D12_arraySubmittedViews (rt : Runtime) : List ID3D12Resource → Act Unit
  | [] => pure ()
  | tex :: rest => do
    let r ← getRes
    let view ← CreateShaderResourceView rt r.device (some tex) 1
    modifyRes fun r => { r with
      submittedViews := r.submittedViews.set 1 (r.submittedViews.get 1 ++ [view]) }
    InitD3D12_arraySubmittedViews rt rest

/-- The loop of lines 258-264: for every output texture of the left eye, a view
and a UAV on array slice 1 of `resolvedTex` (the right eye's resolve texture when
there is one, the output texture otherwise), appended to the right eye's lists. -/
def InitD3D12_arrayOutputViews (rt : Runtime) : List ID3D12Resource → Act Unit
  | [] => pure ()
  | tex :: rest => do
    let r ← getRes
    let resolvedTex := if r.resolveTexture.get 1 ≠ none then r.resolveTexture.get 1 else some tex
    let view ← CreateShaderResourceView rt r.device resolvedTex 1
    modifyRes fun r => { r with
      outputViews := r.outputViews.set 1 (r.outputViews.get 1 ++ [view]) }
    let r ← getRes
    let uav ← CreateUnorderedAccessView rt r.device resolvedTex 1
    modifyRes fun r => { r with
      outputUavs := r.outputUavs.set 1 (r.outputUavs.get 1 ++ [uav]) }
    InitD3D12_arrayOutputViews rt rest

/-- The assignments of lines 241-243: the right eye shares the left eye's
submitted textures, resolve texture and output textures. -/
def shareTextures (r : OculusD3D12Resources) : OculusD3D12Resources :=
  { r with
    submittedTextures := r.submittedTextures.set 1 (r.submittedTextures.get 0)
    resolveTexture := r.resolveTexture.set 1 (r.resolveTexture.get 0)
    outputTextures := r.outputTextures.set 1 (r.outputTextures.get 0) }

/-- The assignments of lines 247-249: the right eye shares the left eye's views. -/
def shareViews (r : OculusD3D12Resources) : OculusD3D12Resources :=
  { r with
    submittedViews := r.submittedViews.set 1 (r.submittedViews.get 0)
    outputViews := r.outputViews.set 1 (r.outputViews.get 0)
    outputUavs := r.outputUavs.set 1 (r.outputUavs.get 0) }

/-- The assignment `usingArrayTex = b` (lines 236 and 253). -/
def setUsingArrayTex (b : Bool) (r : OculusD3D12Resources) : OculusD3D12Resources :=
  { r with usingArrayTex := b }

/-- The block of lines 238-266, entered when the right eye got no output chain of
its own: the right eye shares the left eye's chain and textures. -/
def InitD3D12_shared (rt : Runtime) : Act Unit := do
  modifySelf fun m => { m with outputEyeChains := m.outputEyeChains.set 1 (m.outputEyeChains.get 0) }
  modifyRes shareTextures
  let m ← getSelf
  let chainDesc ← Check (rt.GetTextureSwapChainDesc m.session (m.submittedEyeChains.get 0))
  if chainDesc.ArraySize = 1 then
    modifyRes shareViews
  else do
    modifyRes (setUsingArrayTex true)
    let r ← getRes
    InitD3D12_arraySubmittedViews rt (r.submittedTextures.get 0)
    let r ← getRes
    InitD3D12_arrayOutputViews rt (r.outputTextures.get 0)

/-- Lines 268-272 of `InitD3D12`: create the post-processor, the shading-rate
controller and the dispatcher, and register the first two as listeners. -/
def InitD3D12_components (rt : Runtime) : Act Unit := do
  let r ← getRes
  let postProcessor ← Check (rt.newD3D12PostProcessor r.device)
  modifyRes fun r => { r with postProcessor := some postProcessor }
  let variableRateShading ← Check (rt.newD3D12VariableRateShading r.device)
  modifyRes fun r => { r with variableRateShading := some variableRateShading }
  (if rt.newD3D12Injector r.device then pure () else raise)
  modifyRes fun r => { r with injector := some { listeners := [] } }
  modifyRes fun r => { r with injector := r.injector.map fun i => i.AddListener postProcessor }
  modifyRes fun r => { r with injector := r.injector.map fun i => i.AddListener variableRateShading }

/-- `OculusManager::InitD3D12` (lines 169-276). -/
def InitD3D12 (rt : Runtime) : Act Unit := do
  modifySelf fun m => { m with graphicsApi := GraphicsApi.D3D12 }
  modifySelf fun m => { m with d3d12Res := some {} }
  InitD3D12_eye rt 0
  InitD3D12_eye rt 1
  modifyRes (setUsingArrayTex false)
  let m ← getSelf
  (if m.outputEyeChains.get 1 = none then InitD3D12_shared rt else pure ())
  InitD3D12_components rt
  modifySelf fun m => { m with initialized := true }

/-- The `try` block of `Init` (lines 90-98): probe the left chain for a D3D12
buffer and, if there is one, initialise the D3D12 resources. -/
def Init_try (rt : Runtime) (session : ovrSession) (leftEyeChain : ovrTextureSwapChain) :
    Act Unit :=
  if rt.GetTextureSwapChainBufferDX session leftEyeChain 0 ≠ none then InitD3D12 rt else pure ()

/-- `OculusManager::Init` (lines 83-110). -/
def Init (rt : Runtime) (session : ovrSession) (leftEyeChain rightEyeChain : ovrTextureSwapChain) :
    Act Unit := do
  modifySelf fun m => { m with session := session }
  modifySelf fun m => { m with submittedEyeChains := m.submittedEyeChains.set 0 leftEyeChain }
  modifySelf fun m => { m with submittedEyeChains := m.submittedEyeChains.set 1 rightEyeChain }
  tryCatch (Init_try rt session leftEyeChain) (pure ())
  let m ← getSelf
  if ¬ m.initialized then do
    Shutdown
    modifySelf fun m => { m with failed := true }
  else pure ()

/-- `OculusManager::EnsureInit` (lines 127-132). -/
def EnsureInit (rt : Runtime) (session : ovrSession)
    (leftEyeChain rightEyeChain : ovrTextureSwapChain) : Act Unit := do
  let m ← getSelf
  if ¬ m.initialized ∨ session ≠ m.session ∨ leftEyeChain ≠ m.submittedEyeChains.get 0 ∨
      rightEyeChain ≠ m.submittedEyeChains.get 1 then do
    Shutdown
    Init rt session leftEyeChain rightEyeChain
  else pure ()

/-- `OculusManager::CalculateProjectionCenter` (lines 157-167): the centres are
`float` expressions of the field of view and stay symbolic; what remains is the
dereference of `d3d12Res` and the call of `SetProjCenters`. -/
def CalculateProjectionCenter : Act Unit := do
  let _ ← getRes
  emit Event.SetProjCenters

/-- The stereo layout chosen at lines 324-332. -/
def textureMode (submittedEyeChains : PerEye ovrTextureSwapChain) (usingArrayTex : Bool) :
    TextureMode :=
  if submittedEyeChains.get 1 = none ∨ submittedEyeChains.get 1 = submittedEyeChains.get 0 then
    if usingArrayTex then TextureMode.ARRAY else TextureMode.COMBINED
  else TextureMode.SINGLE

/-- The viewport written back into the layer at lines 337-340. -/
def outputRect (outputViewport : Viewport) : ovrRecti :=
  { Pos := { x := outputViewport.x, y := outputViewport.y }
    Size := { w := outputViewport.width, h := outputViewport.height } }

/-- The first part of the body of the per-eye loop of `PostProcessD3D12` (lines
284-332): find the populated submitted image, resolve it when multi-sampled, and
fill in the frame context. -/
def PostProcessD3D12_input (rt : Runtime) (isFlippedY : Bool) (eye : Fin 2) :
    Act D3D12PostProcessInput := do
  let m ← getSelf
  let curSwapChain :=
    if m.submittedEyeChains.get eye ≠ none then m.submittedEyeChains.get eye
    else m.submittedEyeChains.get 0
  let reported ← Check (rt.GetTextureSwapChainCurrentIndex m.session curSwapChain)
  let r ← getRes
  let index ← defined (submittedIndex reported (r.submittedTextures.get eye).length)
  (if r.multisampled.get eye then
    if r.usingArrayTex ∨ m.submittedEyeChains.get eye ≠ none then do
      let src ← defined ((r.submittedTextures.get eye)[toSizeT index]?)
      let td := rt.GetDesc src
      let slice : Int := if r.usingArrayTex then (eye.val : Int) else 0
      emit (Event.ResolveSubresource (r.resolveTexture.get eye)
        (D3D12CalcSubresource 0 slice 1) src (D3D12CalcSubresource 0 slice td.MipLevels)
        (rt.TranslateTypelessFormats td.Format))
    else pure ()
  else pure ())
  let outIndex : Int :=
    (rt.GetTextureSwapChainCurrentIndex m.session (m.outputEyeChains.get eye)).getD 0
  let inputTexture ← defined ((r.submittedTextures.get eye)[toSizeT index]?)
  let inputView ← defined ((r.submittedViews.get eye)[toSizeT index]?)
  let outputTexture ← defined ((r.outputTextures.get eye)[toSizeT outIndex]?)
  let outputView ← defined ((r.outputViews.get eye)[toSizeT outIndex]?)
  let outputUav ← defined ((r.outputUavs.get eye)[toSizeT outIndex]?)
  let eyeLayer ← getLayer
  pure
    { inputTexture := inputTexture
      inputView := inputView
      outputTexture := outputTexture
      outputView := outputView
      outputUav := outputUav
      inputViewport :=
        { x := (eyeLayer.Viewport.get eye).Pos.x
          y := (eyeLayer.Viewport.get eye).Pos.y
          width := (eyeLayer.Viewport.get eye).Size.w
          height := (eyeLayer.Viewport.get eye).Size.h }
      eye := eye
      projectionCenter := { eye := eye, flippedY := isFlippedY }
      mode := textureMode m.submittedEyeChains r.usingArrayTex }

/-- The body of the per-eye loop of `PostProcessD3D12` (lines 283-351).  The
argument and the result are the local `successfulPostprocessing`. -/
def PostProcessD3D12_eye (rt : Runtime) (isFlippedY : Bool) (eye : Fin 2)
    (successfulPostprocessing : Bool) : Act Bool := do
  let input ← PostProcessD3D12_input rt isFlippedY eye
  let m ← getSelf
  emit (Event.Apply input (rt.Apply input))
  let success ← (match rt.Apply input with
    | some outputViewport => do
      modifyLayer fun l => { l with ColorTexture := l.ColorTexture.set eye (m.outputEyeChains.get eye) }
      modifyLayer fun l => { l with Viewport := l.Viewport.set eye (outputRect outputViewport) }
      pure true
    | none => pure successfulPostprocessing)
  let td := rt.GetDesc input.inputTexture
  emit (Event.UpdateTargetInformation td.Width td.Height input.mode isFlippedY)
  pure success

/-- `OculusManager::PostProcessD3D12` (lines 278-361), acting on the layer held
in the world. -/
def PostProcessD3D12 (rt : Runtime) : Act Unit := do
  CalculateProjectionCenter
  let eyeLayer ← getLayer
  let isFlippedY : Bool := eyeLayer.Flags &&& ovrLayerFlag_TextureOriginAtBottomLeft ≠ 0
  let s0 ← PostProcessD3D12_eye rt isFlippedY 0 false
  let successfulPostprocessing ← PostProcessD3D12_eye rt isFlippedY 1 s0
  emit Event.EndFrame
  let m ← getSelf
  if successfulPostprocessing then do
    emit (Event.CommitTextureSwapChain m.session (m.outputEyeChains.get 0))
    (if m.outputEyeChains.get 1 ≠ m.outputEyeChains.get 0 then
      emit (Event.CommitTextureSwapChain m.session (m.outputEyeChains.get 1))
    else pure ())
  else pure ()

/-- The external `CheckHotkeys`. -/
def CheckHotkeys (rt : Runtime) : Act Unit := do
  emit Event.CheckHotkeys
  if rt.CheckHotkeys then pure () else raise

/-- The `try` block of `OnFrameSubmission` (lines 143-149). -/
def OnFrameSubmission_try (rt : Runtime) : Act Unit := do
  let m ← getSelf
  (if m.graphicsApi = GraphicsApi.D3D12 then PostProcessD3D12 rt else pure ())
  CheckHotkeys rt

/-- The `catch` block of `OnFrameSubmission` (lines 150-154). -/
def OnFrameSubmission_catch : Act Unit := do
  Shutdown
  modifySelf fun m => { m with failed := true }

/-- `OculusManager::OnFrameSubmission` (lines 134-155), acting on the layer held
in the world. -/
def OnFrameSubmission (rt : Runtime) (session : ovrSession) : Act Unit := do
  let m ← getSelf
  let eyeLayer ← getLayer
  if m.failed ∨ session = none ∨ eyeLayer.ColorTexture.get 0 = none then pure ()
  else do
    EnsureInit rt session (eyeLayer.ColorTexture.get 0) (eyeLayer.ColorTexture.get 1)
    let m ← getSelf
    if m.failed then pure ()
    else tryCatch (OnFrameSubmission_try rt) OnFrameSubmission_catch

/-- A call `g_oculus.OnFrameSubmission(session, eyeLayer)` made by the
application with its own layer: the layer is placed in the world, the call runs,
and the world it leaves holds the layer as the compositor will receive it. -/
def submitFrame (rt : Runtime) (session : ovrSession) (eyeLayer : ovrLayerEyeFovDepth)
    (w : World) : Outcome Unit × World :=
  OnFrameSubmission rt session { w with eyeLayer := eyeLayer }

/-- A frame as the application submits it: what the outside answers during the
call, the session and the layer. -/
structure Frame where
  rt : Runtime
  session : ovrSession
  eyeLayer : ovrLayerEyeFovDepth

/-- The worlds left by a sequence of frame submissions, one per frame, each
started in the world the previous one left. -/
def submitFrames : List Frame → World → List (Outcome Unit × World)
  | [], _ => []
  | f :: rest, w =>
    submitFrame f.rt f.session f.eyeLayer w ::
      submitFrames rest (submitFrame f.rt f.session f.eyeLayer w).2

/-! ## Reasoning about statements -/

/-- The outcome and the final world of statement `a`, started in `w`, satisfy `Q`. -/
def wp {α : Type} (a : Act α) (Q : Outcome α → World → Prop) (w : World) : Prop :=
  Q (a w).1 (a w).2

/-- The condition to establish after the first statement of a sequence so that
the whole sequence satisfies `Q`. -/
def bindPost {α β : Type} (f : α → Act β) (Q : Outcome β → World → Prop) :
    Outcome α → World → Prop
  | Outcome.ok a, w => wp (f a) Q w
  | Outcome.threw, w => Q Outcome.threw w
  | Outcome.undefined, w => Q Outcome.undefined w

/-- The condition to establish after the body of a `try` block. -/
def catchPost (handler : Act Unit) (Q : Outcome Unit → World → Prop) :
    Outcome Unit → World → Prop
  | Outcome.ok a, w => Q (Outcome.ok a) w
  | Outcome.threw, w => wp handler Q w
  | Outcome.undefined, w => Q Outcome.undefined w

/-- The `ovr_DestroyTextureSwapChain` calls of `Shutdown`, in program order. -/
def shutdownEvents (m : OculusManager) : List Event :=
  (if m.outputEyeChains.get 0 ≠ none then
      [Event.DestroyTextureSwapChain m.session (m.outputEyeChains.get 0)] else []) ++
  (if m.outputEyeChains.get 1 ≠ none then
      [Event.DestroyTextureSwapChain m.session (m.outputEyeChains.get 1)] else [])

/-- The world after the assignments of lines 84-86 of `Init`. -/
def storeIdentities (session : ovrSession) (leftEyeChain rightEyeChain : ovrTextureSwapChain)
    (w : World) : World :=
  { w with self := { w.self with
      session := session, submittedEyeChains := ⟨leftEyeChain, rightEyeChain⟩ } }

/-- The world `Shutdown` leaves: the manager back at its initial values, the
output chains it held destroyed. -/
def tornDown (w : World) : World :=
  { w with self := {}, events := w.events ++ shutdownEvents w.self }

/-- The world `Init` leaves when the session did not become valid: torn down, with
the failure flag set (lines 103-107). -/
def markFailed (w : World) : World :=
  { w with self := { failed := true }, events := w.events ++ shutdownEvents w.self }

/-- The condition under which `EnsureInit` rebuilds the session (line 128). -/
def needsInit (m : OculusManager) (session : ovrSession)
    (leftEyeChain rightEyeChain : ovrTextureSwapChain) : Prop :=
  ¬ m.initialized ∨ session ≠ m.session ∨ leftEyeChain ≠ m.submittedEyeChains.get 0 ∨
    rightEyeChain ≠ m.submittedEyeChains.get 1

instance (m : OculusManager) (session : ovrSession)
    (leftEyeChain rightEyeChain : ovrTextureSwapChain) :
    Decidable (needsInit m session leftEyeChain rightEyeChain) := by
  unfold needsInit; infer_instance

/-- Statement `a` leaves the observation `p` of the world as it found it, however
it ends. -/
def Keeps {α β : Type} (p : World → β) (a : Act α) : Prop :=
  ∀ w, p (a w).2 = p w

/-- Statement `a` leaves the observation `p` as it found it unless it completes
normally. -/
def KeepsUnlessOk {α β : Type} (p : World → β) (a : Act α) : Prop :=
  ∀ w, (∃ x, (a w).1 = Outcome.ok x) ∨ p (a w).2 = p w

/-- Whenever statement `a` completes normally, the world it leaves satisfies `P`. -/
def OkPost {α : Type} (a : Act α) (P : World → Prop) : Prop :=
  ∀ w x, (a w).1 = Outcome.ok x → P (a w).2

/-! ## Concrete runs -/

/-- A runtime in which the backend is available and every call succeeds: chains
of three images, buffer `i` of chain `c` being texture `100 * c + i`, single
sampled, array size one, current index one; output chains `20` and `21`. -/
def availableRuntime : Runtime where
  GetTextureSwapChainBufferDX := fun _ c i => c.map fun c => 100 * c + i.toNat
  GetTextureSwapChainLength := fun _ _ => some 3
  GetTextureSwapChainDesc := fun _ _ => some
    { Format := ovrTextureFormat.OVR_FORMAT_R8G8B8A8_UNORM_SRGB, ArraySize := 1, Width := 1000,
      Height := 1000, MipLevels := 1, SampleCount := 1, StaticImage := false, MiscFlags := 0,
      BindFlags := 0 }
  GetTextureSwapChainCurrentIndex := fun _ _ => some 1
  CreateTextureSwapChainDX := fun eye _ _ _ => some (20 + eye.val)
  GetDevice := fun _ => 7
  GetImmediateContext := fun _ => 8
  GetDesc := fun _ => { Width := 1000, Height := 1000, MipLevels := 1, Format := 28 }
  CreateShaderResourceView := fun _ _ _ => true
  CreateUnorderedAccessView := fun _ _ _ => true
  CreateResolveTexture := fun _ _ => some 99
  TranslateTypelessFormats := fun f => f
  AdjustOutputResolution := fun w h => (2 * w, 2 * h)
  newD3D12PostProcessor := fun _ => some 1
  newD3D12VariableRateShading := fun _ => some 2
  newD3D12Injector := fun _ => true
  Apply := fun i =>
    some { x := 0, y := 0, width := 2 * i.inputViewport.width, height := 2 * i.inputViewport.height }
  CheckHotkeys := true

/-- A runtime whose swap chains are not D3D12 chains: the probe of `Init` fails. -/
def unsupportedRuntime : Runtime :=
  { availableRuntime with GetTextureSwapChainBufferDX := fun _ _ _ => none }

/-- A runtime in which initialisation succeeds and the current-index query then
fails, so that post-processing raises. -/
def indexFailingRuntime : Runtime :=
  { availableRuntime with GetTextureSwapChainCurrentIndex := fun _ _ => none }

/-- A layer with independent chains `10` and `11` and full-size viewports. -/
def demoLayer : ovrLayerEyeFovDepth :=
  { Flags := 0, ColorTexture := ⟨some 10, some 11⟩,
    Viewport := ⟨⟨⟨0, 0⟩, ⟨1000, 1000⟩⟩, ⟨⟨0, 0⟩, ⟨1000, 1000⟩⟩⟩ }

/-- The world at program start: the manager at its initial values, nothing
done yet. -/
def initialWorld : World := { self := {}, eyeLayer := demoLayer, events := [] }

/-! ## What one frame does, in closed form -/

/-- The chain whose current index is queried for `eye` (line 285). -/
def curSwapChain (m : OculusManager) (eye : Fin 2) : ovrTextureSwapChain :=
  if m.submittedEyeChains.get eye ≠ none then m.submittedEyeChains.get eye
  else m.submittedEyeChains.get 0

/-- The value of `outIndex` for `eye` (lines 304-305): what the output chain's
current-index query reports, `0` if the query fails. -/
def outIndex (rt : Runtime) (m : OculusManager) (eye : Fin 2) : Int :=
  (rt.GetTextureSwapChainCurrentIndex m.session (m.outputEyeChains.get eye)).getD 0

/-- `inp` is the frame context that lines 284-332 fill in for `eye`, for manager
`m` with resources `r` and the eye's submitted viewport `vp`, when the submitted
chain's current-index query reports `reported`. -/
structure FrameInput (rt : Runtime) (m : OculusManager) (r : OculusD3D12Resources)
    (vp : ovrRecti) (isFlippedY : Bool) (eye : Fin 2) (reported index : Int)
    (inp : D3D12PostProcessInput) : Prop where
  res : m.d3d12Res = some r
  reported_eq : rt.GetTextureSwapChainCurrentIndex m.session (curSwapChain m eye) = some reported
  index_eq : submittedIndex reported (r.submittedTextures.get eye).length = some index
  inputTexture : (r.submittedTextures.get eye)[toSizeT index]? = some inp.inputTexture
  inputView : (r.submittedViews.get eye)[toSizeT index]? = some inp.inputView
  outputTexture : (r.outputTextures.get eye)[toSizeT (outIndex rt m eye)]? = some inp.outputTexture
  outputView : (r.outputViews.get eye)[toSizeT (outIndex rt m eye)]? = some inp.outputView
  outputUav : (r.outputUavs.get eye)[toSizeT (outIndex rt m eye)]? = some inp.outputUav
  inputViewport : inp.inputViewport =
    { x := vp.Pos.x, y := vp.Pos.y, width := vp.Size.w, height := vp.Size.h }
  eye_eq : inp.eye = eye
  projectionCenter : inp.projectionCenter = { eye := eye, flippedY := isFlippedY }
  mode : inp.mode = textureMode m.submittedEyeChains r.usingArrayTex

/-- The `ResolveSubresource` call made for `eye` before its `Apply` (lines
290-302), if any; `src` is the populated submitted image. -/
def resolveEvents (rt : Runtime) (m : OculusManager) (r : OculusD3D12Resources) (eye : Fin 2)
    (src : ID3D12Resource) : List Event :=
  if r.multisampled.get eye = true ∧ (r.usingArrayTex = true ∨ m.submittedEyeChains.get eye ≠ none) then
    [Event.ResolveSubresource (r.resolveTexture.get eye)
      (D3D12CalcSubresource 0 (if r.usingArrayTex then (eye.val : Int) else 0) 1) src
      (D3D12CalcSubresource 0 (if r.usingArrayTex then (eye.val : Int) else 0)
        (rt.GetDesc src).MipLevels)
      (rt.TranslateTypelessFormats (rt.GetDesc src).Format)]
  else []

/-- The outside calls of one completed iteration of the per-eye loop. -/
def eyeEvents (rt : Runtime) (m : OculusManager) (r : OculusD3D12Resources) (isFlippedY : Bool)
    (eye : Fin 2) (inp : D3D12PostProcessInput) : List Event :=
  resolveEvents rt m r eye inp.inputTexture ++
    [Event.Apply inp (rt.Apply inp),
     Event.UpdateTargetInformation (rt.GetDesc inp.inputTexture).Width
       (rt.GetDesc inp.inputTexture).Height inp.mode isFlippedY]

/-- The layer after lines 334-342 for `eye`, given what `Apply` returned. -/
def applyResult (m : OculusManager) (eye : Fin 2) (result : Option Viewport)
    (l : ovrLayerEyeFovDepth) : ovrLayerEyeFovDepth :=
  match result with
  | some outputViewport =>
    { l with
      ColorTexture := l.ColorTexture.set eye (m.outputEyeChains.get eye)
      Viewport := l.Viewport.set eye (outputRect outputViewport) }
  | none => l

/-- The `ovr_CommitTextureSwapChain` calls at the end of `PostProcessD3D12`
(lines 355-360). -/
def commitEvents (m : OculusManager) (successfulPostprocessing : Bool) : List Event :=
  if successfulPostprocessing then
    Event.CommitTextureSwapChain m.session (m.outputEyeChains.get 0) ::
      (if m.outputEyeChains.get 1 ≠ m.outputEyeChains.get 0 then
        [Event.CommitTextureSwapChain m.session (m.outputEyeChains.get 1)] else [])
  else []

/-- The local `isFlippedY` of `PostProcessD3D12` (line 281). -/
def isFlippedY (eyeLayer : ovrLayerEyeFovDepth) : Bool :=
  eyeLayer.Flags &&& ovrLayerFlag_TextureOriginAtBottomLeft ≠ 0

/-- The outside calls made between world `w` and a later world `w'`. -/
def newEvents (w w' : World) : List Event := w'.events.drop w.events.length

/-- The outside calls of a completed `PostProcessD3D12`. -/
def frameEvents (rt : Runtime) (m : OculusManager) (r : OculusD3D12Resources) (flip : Bool)
    (inp0 inp1 : D3D12PostProcessInput) : List Event :=
  [Event.SetProjCenters] ++ eyeEvents rt m r flip 0 inp0 ++ eyeEvents rt m r flip 1 inp1 ++
    [Event.EndFrame] ++ commitEvents m ((rt.Apply inp0).isSome || (rt.Apply inp1).isSome)

/-- The world after the first frame of a session, submitted with `demoLayer` to
an available backend: the manager is initialised. -/
def frameStart : World := (submitFrame availableRuntime (some 1) demoLayer initialWorld).2

/-- The world after `PostProcessD3D12` ran once more in `frameStart`. -/
def frameEnd : World := (PostProcessD3D12 availableRuntime frameStart).2

/-! ## `d3d12_injector.cpp`: the hook dispatcher -/

/-- An intercepted call on the device context, with its arguments (pointers and
the `FLOAT` depth are carried as codes). -/
inductive Call where
  | PSSetSamplers (StartSlot NumSamplers ppSamplers : Nat)
  | OMSetRenderTargets (NumViews ppRenderTargetViews pDepthStencilView : Nat)
  | OMSetRenderTargetsAndUnorderedAccessViews (NumRTVs ppRenderTargetViews pDepthStencilView
      UAVStartSlot NumUAVs ppUnorderedAccessViews pUAVInitialCounts : Nat)
  | ClearDepthStencilView (pDepthStencilView ClearFlags Depth Stencil : Nat)
deriving DecidableEq, Repr

/-- What a listener object does when one of its three virtual methods is invoked:
the intercepted calls it issues on the same context while it runs, in order, and
for `PrePSSetSamplers` the value it returns.  The base class `D3D12Listener`
issues nothing and returns `false`. -/
structure D3D12Listener where
  PrePSSetSamplers : Nat → Nat → Nat → List Call × Bool := fun _ _ _ => ([], false)
  PostOMSetRenderTargets : Nat → Nat → Nat → List Call := fun _ _ _ => []
  ClearDepthStencilView : Nat → Nat → Nat → Nat → List Call := fun _ _ _ _ => []

/-- What happens on the context, in order: the original implementation is
invoked, or a listener method is invoked. -/
inductive HookEvent where
  | CallOriginal (call : Call)
  | PrePSSetSamplers (listener : ListenerPtr) (startSlot numSamplers ppSamplers : Nat)
  | PostOMSetRenderTargets (listener : ListenerPtr)
      (numViews renderTargetViews depthStencilView : Nat)
  | ClearDepthStencilView (listener : ListenerPtr)
      (pDepthStencilView ClearFlags Depth Stencil : Nat)
deriving DecidableEq, Repr

/-- The state the trampolines act on: the global flag `alreadyInsideHook`
(line 8) and the record of what happened on the context. -/
structure HookWorld where
  alreadyInsideHook : Bool := false
  trace : List HookEvent := []
deriving DecidableEq, Repr

/-- The calling context: the dispatcher attached to it as private data, if any
(`GetInjector`), and the object each listener pointer designates. -/
structure Context where
  injector : Option D3D12Injector
  objects : ListenerPtr → D3D12Listener

/-- The flag `D3D12_CLEAR_DEPTH`. -/
def D3D12_CLEAR_DEPTH : Nat := 1

/-- The intercepted calls a running listener issues, executed in order by `call`
(the way a call on the context is executed); `none` if one of them does not
return. -/
def issue (call : Call → HookWorld → Option HookWorld) : List Call → HookWorld → Option HookWorld
  | [], w => some w
  | c :: rest, w =>
    match call c w with
    | none => none
    | some w' => issue call rest w'

/-- `D3D12Injector::PrePSSetSamplers` (lines 147-155) over the remaining
listeners: each is invoked in turn, and the first that returns `true` ends the
loop with `true`. -/
def D3D12Injector.PrePSSetSamplers (call : Call → HookWorld → Option HookWorld)
    (objects : ListenerPtr → D3D12Listener) (startSlot numSamplers ppSamplers : Nat) :
    List ListenerPtr → HookWorld → Option (Bool × HookWorld)
  | [], w => some (false, w)
  | listener :: rest, w =>
    match issue call ((objects listener).PrePSSetSamplers startSlot numSamplers ppSamplers).1
        { w with trace := w.trace ++
          [HookEvent.PrePSSetSamplers listener startSlot numSamplers ppSamplers] } with
    | none => none
    | some w' =>
      if ((objects listener).PrePSSetSamplers startSlot numSamplers ppSamplers).2 then
        some (true, w')
      else D3D12Injector.PrePSSetSamplers call objects startSlot numSamplers ppSamplers rest w'

/-- `D3D12Injector::PostOMSetRenderTargets` (lines 157-161) over the remaining
listeners. -/
def D3D12Injector.PostOMSetRenderTargets (call : Call → HookWorld → Option HookWorld)
    (objects : ListenerPtr → D3D12Listener) (numViews renderTargetViews depthStencilView : Nat) :
    List ListenerPtr → HookWorld → Option HookWorld
  | [], w => some w
  | listener :: rest, w =>
    match issue call
        ((objects listener).PostOMSetRenderTargets numViews renderTargetViews depthStencilView)
        { w with trace := w.trace ++
          [HookEvent.PostOMSetRenderTargets listener numViews renderTargetViews
            depthStencilView] } with
    | none => none
    | some w' =>
      D3D12Injector.PostOMSetRenderTargets call objects numViews renderTargetViews
        depthStencilView rest w'

/-- The loop of `D3D12Injector::ClearDepthStencilView` (lines 165-167) over the
remaining listeners. -/
def D3D12Injector.ClearDepthStencilView_loop (call : Call → HookWorld → Option HookWorld)
    (objects : ListenerPtr → D3D12Listener) (pDepthStencilView ClearFlags Depth Stencil : Nat) :
    List ListenerPtr → HookWorld → Option HookWorld
  | [], w => some w
  | listener :: rest, w =>
    match issue call
        ((objects listener).ClearDepthStencilView pDepthStencilView ClearFlags Depth Stencil)
        { w with trace := w.trace ++
          [HookEvent.ClearDepthStencilView listener pDepthStencilView ClearFlags Depth
            Stencil] } with
    | none => none
    | some w' =>
      D3D12Injector.ClearDepthStencilView_loop call objects pDepthStencilView ClearFlags Depth
        Stencil rest w'

/-- `D3D12Injector::ClearDepthStencilView` (lines 163-171). -/
def D3D12Injector.ClearDepthStencilView (call : Call → HookWorld → Option HookWorld)
    (objects : ListenerPtr → D3D12Listener) (inj : D3D12Injector)
    (pDepthStencilView ClearFlags Depth Stencil : Nat) (w : HookWorld) : Option HookWorld :=
  if ClearFlags &&& D3D12_CLEAR_DEPTH ≠ 0 then
    D3D12Injector.ClearDepthStencilView_loop call objects pDepthStencilView ClearFlags Depth
      Stencil inj.listeners w
  else some w

/-- The constructor of `HookGuard` (lines 12-15): the saved flag `state`, and the
world with the flag set. -/
def HookGuard_enter (w : HookWorld) : Bool × HookWorld :=
  (w.alreadyInsideHook, { w with alreadyInsideHook := true })

/-- The destructor of `HookGuard` (lines 17-19): the flag is set back to the
saved `state`. -/
def HookGuard_exit (state : Bool) (w : HookWorld) : HookWorld :=
  { w with alreadyInsideHook := state }

/-- The forwarding `hooks::CallOriginal(...)(...)`: the original implementation
runs with the arguments of `call`. -/
def CallOriginal (call : Call) (w : HookWorld) : HookWorld :=
  { w with trace := w.trace ++ [HookEvent.CallOriginal call] }

/-- The trampoline `D3D12ContextHook_PSSetSamplers` (lines 35-46). -/
def D3D12ContextHook_PSSetSamplers (call : Call → HookWorld → Option HookWorld) (self : Context)
    (StartSlot NumSamplers ppSamplers : Nat) (w : HookWorld) : Option HookWorld :=
  let hookGuard := HookGuard_enter w
  match self.injector with
  | some injector =>
    if ¬ hookGuard.1 then
      match D3D12Injector.PrePSSetSamplers call self.objects StartSlot NumSamplers ppSamplers
          injector.listeners hookGuard.2 with
      | none => none
      | some (true, w2) => some (HookGuard_exit hookGuard.1 w2)
      | some (false, w2) =>
        some (HookGuard_exit hookGuard.1
          (CallOriginal (Call.PSSetSamplers StartSlot NumSamplers ppSamplers) w2))
    else
      some (HookGuard_exit hookGuard.1
        (CallOriginal (Call.PSSetSamplers StartSlot NumSamplers ppSamplers) hookGuard.2))
  | none =>
    some (HookGuard_exit hookGuard.1
      (CallOriginal (Call.PSSetSamplers StartSlot NumSamplers ppSamplers) hookGuard.2))

/-- The trampoline `D3D12ContextHook_OMSetRenderTargets` (lines 48-59). -/
def D3D12ContextHook_OMSetRenderTargets (call : Call → HookWorld → Option HookWorld)
    (self : Context) (NumViews ppRenderTargetViews pDepthStencilView : Nat) (w : HookWorld) :
    Option HookWorld :=
  let hookGuard := HookGuard_enter w
  let w1 := CallOriginal (Call.OMSetRenderTargets NumViews ppRenderTargetViews pDepthStencilView)
    hookGuard.2
  match self.injector with
  | some injector =>
    match D3D12Injector.PostOMSetRenderTargets call self.objects NumViews ppRenderTargetViews
        pDepthStencilView injector.listeners w1 with
    | none => none
    | some w2 => some (HookGuard_exit hookGuard.1 w2)
  | none => some (HookGuard_exit hookGuard.1 w1)

/-- The trampoline `D3D12ContextHook_OMSetRenderTargetsAndUnorderedAccessViews`
(lines 61-77). -/
def D3D12ContextHook_OMSetRenderTargetsAndUnorderedAccessViews
    (call : Call → HookWorld → Option HookWorld) (self : Context)
    (NumRTVs ppRenderTargetViews pDepthStencilView UAVStartSlot NumUAVs ppUnorderedAccessViews
      pUAVInitialCounts : Nat) (w : HookWorld) : Option HookWorld :=
  let hookGuard := HookGuard_enter w
  let w1 := CallOriginal (Call.OMSetRenderTargetsAndUnorderedAccessViews NumRTVs
    ppRenderTargetViews pDepthStencilView UAVStartSlot NumUAVs ppUnorderedAccessViews
    pUAVInitialCounts) hookGuard.2
  match self.injector with
  | some injector =>
    match D3D12Injector.PostOMSetRenderTargets call self.objects NumRTVs ppRenderTargetViews
        pDepthStencilView injector.listeners w1 with
    | none => none
    | some w2 => some (HookGuard_exit hookGuard.1 w2)
  | none => some (HookGuard_exit hookGuard.1 w1)

/-- The trampoline `D3D12ContextHook_ClearDepthStencilView` (lines 79-92). -/
def D3D12ContextHook_ClearDepthStencilView (call : Call → HookWorld → Option HookWorld)
    (self : Context) (pDepthStencilView ClearFlags Depth Stencil : Nat) (w : HookWorld) :
    Option HookWorld :=
  let hookGuard := HookGuard_enter w
  let w1 := CallOriginal (Call.ClearDepthStencilView pDepthStencilView ClearFlags Depth Stencil)
    hookGuard.2
  match self.injector with
  | some injector =>
    match D3D12Injector.ClearDepthStencilView call self.objects injector pDepthStencilView
        ClearFlags Depth Stencil w1 with
    | none => none
    | some w2 => some (HookGuard_exit hookGuard.1 w2)
  | none => some (HookGuard_exit hookGuard.1 w1)

/-- An intercepted call on a hooked context enters the trampoline installed for
its call site; calls made from inside are executed by `call`. -/
def trampoline (call : Call → HookWorld → Option HookWorld) (self : Context) :
    Call → HookWorld → Option HookWorld
  | Call.PSSetSamplers a b c => D3D12ContextHook_PSSetSamplers call self a b c
  | Call.OMSetRenderTargets a b c => D3D12ContextHook_OMSetRenderTargets call self a b c
  | Call.OMSetRenderTargetsAndUnorderedAccessViews a b c d e f g =>
    D3D12ContextHook_OMSetRenderTargetsAndUnorderedAccessViews call self a b c d e f g
  | Call.ClearDepthStencilView a b c d => D3D12ContextHook_ClearDepthStencilView call self a b c d

/-- Execution of an intercepted call on a context whose four call sites are
hooked, to nesting depth at most `depth`; `none` when some call nests deeper,
so a call that is `none` at every depth never returns. -/
def hookedCall (self : Context) : Nat → Call → HookWorld → Option HookWorld
  | 0 => fun _ _ => none
  | depth + 1 => trampoline (hookedCall self depth) self

/-- A listener that, whenever it is told of a render-target bind, binds render
targets itself. -/
def rebindingListener : D3D12Listener :=
  { PostOMSetRenderTargets := fun numViews views dsv => [Call.OMSetRenderTargets numViews views dsv] }

/-- A listener that binds render targets itself when told of a bind of two or
more views, and then binds a single view. -/
def rebindingOnceListener : D3D12Listener :=
  { PostOMSetRenderTargets := fun numViews views dsv =>
      if 2 ≤ numViews then [Call.OMSetRenderTargets 1 views dsv] else [] }

/-- A listener that clears the depth buffer itself when told of a depth clear
with a stencil value other than zero, using stencil zero. -/
def reclearingOnceListener : D3D12Listener :=
  { ClearDepthStencilView := fun dsv flags depth stencil =>
      if stencil ≠ 0 then [Call.ClearDepthStencilView dsv flags depth 0] else [] }

/-- A listener that binds samplers itself whenever it is told of a sampler bind. -/
def resamplingListener : D3D12Listener :=
  { PrePSSetSamplers := fun startSlot numSamplers samplers =>
      ([Call.PSSetSamplers startSlot numSamplers samplers], false) }

/-- A context with one registered listener, pointer `1`, designating `l`. -/
def contextWith (l : D3D12Listener) : Context :=
  { injector := some { listeners := [1] }, objects := fun _ => l }

/-! ## What initialisation builds -/

/-- The world with the resource record (if allocated) rewritten by `f`. -/
def updRes (f : OculusD3D12Resources → OculusD3D12Resources) (w : World) : World :=
  { w with self := { w.self with d3d12Res := w.self.d3d12Res.map f } }

/-- The view `CreateShaderResourceView` returns for a texture, array slice 0. -/
def viewOf (texture : ID3D12Resource) : ShaderResourceView :=
  { texture := some texture, arrayIndex := 0 }

/-- The view `CreateUnorderedAccessView` returns for a texture, array slice 0. -/
def uavOf (texture : ID3D12Resource) : UnorderedAccessView :=
  { texture := some texture, arrayIndex := 0 }

/-- The resource record after `texs` were appended to `submittedTextures[eye]`. -/
def pushSubmittedTextures (eye : Fin 2) (texs : List ID3D12Resource)
    (r : OculusD3D12Resources) : OculusD3D12Resources :=
  { r with
    submittedTextures := r.submittedTextures.set eye (r.submittedTextures.get eye ++ texs) }

/-- The resource record after `views` were appended to `submittedViews[eye]`. -/
def pushSubmittedViews (eye : Fin 2) (views : List ShaderResourceView)
    (r : OculusD3D12Resources) : OculusD3D12Resources :=
  { r with
    submittedViews := r.submittedViews.set eye (r.submittedViews.get eye ++ views) }

/-- The resource record after `texs` were appended to `outputTextures[eye]`, and
a view and a UAV of each of them to `outputViews[eye]` and `outputUavs[eye]`. -/
def pushOutputTextures (eye : Fin 2) (texs : List ID3D12Resource)
    (r : OculusD3D12Resources) : OculusD3D12Resources :=
  { r with
    outputTextures := r.outputTextures.set eye (r.outputTextures.get eye ++ texs)
    outputViews := r.outputViews.set eye (r.outputViews.get eye ++ texs.map viewOf)
    outputUavs := r.outputUavs.set eye (r.outputUavs.get eye ++ texs.map uavOf) }

/-- The condition under which the per-eye loop of `InitD3D12` skips `eye` (line
176): no chain was submitted for it, or it is the right eye and shares the left
eye's chain. -/
def skipsEye (m : OculusManager) (eye : Fin 2) : Prop :=
  m.submittedEyeChains.get eye = none ∨
    (eye = 1 ∧ m.submittedEyeChains.get 1 = m.submittedEyeChains.get 0)

instance (m : OculusManager) (eye : Fin 2) : Decidable (skipsEye m eye) := by
  unfold skipsEye; infer_instance

/-- The resource record after a completed iteration of the per-eye loop of
`InitD3D12` that did not skip the eye, as the composition of its updates in
program order: `texs` are the submitted images, `first` the first of them,
`resolve` the resolve texture created when the chain is multi-sampled, `views`
the views of the submitted images, `otexs` the images of the new output chain. -/
def eyeResources (rt : Runtime) (eye : Fin 2) (texs : List ID3D12Resource)
    (first : ID3D12Resource) (resolve : Option ID3D12Resource)
    (views : List ShaderResourceView) (otexs : List ID3D12Resource) :
    OculusD3D12Resources → OculusD3D12Resources :=
  pushOutputTextures eye otexs ∘ pushSubmittedViews eye views ∘ setResolve eye resolve ∘
    setDevice rt first ∘ pushSubmittedTextures eye texs ∘ clearMultisampled eye

/-- The world after the output chain `chain` was created for `eye` with
descriptor `desc` and stored (line 220). -/
def storeOutputChain (eye : Fin 2) (desc : ovrTextureSwapChainDesc) (chain : Nat) (w : World) :
    World :=
  { w with
    self := { w.self with outputEyeChains := w.self.outputEyeChains.set eye (some chain) }
    events := w.events ++ [Event.CreateTextureSwapChainDX w.self.session desc (some chain)] }

/-- What a completed iteration of the per-eye loop of `InitD3D12` that did not
skip `eye` has done, from world `w` with resources `r` to world `w'`. -/
structure EyeInit (rt : Runtime) (eye : Fin 2) (w w' : World) : Prop where
  exists_parts : ∃ (length : Int) (texs : List ID3D12Resource) (first : ID3D12Resource)
      (chainDesc : ovrTextureSwapChainDesc) (resolve : Option ID3D12Resource)
      (views : List ShaderResourceView) (chain : Nat) (outLength : Int)
      (otexs : List ID3D12Resource),
    rt.GetTextureSwapChainLength w.self.session (w.self.submittedEyeChains.get eye) = some length ∧
    texs.length = length.toNat ∧
    (∃ r, w.self.d3d12Res = some r ∧ (r.submittedTextures.get eye ++ texs)[0]? = some first) ∧
    rt.GetTextureSwapChainDesc w.self.session (w.self.submittedEyeChains.get eye)
      = some chainDesc ∧
    (resolve ≠ none ↔ chainDesc.SampleCount > 1) ∧
    views.length = length.toNat ∧
    rt.GetTextureSwapChainLength w.self.session (some chain) = some outLength ∧
    otexs.length = outLength.toNat ∧
    w' = updRes (eyeResources rt eye texs first resolve views otexs)
      (storeOutputChain eye (outputChainDesc rt chainDesc) chain w)

/-- The texture `resolvedTex` of line 259: the right eye's resolve texture if
there is one, else the output texture itself. -/
def resolvedTex (r : OculusD3D12Resources) (tex : ID3D12Resource) : Option ID3D12Resource :=
  if r.resolveTexture.get 1 ≠ none then r.resolveTexture.get 1 else some tex

/-- The view of array slice 1 of a texture (line 255). -/
def arrayViewOf (texture : ID3D12Resource) : ShaderResourceView :=
  { texture := some texture, arrayIndex := 1 }

/-- The resource record after the loop of lines 258-264 ran over `texs`. -/
def pushArrayOutputViews (texs : List ID3D12Resource) (r : OculusD3D12Resources) :
    OculusD3D12Resources :=
  { r with
    outputViews := r.outputViews.set 1 (r.outputViews.get 1 ++
      texs.map fun t => { texture := resolvedTex r t, arrayIndex := 1 })
    outputUavs := r.outputUavs.set 1 (r.outputUavs.get 1 ++
      texs.map fun t => { texture := resolvedTex r t, arrayIndex := 1 }) }

/-- The world after line 239: the right eye's output chain is the left eye's. -/
def shareOutputChain (w : World) : World :=
  { w with self := { w.self with
      outputEyeChains := w.self.outputEyeChains.set 1 (w.self.outputEyeChains.get 0) } }

/-- The resource record after the block of lines 238-266, for array size
`ArraySize` of the shared chain. -/
def sharedResources (ArraySize : Int) (r : OculusD3D12Resources) : OculusD3D12Resources :=
  if ArraySize = 1 then shareViews (shareTextures r)
  else
    pushArrayOutputViews ((shareTextures r).outputTextures.get 0)
      (pushSubmittedViews 1 (((shareTextures r).submittedTextures.get 0).map arrayViewOf)
        (setUsingArrayTex true (shareTextures r)))

/-- What a completed iteration of the per-eye loop of `InitD3D12` has done: for a
skipped eye it has cleared `multisampled[eye]`, otherwise what `EyeInit` says. -/
def EyeStep (rt : Runtime) (eye : Fin 2) (w w' : World) : Prop :=
  (skipsEye w.self eye ∧ w' = updRes (clearMultisampled eye) w) ∨
    (¬ skipsEye w.self eye ∧ EyeInit rt eye w w')

/-- What lines 238-266 have done when they complete: nothing if the right eye has
an output chain of its own; otherwise the sharing described by `sharedResources`
for the array size reported for the left submitted chain. -/
def SharedStep (rt : Runtime) (w w' : World) : Prop :=
  (w.self.outputEyeChains.get 1 = none ∧ ∃ chainDesc,
      rt.GetTextureSwapChainDesc w.self.session (w.self.submittedEyeChains.get 0)
        = some chainDesc ∧
      w' = updRes (sharedResources chainDesc.ArraySize) (shareOutputChain w)) ∨
    (w.self.outputEyeChains.get 1 ≠ none ∧ w' = w)

/-- The resource record after lines 268-272: the post-processor, the shading-rate
controller, and the dispatcher with both registered as listeners. -/
def setComponents (postProcessor variableRateShading : ListenerPtr)
    (r : OculusD3D12Resources) : OculusD3D12Resources :=
  { r with
    postProcessor := some postProcessor
    variableRateShading := some variableRateShading
    injector := some ((({ listeners := [] } : D3D12Injector).AddListener
      postProcessor).AddListener variableRateShading) }

/-- The world at line 174 of `InitD3D12`: backend tag set, fresh resource record. -/
def initStart (w : World) : World :=
  { w with self := { w.self with graphicsApi := GraphicsApi.D3D12, d3d12Res := some {} } }

/-- The world when `InitD3D12` returns, from the world after line 272. -/
def initFinish (w : World) : World :=
  { w with self := { w.self with initialized := true } }

/-- A runtime like `availableRuntime` whose output chains (`20` and `21`) have two
images while the submitted chains have three. -/
def shortOutputRuntime : Runtime :=
  { availableRuntime with
    GetTextureSwapChainLength := fun _ c => if c = some 20 ∨ c = some 21 then some 2 else some 3 }

/-- The world in which `InitD3D12` starts for the first frame of `demoLayer`:
a torn-down manager with the session and the two submitted chains stored. -/
def initWorld : World := storeIdentities (some 1) (some 10) (some 11) initialWorld

/-- The world a completed `InitD3D12` leaves from `initWorld` with an available
backend. -/
def initialisedWorld : World := (InitD3D12 availableRuntime initWorld).2

/-- The stereo layout as a function of the two submitted chains and the array
size reported for the left one. -/
def layoutMode (leftEyeChain rightEyeChain : ovrTextureSwapChain) (ArraySize : Int) :
    TextureMode :=
  if rightEyeChain ≠ none ∧ rightEyeChain ≠ leftEyeChain then TextureMode.SINGLE
  else if ArraySize ≠ 1 then TextureMode.ARRAY
  else TextureMode.COMBINED


/-! ## The sampler-bind call site -/

/-- Whether an event is a `PrePSSetSamplers` notification of a listener. -/
def HookEvent.isPrePSSetSamplers : HookEvent → Bool
  | HookEvent.PrePSSetSamplers _ _ _ _ => true
  | _ => false

/-- Whether the listener designated by `listener` returns handled (`true`) from
its `PrePSSetSamplers` for the given arguments. -/
def returnsHandled (objects : ListenerPtr → D3D12Listener) (startSlot numSamplers ppSamplers : Nat)
    (listener : ListenerPtr) : Bool :=
  ((objects listener).PrePSSetSamplers startSlot numSamplers ppSamplers).2

/-- The registered listeners up to and including the first one that returns
handled; all of them when none does. -/
def notifiedListeners (handled : ListenerPtr → Bool) (listeners : List ListenerPtr) :
    List ListenerPtr :=
  listeners.takeWhile (fun l => !handled l) ++ (listeners.find? handled).toList

/-- The `PrePSSetSamplers` notifications of `listeners`, in order. -/
def prePSSetSamplersEvents (startSlot numSamplers ppSamplers : Nat)
    (listeners : List ListenerPtr) : List HookEvent :=
  listeners.map fun l => HookEvent.PrePSSetSamplers l startSlot numSamplers ppSamplers

/-- The world with `events` recorded after what happened so far. -/
def HookWorld.record (w : HookWorld) (events : List HookEvent) : HookWorld :=
  { w with trace := w.trace ++ events }

/-- Executed with the flag `alreadyInsideHook` set, `call` returns with the flag
still set and has notified no listener of a sampler bind. -/
def NestedQuiet (call : Call → HookWorld → Option HookWorld) : Prop :=
  ∀ c w w', w.alreadyInsideHook = true → call c w = some w' →
    w'.alreadyInsideHook = true ∧
      ∃ t, w'.trace = w.trace ++ t ∧ ∀ e ∈ t, HookEvent.isPrePSSetSamplers e = false

/-- What the sampler-bind trampoline leaves when the dispatcher's pre-hook
returned `handled` in world `w2`: the flag cleared again, and the original
implementation invoked unless handled. -/
def afterPrePSSetSamplers (StartSlot NumSamplers ppSamplers : Nat) (handled : Bool)
    (w2 : HookWorld) : HookWorld :=
  { alreadyInsideHook := false
    trace := w2.trace ++
      if handled then [] else [HookEvent.CallOriginal (Call.PSSetSamplers StartSlot NumSamplers ppSamplers)] }

/-- A listener that handles every sampler bind. -/
def handlingListener : D3D12Listener :=
  { PrePSSetSamplers := fun _ _ _ => ([], true) }

/-- A context with three registered listeners: `1` is a plain `D3D12Listener`,
`2` and `3` handle every sampler bind. -/
def threeListenerContext : Context :=
  { injector := some { listeners := [1, 2, 3] }
    objects := fun p => if p = 1 then {} else handlingListener }

/-! ## Registration of listeners -/

/-- A call on the registration interface of the dispatcher. -/
inductive ListenerCall where
  | AddListener (listener : ListenerPtr)
  | RemoveListener (listener : ListenerPtr)
deriving DecidableEq, Repr

/-- The dispatcher after one call on its registration interface. -/
def D3D12Injector.call (inj : D3D12Injector) : ListenerCall → D3D12Injector
  | ListenerCall.AddListener listener => inj.AddListener listener
  | ListenerCall.RemoveListener listener => inj.RemoveListener listener

/-- The dispatcher after a sequence of calls on its registration interface. -/
def D3D12Injector.calls (inj : D3D12Injector) (calls : List ListenerCall) : D3D12Injector :=
  calls.foldl D3D12Injector.call inj

/-- Since which call `listener` has been registered, over the calls made so far
listed most recent first: the position of the `AddListener` call that registered
it, if it has not been removed since; `none` when it is not registered. -/
def registeredSinceRev (listener : ListenerPtr) : List ListenerCall → Option Nat
  | [] => none
  | ListenerCall.AddListener l :: earlier =>
    if l = listener then
      match registeredSinceRev listener earlier with
      | some t => some t
      | none => some earlier.length
    else registeredSinceRev listener earlier
  | ListenerCall.RemoveListener l :: earlier =>
    if l = listener then none else registeredSinceRev listener earlier

/-- Since which call of `calls` (listed in the order made) `listener` has been
registered; `none` when it is not registered after them. -/
def registeredSince (calls : List ListenerCall) (listener : ListenerPtr) : Option Nat :=
  registeredSinceRev listener calls.reverse

/-- The `PostOMSetRenderTargets` notifications of `listeners`, in order. -/
def postOMSetRenderTargetsEvents (numViews renderTargetViews depthStencilView : Nat)
    (listeners : List ListenerPtr) : List HookEvent :=
  listeners.map fun l =>
    HookEvent.PostOMSetRenderTargets l numViews renderTargetViews depthStencilView

/-- Listener `a` was registered before listener `b`, both being registered after
`calls`. -/
def registeredBefore (calls : List ListenerCall) (a b : ListenerPtr) : Prop :=
  ∃ ta tb, registeredSince calls a = some ta ∧ registeredSince calls b = some tb ∧ ta < tb

/-! ## Installation and removal of the hooks -/

/-- The values of `FixedFoveatedMethod` the dispatcher tests for; every other
value of the enumeration is `other`. -/
inductive FixedFoveatedMethod where
  | VRS
  | RDM
  | other (code : Nat)
deriving DecidableEq, Repr

/-- The field of `g_config.upscaling` read by the dispatcher. -/
structure UpscaleConfig where
  enabled : Bool
deriving DecidableEq, Repr

/-- The fields of `g_config.ffr` read by the dispatcher. -/
structure FixedFoveatedConfig where
  enabled : Bool
  method : FixedFoveatedMethod
deriving DecidableEq, Repr

/-- The field of `g_config.hiddenMask` read by the dispatcher. -/
structure HiddenMaskConfig where
  enabled : Bool
deriving DecidableEq, Repr

/-- The part of the global configuration `g_config` read by the dispatcher. -/
structure Config where
  upscaling : UpscaleConfig
  ffr : FixedFoveatedConfig
  hiddenMask : HiddenMaskConfig
deriving DecidableEq, Repr

/-- The four trampolines, as the function pointers given to `hooks::`. -/
inductive Trampoline where
  | D3D12ContextHook_PSSetSamplers
  | D3D12ContextHook_OMSetRenderTargets
  | D3D12ContextHook_OMSetRenderTargetsAndUnorderedAccessViews
  | D3D12ContextHook_ClearDepthStencilView
deriving DecidableEq, Repr

/-- The object a private-data call is made on. -/
inductive TagTarget where
  | device
  | context
deriving DecidableEq, Repr

/-- The calls the constructor and the destructor of `D3D12Injector` make on the
outside: tagging the device and the context with the dispatcher (`attached`) or
clearing the tag, installing a hook in a slot of the context's dispatch table,
removing a hook. -/
inductive InjectorEvent where
  | SetPrivateData (target : TagTarget) (attached : Bool)
  | InstallVirtualFunctionHook (name : String) (slot : Nat) (hook : Trampoline)
  | RemoveHook (hook : Trampoline)
deriving DecidableEq, Repr

/-- The condition of lines 105 and 119: upscaling, or fixed foveation by variable
rate shading. -/
def Config.upscalingOrVRS (g_config : Config) : Bool :=
  g_config.upscaling.enabled ||
    (g_config.ffr.enabled && decide (g_config.ffr.method = FixedFoveatedMethod.VRS))

/-- The condition of lines 112 and 126: the hidden-area mask, or fixed foveation
by radial density masking. -/
def Config.hiddenMaskOrRDM (g_config : Config) : Bool :=
  g_config.hiddenMask.enabled ||
    (g_config.ffr.enabled && decide (g_config.ffr.method = FixedFoveatedMethod.RDM))

/-- The constructor `D3D12Injector::D3D12Injector` (lines 95-115): the calls it
makes, in program order. -/
def D3D12Injector_ctor (g_config : Config) : List InjectorEvent :=
  [InjectorEvent.SetPrivateData TagTarget.device true,
   InjectorEvent.SetPrivateData TagTarget.context true] ++
  (if g_config.upscalingOrVRS then
    [InjectorEvent.InstallVirtualFunctionHook "ID3D12DeviceContext::PSSetSamplers" 10
       Trampoline.D3D12ContextHook_PSSetSamplers,
     InjectorEvent.InstallVirtualFunctionHook "ID3D12DeviceContext::OMSetRenderTargets" 33
       Trampoline.D3D12ContextHook_OMSetRenderTargets,
     InjectorEvent.InstallVirtualFunctionHook
       "ID3D12DeviceContext::OMSetRenderTargetsAndUnorderedAccessViews" 34
       Trampoline.D3D12ContextHook_OMSetRenderTargetsAndUnorderedAccessViews]
  else []) ++
  (if g_config.hiddenMaskOrRDM then
    [InjectorEvent.InstallVirtualFunctionHook "ID3D12DeviceContext::ClearDepthStencilView" 53
       Trampoline.D3D12ContextHook_ClearDepthStencilView]
  else [])

/-- The destructor `D3D12Injector::~D3D12Injector` (lines 117-132): the calls it
makes, in program order. -/
def D3D12Injector_dtor (g_config : Config) : List InjectorEvent :=
  (if g_config.upscalingOrVRS then
    [InjectorEvent.RemoveHook Trampoline.D3D12ContextHook_PSSetSamplers,
     InjectorEvent.RemoveHook Trampoline.D3D12ContextHook_OMSetRenderTargets,
     InjectorEvent.RemoveHook
       Trampoline.D3D12ContextHook_OMSetRenderTargetsAndUnorderedAccessViews]
  else []) ++
  (if g_config.hiddenMaskOrRDM then
    [InjectorEvent.RemoveHook Trampoline.D3D12ContextHook_ClearDepthStencilView]
  else []) ++
  [InjectorEvent.SetPrivateData TagTarget.device false,
   InjectorEvent.SetPrivateData TagTarget.context false]

/-- The hooks installed by a sequence of calls, in the order installed. -/
def installedHooks (events : List InjectorEvent) : List Trampoline :=
  events.filterMap fun e =>
    match e with
    | InjectorEvent.InstallVirtualFunctionHook _ _ hook => some hook
    | _ => none

/-- The hooks removed by a sequence of calls, in the order removed. -/
def removedHooks (events : List InjectorEvent) : List Trampoline :=
  events.filterMap fun e =>
    match e with
    | InjectorEvent.RemoveHook hook => some hook
    | _ => none

/-- A configuration with upscaling alone enabled. -/
def upscalingConfig : Config :=
  { upscaling := { enabled := true }
    ffr := { enabled := false, method := FixedFoveatedMethod.VRS }
    hiddenMask := { enabled := false } }

/-! ## Classification of the outside calls -/

/-- Whether an outside call is a call of `UpdateTargetInformation`. -/
def Event.isUpdateTargetInformation : Event → Bool
  | Event.UpdateTargetInformation _ _ _ _ => true
  | _ => false

/-- Whether an outside call is a call of `Apply`. -/
def Event.isApply : Event → Bool
  | Event.Apply _ _ => true
  | _ => false

/-- Whether an outside call is a call of `ovr_CommitTextureSwapChain`. -/
def Event.isCommit : Event → Bool
  | Event.CommitTextureSwapChain _ _ => true
  | _ => false

/-- Whether an outside call is a call of `ResolveSubresource`. -/
def Event.isResolve : Event → Bool
  | Event.ResolveSubresource _ _ _ _ _ => true
  | _ => false

/-- The `UpdateTargetInformation` call made at the end of the loop iteration of
an eye whose frame context is `inp` (lines 344-350). -/
def updateTargetInformationEvent (rt : Runtime) (flippedY : Bool) (inp : D3D12PostProcessInput) :
    Event :=
  Event.UpdateTargetInformation (rt.GetDesc inp.inputTexture).Width
    (rt.GetDesc inp.inputTexture).Height inp.mode flippedY

/-! ## A shared multi-sampled array chain -/

/-- A runtime like `availableRuntime` in which every submitted chain is a
two-slice array texture with four samples per pixel. -/
def arrayMultisampledRuntime : Runtime :=
  { availableRuntime with
    GetTextureSwapChainDesc := fun _ _ => some
      { Format := ovrTextureFormat.OVR_FORMAT_R8G8B8A8_UNORM_SRGB, ArraySize := 2, Width := 1000,
        Height := 1000, MipLevels := 1, SampleCount := 4, StaticImage := false, MiscFlags := 0,
        BindFlags := 0 } }

/-- A layer with chain `10` for the left eye and no chain for the right eye: one
texture serves both eyes. -/
def sharedLayer : ovrLayerEyeFovDepth :=
  { Flags := 0, ColorTexture := ⟨some 10, none⟩,
    Viewport := ⟨⟨⟨0, 0⟩, ⟨1000, 1000⟩⟩, ⟨⟨0, 0⟩, ⟨1000, 1000⟩⟩⟩ }

/-- The first frame of a session submitted with `sharedLayer` to
`arrayMultisampledRuntime`: outcome and world left. -/
def arrayFrame : Outcome Unit × World :=
  submitFrame arrayMultisampledRuntime (some 1) sharedLayer initialWorld

/-! ## Output formats -/

/-- The frame context of an outside call, when it is a call of `Apply`. -/
def Event.applyInput : Event → Option D3D12PostProcessInput
  | Event.Apply input _ => some input
  | _ => none

/-! ## Sequences of calls into the manager -/

/-- A call into the manager from outside: the public member functions of
`OculusManager` other than `Init`, with their arguments and with what the outside
answers while the call runs. -/
inductive ManagerCall where
  | OnFrameSubmission (rt : Runtime) (session : ovrSession) (eyeLayer : ovrLayerEyeFovDepth)
  | EnsureInit (rt : Runtime) (session : ovrSession)
      (leftEyeChain rightEyeChain : ovrTextureSwapChain)
  | Shutdown

/-- Execution of one call into the manager. -/
def runCall : ManagerCall → World → Outcome Unit × World
  | ManagerCall.OnFrameSubmission rt session eyeLayer, w => submitFrame rt session eyeLayer w
  | ManagerCall.EnsureInit rt session leftEyeChain rightEyeChain, w =>
    EnsureInit rt session leftEyeChain rightEyeChain w
  | ManagerCall.Shutdown, w => Shutdown w

/-- The world reached by making the calls in order, each started in the world the
previous one left; `none` when one of them does not return normally. -/
def runCalls : List ManagerCall → World → Option World
  | [], w => some w
  | c :: rest, w =>
    match runCall c w with
    | (Outcome.ok _, w') => runCalls rest w'
    | _ => none

/-- The manager is not both initialised and failed, and when it is not
initialised it is as `Shutdown` leaves it: backend unknown, no resource record,
no session, no submitted and no output chain. -/
def Consistent (m : OculusManager) : Prop :=
  ¬ (m.initialized = true ∧ m.failed = true) ∧
  (m.initialized = false →
    m.graphicsApi = GraphicsApi.UNKNOWN ∧ m.d3d12Res = none ∧ m.session = none ∧
      m.submittedEyeChains = ⟨none, none⟩ ∧ m.outputEyeChains = ⟨none, none⟩)

/-- A sequence of calls: a first frame that initialises the session, a frame on
which post-processing raises, a frame after the failure, a shutdown, a frame with
a backend that is not supported, and a frame that initialises again after a
second shutdown. -/
def demoCalls : List ManagerCall :=
  [ManagerCall.OnFrameSubmission availableRuntime (some 1) demoLayer,
   ManagerCall.OnFrameSubmission indexFailingRuntime (some 1) demoLayer,
   ManagerCall.OnFrameSubmission availableRuntime (some 1) demoLayer,
   ManagerCall.Shutdown,
   ManagerCall.EnsureInit unsupportedRuntime (some 2) (some 10) (some 11),
   ManagerCall.Shutdown,
   ManagerCall.OnFrameSubmission availableRuntime (some 3) sharedLayer]

/-- The world after the first two calls of `demoCalls`: post-processing has
raised. -/
def demoFailedWorld : World := (runCalls (demoCalls.take 2) initialWorld).getD initialWorld

/-- The world after all of `demoCalls`. -/
def demoFinalWorld : World := (runCalls demoCalls initialWorld).getD initialWorld

/-- The world with the two output chains of the manager replaced. -/
def World.withOutputEyeChains (w : World) (left right : ovrTextureSwapChain) : World :=
  { w with self := { w.self with outputEyeChains := ⟨left, right⟩ } }

/-- The first frame of a session submitted with `sharedLayer` to
`availableRuntime` (single-sampled, array size one): outcome and world left. -/
def combinedFrame : Outcome Unit × World :=
  submitFrame availableRuntime (some 1) sharedLayer initialWorld
/-! ## Properties -/

theorem toSizeT_of_nonneg (x : Int) (h0 : 0 ≤ x) (h1 : x < 18446744073709551616) :
    toSizeT x = x.toNat := by
  unfold toSizeT
  rw [Int.emod_eq_of_lt h0 h1]

theorem toInt32_of_range (x : Int) (h0 : -2147483648 ≤ x) (h1 : x ≤ 2147483647) :
    toInt32 x = x := by
  unfold toInt32
  omega

theorem submittedIndex_eq (n : Nat) (i : Int)
    (hn : 1 ≤ n) (hmax : n ≤ 2147483647) (h0 : 0 ≤ i) (hi : i < n) :
    submittedIndex i n = some ((i - 1) % (n : Int)) ∧
      (0 < i → (i - 1) % (n : Int) = i - 1) ∧
      (i = 0 → (i - 1) % (n : Int) = (n : Int) - 1) ∧
      toSizeT ((i - 1) % (n : Int)) < n := by
  have hn0 : n ≠ 0 := by omega
  have hpos : (0 : Int) < n := by omega
  have hm0 : 0 ≤ (i - 1) % (n : Int) := Int.emod_nonneg _ (by omega)
  have hm1 : (i - 1) % (n : Int) < n := Int.emod_lt_of_pos _ hpos
  refine ⟨?_, ?_, ?_, ?_⟩
  · unfold submittedIndex
    rw [if_neg hn0]
    refine congrArg some ?_
    rw [toInt32_of_range (i - 1) (by omega) (by omega)]
    rcases lt_or_ge 0 i with hpos' | hzero
    · -- i - 1 is non-negative: no wrap-around
      have h1 : toSizeT (i - 1) = (i - 1).toNat := toSizeT_of_nonneg _ (by omega) (by omega)
      rw [h1]
      have h2 : ((i - 1).toNat + n) % 18446744073709551616 = (i - 1).toNat + n := by omega
      rw [h2]
      have h3 : ((i - 1).toNat + n) % n = (i - 1).toNat := by
        rw [Nat.add_mod_right]; exact Nat.mod_eq_of_lt (by omega)
      rw [h3]
      have h4 : (((i - 1).toNat : Nat) : Int) = i - 1 := Int.toNat_of_nonneg (by omega)
      rw [h4, toInt32_of_range _ (by omega) (by omega)]
      exact (Int.emod_eq_of_lt (by omega) (by omega)).symm
    · -- i = 0: i - 1 = -1 converts to 2^64 - 1
      have hi0 : i = 0 := by omega
      subst hi0
      have h1 : toSizeT (0 - 1) = 18446744073709551615 := by decide
      rw [h1]
      have h2 : (18446744073709551615 + n) % 18446744073709551616 = n - 1 := by omega
      rw [h2]
      have h3 : (n - 1) % n = n - 1 := Nat.mod_eq_of_lt (by omega)
      rw [h3]
      have h4 : (((n - 1 : Nat)) : Int) = (n : Int) - 1 := by omega
      rw [h4, toInt32_of_range _ (by omega) (by omega)]
      have : ((0 : Int) - 1) % (n : Int) = (n : Int) - 1 := by
        rw [show ((0 : Int) - 1) = ((n : Int) - 1) + (n : Int) * (-1) by ring]
        rw [Int.add_mul_emod_self_left]
        exact Int.emod_eq_of_lt (by omega) (by omega)
      exact this.symm
  · intro h; exact Int.emod_eq_of_lt (by omega) (by omega)
  · intro h; subst h
    rw [show ((0 : Int) - 1) = ((n : Int) - 1) + (n : Int) * (-1) by ring]
    rw [Int.add_mul_emod_self_left]
    exact Int.emod_eq_of_lt (by omega) (by omega)
  · rw [toSizeT_of_nonneg _ hm0 (by omega)]
    omega

/-! ### Rules for statements -/

theorem bind_apply {α β : Type} (x : Act α) (f : α → Act β) (w : World) :
    (x >>= f) w = Act.bind x f w := rfl

theorem pure_apply {α : Type} (a : α) (w : World) :
    (pure a : Act α) w = (Outcome.ok a, w) := rfl

theorem wp_def {α : Type} (a : Act α) (Q : Outcome α → World → Prop) (w : World) :
    wp a Q w ↔ Q (a w).1 (a w).2 := Iff.rfl

theorem wp_of_eq {α : Type} {a : Act α} {Q : Outcome α → World → Prop} {w w' : World}
    {o : Outcome α} (h : a w = (o, w')) : wp a Q w ↔ Q o w' := by
  simp [wp, h]

theorem wp_mono {α : Type} {a : Act α} {Q Q' : Outcome α → World → Prop} {w : World}
    (h : wp a Q w) (hQ : ∀ o w', Q o w' → Q' o w') : wp a Q' w :=
  hQ _ _ h

@[simp] theorem bindPost_ok {α β : Type} (f : α → Act β) (Q : Outcome β → World → Prop)
    (a : α) (w : World) : bindPost f Q (Outcome.ok a) w = wp (f a) Q w := rfl

@[simp] theorem bindPost_threw {α β : Type} (f : α → Act β) (Q : Outcome β → World → Prop)
    (w : World) : bindPost f Q Outcome.threw w = Q Outcome.threw w := rfl

@[simp] theorem bindPost_undefined {α β : Type} (f : α → Act β)
    (Q : Outcome β → World → Prop) (w : World) :
    bindPost f Q Outcome.undefined w = Q Outcome.undefined w := rfl

@[simp] theorem catchPost_ok (handler : Act Unit) (Q : Outcome Unit → World → Prop)
    (a : Unit) (w : World) : catchPost handler Q (Outcome.ok a) w = Q (Outcome.ok a) w := rfl

@[simp] theorem catchPost_threw (handler : Act Unit) (Q : Outcome Unit → World → Prop)
    (w : World) : catchPost handler Q Outcome.threw w = wp handler Q w := rfl

@[simp] theorem catchPost_undefined (handler : Act Unit) (Q : Outcome Unit → World → Prop)
    (w : World) : catchPost handler Q Outcome.undefined w = Q Outcome.undefined w := rfl

@[simp] theorem wp_pure {α : Type} (a : α) (Q : Outcome α → World → Prop) (w : World) :
    wp (pure a : Act α) Q w ↔ Q (Outcome.ok a) w := Iff.rfl

@[simp] theorem wp_bind {α β : Type} (x : Act α) (f : α → Act β)
    (Q : Outcome β → World → Prop) (w : World) :
    wp (x >>= f) Q w ↔ wp x (bindPost f Q) w := by
  simp only [wp, bind_apply, Act.bind]
  rcases h : x w with ⟨o, w'⟩
  cases o <;> simp [bindPost, wp]

@[simp] theorem wp_tryCatch (body handler : Act Unit) (Q : Outcome Unit → World → Prop)
    (w : World) : wp (tryCatch body handler) Q w ↔ wp body (catchPost handler Q) w := by
  simp only [wp, tryCatch]
  rcases h : body w with ⟨o, w'⟩
  cases o <;> simp [catchPost, wp]

@[simp] theorem wp_getSelf (Q : Outcome OculusManager → World → Prop) (w : World) :
    wp getSelf Q w ↔ Q (Outcome.ok w.self) w := Iff.rfl

@[simp] theorem wp_getLayer (Q : Outcome ovrLayerEyeFovDepth → World → Prop) (w : World) :
    wp getLayer Q w ↔ Q (Outcome.ok w.eyeLayer) w := Iff.rfl

@[simp] theorem wp_modifySelf (f : OculusManager → OculusManager)
    (Q : Outcome Unit → World → Prop) (w : World) :
    wp (modifySelf f) Q w ↔ Q (Outcome.ok ()) { w with self := f w.self } := Iff.rfl

@[simp] theorem wp_modifyLayer (f : ovrLayerEyeFovDepth → ovrLayerEyeFovDepth)
    (Q : Outcome Unit → World → Prop) (w : World) :
    wp (modifyLayer f) Q w ↔ Q (Outcome.ok ()) { w with eyeLayer := f w.eyeLayer } := Iff.rfl

@[simp] theorem wp_emit (e : Event) (Q : Outcome Unit → World → Prop) (w : World) :
    wp (emit e) Q w ↔ Q (Outcome.ok ()) { w with events := w.events ++ [e] } := Iff.rfl

@[simp] theorem wp_raise {α : Type} (Q : Outcome α → World → Prop) (w : World) :
    wp (raise : Act α) Q w ↔ Q Outcome.threw w := Iff.rfl

@[simp] theorem wp_Check_some {α : Type} (a : α) (Q : Outcome α → World → Prop) (w : World) :
    wp (Check (some a)) Q w ↔ Q (Outcome.ok a) w := Iff.rfl

@[simp] theorem wp_Check_none {α : Type} (Q : Outcome α → World → Prop) (w : World) :
    wp (Check (none : Option α)) Q w ↔ Q Outcome.threw w := Iff.rfl

@[simp] theorem wp_defined_some {α : Type} (a : α) (Q : Outcome α → World → Prop)
    (w : World) : wp (defined (some a)) Q w ↔ Q (Outcome.ok a) w := Iff.rfl

@[simp] theorem wp_defined_none {α : Type} (Q : Outcome α → World → Prop) (w : World) :
    wp (defined (none : Option α)) Q w ↔ Q Outcome.undefined w := Iff.rfl

theorem wp_Check {α : Type} (o : Option α) (Q : Outcome α → World → Prop) (w : World) :
    wp (Check o) Q w ↔ (∀ a, o = some a → Q (Outcome.ok a) w) ∧ (o = none → Q Outcome.threw w) := by
  cases o <;> simp

theorem wp_defined {α : Type} (o : Option α) (Q : Outcome α → World → Prop) (w : World) :
    wp (defined o) Q w ↔
      (∀ a, o = some a → Q (Outcome.ok a) w) ∧ (o = none → Q Outcome.undefined w) := by
  cases o <;> simp

theorem wp_getRes (Q : Outcome OculusD3D12Resources → World → Prop) (w : World) :
    wp getRes Q w ↔ (∀ r, w.self.d3d12Res = some r → Q (Outcome.ok r) w) ∧
      (w.self.d3d12Res = none → Q Outcome.undefined w) := by
  simp only [wp, getRes]
  cases h : w.self.d3d12Res <;> simp

theorem wp_modifyRes (f : OculusD3D12Resources → OculusD3D12Resources)
    (Q : Outcome Unit → World → Prop) (w : World) :
    wp (modifyRes f) Q w ↔
      (∀ r, w.self.d3d12Res = some r →
        Q (Outcome.ok ()) { w with self := { w.self with d3d12Res := some (f r) } }) ∧
      (w.self.d3d12Res = none → Q Outcome.undefined w) := by
  simp only [wp, modifyRes]
  cases h : w.self.d3d12Res <;> simp

@[simp] theorem wp_ite {α : Type} (c : Prop) [Decidable c] (a b : Act α)
    (Q : Outcome α → World → Prop) (w : World) :
    wp (if c then a else b) Q w ↔ (c → wp a Q w) ∧ (¬ c → wp b Q w) := by
  split <;> simp [*]

/-! ### `Shutdown`, `Init`, `EnsureInit` -/

theorem Shutdown_eq (w : World) :
    Shutdown w = (Outcome.ok (), tornDown w) := by
  rcases w with ⟨⟨f, i, g, s, ⟨sl, sr⟩, ⟨ol, or⟩, d⟩, l, ev⟩
  cases ol <;> cases or <;>
  simp [Shutdown, Shutdown_eye, bind_apply, Act.bind, getSelf, modifySelf, emit, pure_apply,
    shutdownEvents, PerEye.get, PerEye.set, tornDown]

@[simp] theorem wp_Shutdown (Q : Outcome Unit → World → Prop) (w : World) :
    wp Shutdown Q w ↔ Q (Outcome.ok ()) (tornDown w) := by
  rw [wp_of_eq (Shutdown_eq w)]

theorem EnsureInit_eq (rt : Runtime) (session : ovrSession)
    (leftEyeChain rightEyeChain : ovrTextureSwapChain) (w : World) :
    EnsureInit rt session leftEyeChain rightEyeChain w =
      if needsInit w.self session leftEyeChain rightEyeChain then
        (Shutdown >>= fun _ => Init rt session leftEyeChain rightEyeChain) w
      else (Outcome.ok (), w) := by
  simp only [EnsureInit, bind_apply, Act.bind, getSelf, needsInit]
  split <;> rfl

/-! ### Observations a statement leaves unchanged -/

theorem keeps_pure {α β : Type} (p : World → β) (a : α) : Keeps p (pure a : Act α) :=
  fun _ => rfl

theorem keeps_bind {α β γ : Type} {p : World → γ} {x : Act α} {f : α → Act β}
    (hx : Keeps p x) (hf : ∀ a, Keeps p (f a)) : Keeps p (x >>= f) := by
  intro w
  have h1 := hx w
  simp only [bind_apply, Act.bind]
  rcases h : x w with ⟨o, w'⟩
  rw [h] at h1
  cases o
  · simp only; rw [hf _ w']; exact h1
  · exact h1
  · exact h1

theorem keeps_tryCatch {γ : Type} {p : World → γ} {body handler : Act Unit}
    (hb : Keeps p body) (hh : Keeps p handler) : Keeps p (tryCatch body handler) := by
  intro w
  have h1 := hb w
  simp only [vrperfkit.tryCatch]
  rcases h : body w with ⟨o, w'⟩
  rw [h] at h1
  cases o
  · exact h1
  · simp only; rw [hh w']; exact h1
  · exact h1

theorem keeps_ite {α γ : Type} {p : World → γ} (c : Prop) [Decidable c] {a b : Act α}
    (ha : Keeps p a) (hb : Keeps p b) : Keeps p (if c then a else b) := by
  split
  · exact ha
  · exact hb

theorem keeps_getSelf {γ : Type} (p : World → γ) : Keeps p getSelf := fun _ => rfl

theorem keeps_getLayer {γ : Type} (p : World → γ) : Keeps p getLayer := fun _ => rfl

theorem keeps_getRes {γ : Type} (p : World → γ) : Keeps p getRes := by
  intro w
  simp only [vrperfkit.getRes]
  cases w.self.d3d12Res <;> rfl

theorem keeps_raise {α γ : Type} (p : World → γ) : Keeps p (raise : Act α) := fun _ => rfl

theorem keeps_Check {α γ : Type} (p : World → γ) (o : Option α) : Keeps p (Check o) := by
  intro w; cases o <;> rfl

theorem keeps_defined {α γ : Type} (p : World → γ) (o : Option α) : Keeps p (defined o) := by
  intro w; cases o <;> rfl

theorem keeps_modifyRes {γ : Type} {p : World → γ}
    (f : OculusD3D12Resources → OculusD3D12Resources)
    (h : ∀ w r, p { w with self := { w.self with d3d12Res := some r } } = p w) :
    Keeps p (modifyRes f) := by
  intro w
  simp only [vrperfkit.modifyRes]
  cases hr : w.self.d3d12Res
  · rfl
  · exact h w _

theorem keeps_modifySelf {γ : Type} {p : World → γ} (f : OculusManager → OculusManager)
    (h : ∀ w, p { w with self := f w.self } = p w) : Keeps p (modifySelf f) :=
  fun w => h w

theorem keeps_emit {γ : Type} {p : World → γ} (e : Event)
    (h : ∀ w, p { w with events := w.events ++ [e] } = p w) : Keeps p (emit e) :=
  fun w => h w

theorem keeps_CreateShaderResourceView {γ : Type} (p : World → γ) (rt : Runtime)
    (d : Option ID3D12Device) (t : Option ID3D12Resource) (i : Int) :
    Keeps p (CreateShaderResourceView rt d t i) := by
  unfold vrperfkit.CreateShaderResourceView
  exact keeps_ite _ (keeps_pure _ _) (keeps_raise _)

theorem keeps_CreateUnorderedAccessView {γ : Type} (p : World → γ) (rt : Runtime)
    (d : Option ID3D12Device) (t : Option ID3D12Resource) (i : Int) :
    Keeps p (CreateUnorderedAccessView rt d t i) := by
  unfold vrperfkit.CreateUnorderedAccessView
  exact keeps_ite _ (keeps_pure _ _) (keeps_raise _)


theorem keeps_InitD3D12_submittedTextures {γ : Type} {p : World → γ} (rt : Runtime) (eye : Fin 2) (is : List Nat)
    (hres : ∀ w r, p { w with self := { w.self with d3d12Res := some r } } = p w) :
    Keeps p (InitD3D12_submittedTextures rt eye is) := by
  induction is with
  | nil => exact keeps_pure _ _
  | cons i rest ih =>
    unfold vrperfkit.InitD3D12_submittedTextures
    repeat' first
      | exact ih
      | exact keeps_pure _ _
      | exact keeps_getSelf _
      | exact keeps_getRes _
      | exact keeps_getLayer _
      | exact keeps_raise _
      | exact keeps_Check _ _
      | exact keeps_defined _ _
      | exact keeps_CreateShaderResourceView _ _ _ _ _
      | exact keeps_CreateUnorderedAccessView _ _ _ _ _
      | exact keeps_modifyRes _ (fun _ _ => hres _ _)
      | apply keeps_bind
      | apply keeps_ite
      | intro _

theorem keeps_InitD3D12_submittedViews {γ : Type} {p : World → γ} (rt : Runtime) (eye : Fin 2) (n : Int) (is : List Nat)
    (hres : ∀ w r, p { w with self := { w.self with d3d12Res := some r } } = p w) :
    Keeps p (InitD3D12_submittedViews rt eye n is) := by
  induction is with
  | nil => exact keeps_pure _ _
  | cons i rest ih =>
    unfold vrperfkit.InitD3D12_submittedViews
    repeat' first
      | exact ih
      | exact keeps_pure _ _
      | exact keeps_getSelf _
      | exact keeps_getRes _
      | exact keeps_getLayer _
      | exact keeps_raise _
      | exact keeps_Check _ _
      | exact keeps_defined _ _
      | exact keeps_CreateShaderResourceView _ _ _ _ _
      | exact keeps_CreateUnorderedAccessView _ _ _ _ _
      | exact keeps_modifyRes _ (fun _ _ => hres _ _)
      | apply keeps_bind
      | apply keeps_ite
      | intro _

theorem keeps_InitD3D12_outputTextures {γ : Type} {p : World → γ} (rt : Runtime) (eye : Fin 2) (is : List Nat)
    (hres : ∀ w r, p { w with self := { w.self with d3d12Res := some r } } = p w) :
    Keeps p (InitD3D12_outputTextures rt eye is) := by
  induction is with
  | nil => exact keeps_pure _ _
  | cons i rest ih =>
    unfold vrperfkit.InitD3D12_outputTextures
    repeat' first
      | exact ih
      | exact keeps_pure _ _
      | exact keeps_getSelf _
      | exact keeps_getRes _
      | exact keeps_getLayer _
      | exact keeps_raise _
      | exact keeps_Check _ _
      | exact keeps_defined _ _
      | exact keeps_CreateShaderResourceView _ _ _ _ _
      | exact keeps_CreateUnorderedAccessView _ _ _ _ _
      | exact keeps_modifyRes _ (fun _ _ => hres _ _)
      | apply keeps_bind
      | apply keeps_ite
      | intro _

theorem keeps_InitD3D12_arraySubmittedViews {γ : Type} {p : World → γ} (rt : Runtime) (is : List ID3D12Resource)
    (hres : ∀ w r, p { w with self := { w.self with d3d12Res := some r } } = p w) :
    Keeps p (InitD3D12_arraySubmittedViews rt is) := by
  induction is with
  | nil => exact keeps_pure _ _
  | cons i rest ih =>
    unfold vrperfkit.InitD3D12_arraySubmittedViews
    repeat' first
      | exact ih
      | exact keeps_pure _ _
      | exact keeps_getSelf _
      | exact keeps_getRes _
      | exact keeps_getLayer _
      | exact keeps_raise _
      | exact keeps_Check _ _
      | exact keeps_defined _ _
      | exact keeps_CreateShaderResourceView _ _ _ _ _
      | exact keeps_CreateUnorderedAccessView _ _ _ _ _
      | exact keeps_modifyRes _ (fun _ _ => hres _ _)
      | apply keeps_bind
      | apply keeps_ite
      | intro _

theorem keeps_InitD3D12_arrayOutputViews {γ : Type} {p : World → γ} (rt : Runtime) (is : List ID3D12Resource)
    (hres : ∀ w r, p { w with self := { w.self with d3d12Res := some r } } = p w) :
    Keeps p (InitD3D12_arrayOutputViews rt is) := by
  induction is with
  | nil => exact keeps_pure _ _
  | cons i rest ih =>
    unfold vrperfkit.InitD3D12_arrayOutputViews
    repeat' first
      | exact ih
      | exact keeps_pure _ _
      | exact keeps_getSelf _
      | exact keeps_getRes _
      | exact keeps_getLayer _
      | exact keeps_raise _
      | exact keeps_Check _ _
      | exact keeps_defined _ _
      | exact keeps_CreateShaderResourceView _ _ _ _ _
      | exact keeps_CreateUnorderedAccessView _ _ _ _ _
      | exact keeps_modifyRes _ (fun _ _ => hres _ _)
      | apply keeps_bind
      | apply keeps_ite
      | intro _

theorem keeps_InitD3D12_resolve {γ : Type} {p : World → γ} (rt : Runtime) (eye : Fin 2)
    (chainDesc : ovrTextureSwapChainDesc)
    (hres : ∀ w r, p { w with self := { w.self with d3d12Res := some r } } = p w) :
    Keeps p (InitD3D12_resolve rt eye chainDesc) := by
  unfold vrperfkit.InitD3D12_resolve
  repeat' first
    | exact keeps_pure _ _
    | exact keeps_getRes _
    | exact keeps_Check _ _
    | exact keeps_defined _ _
    | exact keeps_modifyRes _ (fun _ _ => hres _ _)
    | apply keeps_bind
    | apply keeps_ite
    | intro _

theorem keeps_InitD3D12_outputChain {γ : Type} {p : World → γ} (rt : Runtime) (eye : Fin 2)
    (chainDesc : ovrTextureSwapChainDesc)
    (hres : ∀ w r, p { w with self := { w.self with d3d12Res := some r } } = p w)
    (hout : ∀ w c, p { w with self := { w.self with outputEyeChains := c } } = p w)
    (hev : ∀ w e, p { w with events := e } = p w) :
    Keeps p (InitD3D12_outputChain rt eye chainDesc) := by
  unfold vrperfkit.InitD3D12_outputChain
  repeat' first
    | exact keeps_InitD3D12_outputTextures _ _ _ hres
    | exact keeps_pure _ _
    | exact keeps_getSelf _
    | exact keeps_getRes _
    | exact keeps_Check _ _
    | exact keeps_modifySelf _ (fun _ => hout _ _)
    | exact keeps_emit _ (fun _ => hev _ _)
    | apply keeps_bind
    | intro _

/-- An iteration of the per-eye loop of `InitD3D12` writes nothing but the
resource record, the output chains and the record of outside calls. -/
theorem keeps_InitD3D12_eye {γ : Type} {p : World → γ} (rt : Runtime) (eye : Fin 2)
    (hres : ∀ w r, p { w with self := { w.self with d3d12Res := some r } } = p w)
    (hout : ∀ w c, p { w with self := { w.self with outputEyeChains := c } } = p w)
    (hev : ∀ w e, p { w with events := e } = p w) :
    Keeps p (InitD3D12_eye rt eye) := by
  unfold vrperfkit.InitD3D12_eye
  repeat' first
    | exact keeps_InitD3D12_resolve _ _ _ hres
    | exact keeps_InitD3D12_outputChain _ _ _ hres hout hev
    | exact keeps_InitD3D12_submittedTextures _ _ _ hres
    | exact keeps_InitD3D12_submittedViews _ _ _ _ hres
    | exact keeps_InitD3D12_outputTextures _ _ _ hres
    | exact keeps_InitD3D12_arraySubmittedViews _ _ hres
    | exact keeps_InitD3D12_arrayOutputViews _ _ hres
    | exact keeps_pure _ _
    | exact keeps_getSelf _
    | exact keeps_getRes _
    | exact keeps_getLayer _
    | exact keeps_raise _
    | exact keeps_Check _ _
    | exact keeps_defined _ _
    | exact keeps_modifyRes _ (fun _ _ => hres _ _)
    | exact keeps_modifySelf _ (fun _ => hout _ _)
    | exact keeps_emit _ (fun _ => hev _ _)
    | apply keeps_bind
    | apply keeps_ite
    | intro _

theorem keeps_InitD3D12_shared {γ : Type} {p : World → γ} (rt : Runtime)
    (hres : ∀ w r, p { w with self := { w.self with d3d12Res := some r } } = p w)
    (hout : ∀ w c, p { w with self := { w.self with outputEyeChains := c } } = p w) :
    Keeps p (InitD3D12_shared rt) := by
  unfold vrperfkit.InitD3D12_shared
  repeat' first
    | exact keeps_InitD3D12_submittedTextures _ _ _ hres
    | exact keeps_InitD3D12_submittedViews _ _ _ _ hres
    | exact keeps_InitD3D12_outputTextures _ _ _ hres
    | exact keeps_InitD3D12_arraySubmittedViews _ _ hres
    | exact keeps_InitD3D12_arrayOutputViews _ _ hres
    | exact keeps_pure _ _
    | exact keeps_getSelf _
    | exact keeps_getRes _
    | exact keeps_getLayer _
    | exact keeps_raise _
    | exact keeps_Check _ _
    | exact keeps_defined _ _
    | exact keeps_modifyRes _ (fun _ _ => hres _ _)
    | exact keeps_modifySelf _ (fun _ => hout _ _)
    | apply keeps_bind
    | apply keeps_ite
    | intro _

theorem keepsUnlessOk_of_keeps {α γ : Type} {p : World → γ} {a : Act α} (h : Keeps p a) :
    KeepsUnlessOk p a := fun w => Or.inr (h w)

theorem keepsUnlessOk_bind {α β γ : Type} {p : World → γ} {x : Act α} {f : α → Act β}
    (hx : Keeps p x) (hf : ∀ a, KeepsUnlessOk p (f a)) : KeepsUnlessOk p (x >>= f) := by
  intro w
  have h1 := hx w
  simp only [bind_apply, Act.bind]
  rcases h : x w with ⟨o, w'⟩
  rw [h] at h1
  cases o
  · simp only
    rcases hf _ w' with h2 | h2
    · exact Or.inl h2
    · exact Or.inr (h2.trans h1)
  · exact Or.inr h1
  · exact Or.inr h1

theorem keepsUnlessOk_modifySelf {γ : Type} (p : World → γ) (f : OculusManager → OculusManager) :
    KeepsUnlessOk p (modifySelf f) := fun _ => Or.inl ⟨(), rfl⟩

theorem keeps_InitD3D12_components {γ : Type} {p : World → γ} (rt : Runtime)
    (hres : ∀ w r, p { w with self := { w.self with d3d12Res := some r } } = p w) :
    Keeps p (InitD3D12_components rt) := by
  unfold vrperfkit.InitD3D12_components
  repeat' first
    | exact keeps_pure _ _
    | exact keeps_getRes _
    | exact keeps_raise _
    | exact keeps_Check _ _
    | exact keeps_modifyRes _ (fun _ _ => hres _ _)
    | apply keeps_bind
    | apply keeps_ite
    | intro _

/-- Until its last statement, `InitD3D12` writes nothing but the backend tag, the
resource record, the output chains and the record of outside calls; in
particular `initialized` changes only if it completes. -/
theorem keepsUnlessOk_InitD3D12 {γ : Type} {p : World → γ} (rt : Runtime)
    (hres : ∀ w r, p { w with self := { w.self with d3d12Res := r } } = p w)
    (hout : ∀ w c, p { w with self := { w.self with outputEyeChains := c } } = p w)
    (hev : ∀ w e, p { w with events := e } = p w)
    (hapi : ∀ w g, p { w with self := { w.self with graphicsApi := g } } = p w) :
    KeepsUnlessOk p (InitD3D12 rt) := by
  have hres' : ∀ w r, p { w with self := { w.self with d3d12Res := some r } } = p w :=
    fun w r => hres w (some r)
  unfold vrperfkit.InitD3D12
  repeat' first
    | exact keepsUnlessOk_modifySelf _ _
    | exact keeps_InitD3D12_eye _ _ hres' hout hev
    | exact keeps_InitD3D12_shared _ hres' hout
    | exact keeps_InitD3D12_components _ hres'
    | exact keeps_pure _ _
    | exact keeps_getSelf _
    | exact keeps_getRes _
    | exact keeps_raise _
    | exact keeps_Check _ _
    | exact keeps_modifyRes _ (fun _ _ => hres' _ _)
    | exact keeps_modifySelf _ (fun _ => hapi _ _)
    | exact keeps_modifySelf _ (fun _ => hres _ _)
    | apply keepsUnlessOk_bind
    | apply keeps_bind
    | apply keeps_ite
    | intro _

theorem okPost_bind_right {α β : Type} {x : Act α} {f : α → Act β} {P : World → Prop}
    (hf : ∀ a, OkPost (f a) P) : OkPost (x >>= f) P := by
  intro w b
  simp only [bind_apply, Act.bind]
  rcases h : x w with ⟨o, w'⟩
  cases o
  · exact hf _ w' b
  · intro h'; cases h'
  · intro h'; cases h'

/-- A completed `InitD3D12` has set `initialized`. -/
theorem okPost_InitD3D12 (rt : Runtime) :
    OkPost (InitD3D12 rt) (fun w => w.self.initialized = true) := by
  unfold vrperfkit.InitD3D12
  repeat' first
    | (intro w x _; rfl)
    | apply okPost_bind_right
    | intro _

theorem OnFrameSubmission_catch_eq (w : World) :
    OnFrameSubmission_catch w = (Outcome.ok (), markFailed w) := by
  simp [OnFrameSubmission_catch, bind_apply, Act.bind, Shutdown_eq, modifySelf, tornDown,
    markFailed]

/-- What `Init` does, by the way its `try` block ends. -/
theorem Init_of_try {rt : Runtime} {session : ovrSession}
    {leftEyeChain rightEyeChain : ovrTextureSwapChain} {w w2 : World} {o : Outcome Unit}
    (h : Init_try rt session leftEyeChain (storeIdentities session leftEyeChain rightEyeChain w)
      = (o, w2)) :
    Init rt session leftEyeChain rightEyeChain w =
      match o with
      | Outcome.undefined => (Outcome.undefined, w2)
      | _ => if w2.self.initialized then (Outcome.ok (), w2) else (Outcome.ok (), markFailed w2) := by
  simp only [storeIdentities] at h
  simp only [Init, bind_apply, Act.bind, modifySelf, tryCatch, getSelf, PerEye.set,
    Fin.isValue, one_ne_zero, ↓reduceIte, h]
  cases o <;> simp only [pure_apply] <;>
    cases hi : w2.self.initialized <;>
    simp [Shutdown_eq, tornDown, markFailed, bind_apply, Act.bind, modifySelf, pure_apply]

/-! ### Frame submission around initialisation failures -/

/-- Once the failure flag is set, `OnFrameSubmission` returns at its first test. -/
theorem submitFrame_of_failed (rt : Runtime) (session : ovrSession)
    (eyeLayer : ovrLayerEyeFovDepth) (w : World) (h : w.self.failed = true) :
    submitFrame rt session eyeLayer w = (Outcome.ok (), { w with eyeLayer := eyeLayer }) := by
  simp [submitFrame, OnFrameSubmission, bind_apply, Act.bind, getSelf, getLayer, h, pure_apply]

theorem submitFrames_of_failed (frames : List Frame) (w : World) (h : w.self.failed = true) :
    submitFrames frames w =
      frames.map fun f => (Outcome.ok (), { w with eyeLayer := f.eyeLayer }) := by
  induction frames generalizing w with
  | nil => rfl
  | cons f rest ih =>
    simp only [submitFrames, List.map_cons, submitFrame_of_failed _ _ _ _ h]
    rw [ih { w with eyeLayer := f.eyeLayer } h]

/-- What `OnFrameSubmission` does once its first test is passed, by the way
`EnsureInit` ends. -/
theorem submitFrame_of_EnsureInit {rt : Runtime} {session : ovrSession}
    {eyeLayer : ovrLayerEyeFovDepth} {w wE : World} {o : Outcome Unit}
    (hfailed : w.self.failed = false) (hs : session ≠ none)
    (hl : eyeLayer.ColorTexture.get 0 ≠ none)
    (hE : EnsureInit rt session (eyeLayer.ColorTexture.get 0) (eyeLayer.ColorTexture.get 1)
      { w with eyeLayer := eyeLayer } = (o, wE)) :
    submitFrame rt session eyeLayer w =
      match o with
      | Outcome.ok _ =>
        if wE.self.failed then (Outcome.ok (), wE)
        else tryCatch (OnFrameSubmission_try rt) OnFrameSubmission_catch wE
      | Outcome.threw => (Outcome.threw, wE)
      | Outcome.undefined => (Outcome.undefined, wE) := by
  simp only [submitFrame, OnFrameSubmission, bind_apply, Act.bind, getSelf, getLayer, hfailed,
    hs, hl, Bool.false_eq_true, false_or, ↓reduceIte, hE]
  cases o <;> simp only
  cases hf : wE.self.failed <;> simp [pure_apply]

theorem Init_ne_threw (rt : Runtime) (session : ovrSession)
    (leftEyeChain rightEyeChain : ovrTextureSwapChain) (w : World) :
    (Init rt session leftEyeChain rightEyeChain w).1 ≠ Outcome.threw := by
  rcases h : Init_try rt session leftEyeChain
    (storeIdentities session leftEyeChain rightEyeChain w) with ⟨o, w2⟩
  rw [Init_of_try h]
  cases o <;> simp only <;> first | (split <;> simp) | simp

/-- An `Init` entered on a torn-down manager whose `try` block ends without
`initialized` being set leaves the manager torn down with the failure flag set. -/
theorem Init_try_not_initialized (rt : Runtime) (session : ovrSession)
    (leftEyeChain rightEyeChain : ovrTextureSwapChain) (w : World)
    (hbad : rt.GetTextureSwapChainBufferDX session leftEyeChain 0 = none ∨
      (InitD3D12 rt (storeIdentities session leftEyeChain rightEyeChain (tornDown w))).1
        = Outcome.threw) :
    ∃ w', Init rt session leftEyeChain rightEyeChain (tornDown w) = (Outcome.ok (), w') ∧
      w'.self = { failed := true } ∧ w'.eyeLayer = w.eyeLayer := by
  rcases h : Init_try rt session leftEyeChain
    (storeIdentities session leftEyeChain rightEyeChain (tornDown w)) with ⟨o, w2⟩
  have key : o ≠ Outcome.undefined ∧ w2.self.initialized = false ∧ w2.eyeLayer = w.eyeLayer := by
    by_cases hp : rt.GetTextureSwapChainBufferDX session leftEyeChain 0 = none
    · simp only [Init_try, hp, ne_eq, not_true_eq_false, ↓reduceIte, pure_apply,
        Prod.mk.injEq] at h
      rcases h with ⟨rfl, rfl⟩
      exact ⟨by simp, rfl, rfl⟩
    · have hthrew := hbad.resolve_left hp
      simp only [Init_try, ne_eq, hp, not_false_eq_true, ↓reduceIte] at h
      rw [h] at hthrew
      simp only at hthrew
      subst hthrew
      have hk := keepsUnlessOk_InitD3D12 (p := fun w => (w.self.initialized, w.eyeLayer)) rt
        (fun _ _ => rfl) (fun _ _ => rfl) (fun _ _ => rfl) (fun _ _ => rfl)
        (storeIdentities session leftEyeChain rightEyeChain (tornDown w))
      rw [h] at hk
      rcases hk with ⟨x, hx⟩ | hk
      · cases hx
      · simp only [Prod.mk.injEq] at hk
        exact ⟨by simp, hk.1, hk.2⟩
  rw [Init_of_try h]
  refine ⟨markFailed w2, ?_, rfl, key.2.2⟩
  rcases key with ⟨hu, hi, _⟩
  cases o <;> simp_all

/-- C9. `EnsureInit` rebuilds exactly when needed: `Shutdown` leaves the world
`tornDown w`; if the manager is not initialised or the session, the left or the
right submitted chain differs from the stored one, `EnsureInit` is `Init` with the
new identities run on that torn-down world; otherwise it returns with the world
(every field of the manager, the layer, and the record of outside calls, hence
no destroyed swap chain) exactly as it was. -/
theorem EnsureInit_rebuilds_exactly_when_needed (rt : Runtime) (session : ovrSession)
    (leftEyeChain rightEyeChain : ovrTextureSwapChain) (w : World) :
    Shutdown w = (Outcome.ok (), tornDown w) ∧
      EnsureInit rt session leftEyeChain rightEyeChain w =
        if ¬ w.self.initialized ∨ session ≠ w.self.session ∨
            leftEyeChain ≠ w.self.submittedEyeChains.get 0 ∨
            rightEyeChain ≠ w.self.submittedEyeChains.get 1 then
          Init rt session leftEyeChain rightEyeChain (tornDown w)
        else (Outcome.ok (), w) := by
  refine ⟨Shutdown_eq w, ?_⟩
  rw [EnsureInit_eq]
  simp only [needsInit, bind_apply, Act.bind, Shutdown_eq]

/-- C8. Suppose a frame is submitted to a manager that has not failed, with a
session and a left chain, and that initialisation runs for it and does not reach
the valid state: the probe for a D3D12 buffer fails, or `InitD3D12` raises.  Then
(like every `Init`) this `Init` lets no exception escape; it returns normally and
leaves the manager uninitialised, torn down, with the failure flag set; this
`OnFrameSubmission` call returns normally with the layer exactly as submitted;
and so does every later call, whatever it is given. -/
theorem Init_failure_passes_frames_through (rt : Runtime) (session : ovrSession)
    (eyeLayer : ovrLayerEyeFovDepth) (w : World)
    (hfailed : w.self.failed = false) (hs : session ≠ none)
    (hl : eyeLayer.ColorTexture.get 0 ≠ none)
    (hneed : needsInit w.self session (eyeLayer.ColorTexture.get 0) (eyeLayer.ColorTexture.get 1))
    (hbad : rt.GetTextureSwapChainBufferDX session (eyeLayer.ColorTexture.get 0) 0 = none ∨
      (InitD3D12 rt (storeIdentities session (eyeLayer.ColorTexture.get 0)
        (eyeLayer.ColorTexture.get 1) (tornDown { w with eyeLayer := eyeLayer }))).1
          = Outcome.threw) :
    (∀ l r w0, (Init rt session l r w0).1 ≠ Outcome.threw) ∧
    ∃ w', Init rt session (eyeLayer.ColorTexture.get 0) (eyeLayer.ColorTexture.get 1)
          (tornDown { w with eyeLayer := eyeLayer }) = (Outcome.ok (), w') ∧
      w'.self = { failed := true } ∧
      w'.self.initialized = false ∧
      submitFrame rt session eyeLayer w = (Outcome.ok (), w') ∧
      w'.eyeLayer = eyeLayer ∧
      ∀ frames : List Frame, submitFrames frames w' =
        frames.map fun f => (Outcome.ok (), { w' with eyeLayer := f.eyeLayer }) := by
  refine ⟨fun l r w0 => Init_ne_threw rt session l r w0, ?_⟩
  obtain ⟨w', hInit, hself, hlayer⟩ := Init_try_not_initialized rt session
    (eyeLayer.ColorTexture.get 0) (eyeLayer.ColorTexture.get 1) { w with eyeLayer := eyeLayer } hbad
  have hf : w'.self.failed = true := by rw [hself]
  refine ⟨w', hInit, hself, by rw [hself], ?_, hlayer, fun frames => submitFrames_of_failed frames w' hf⟩
  have hE : EnsureInit rt session (eyeLayer.ColorTexture.get 0) (eyeLayer.ColorTexture.get 1)
      { w with eyeLayer := eyeLayer } = (Outcome.ok (), w') := by
    rw [EnsureInit_eq, if_pos hneed]
    simp only [bind_apply, Act.bind, Shutdown_eq]
    exact hInit
  rw [submitFrame_of_EnsureInit hfailed hs hl hE]
  simp [hf]

/-- The statement above for the first frame of `demoLayer` when the chains are not
D3D12 chains. -/
theorem Init_failure_passes_frames_through_witness :
    (∀ l r w0, (Init unsupportedRuntime (some 1) l r w0).1 ≠ Outcome.threw) ∧
    ∃ w', Init unsupportedRuntime (some 1) (demoLayer.ColorTexture.get 0)
          (demoLayer.ColorTexture.get 1)
          (tornDown { initialWorld with eyeLayer := demoLayer }) = (Outcome.ok (), w') ∧
      w'.self = { failed := true } ∧
      w'.self.initialized = false ∧
      submitFrame unsupportedRuntime (some 1) demoLayer initialWorld = (Outcome.ok (), w') ∧
      w'.eyeLayer = demoLayer ∧
      ∀ frames : List Frame, submitFrames frames w' =
        frames.map fun f => (Outcome.ok (), { w' with eyeLayer := f.eyeLayer }) :=
  Init_failure_passes_frames_through unsupportedRuntime (some 1) demoLayer initialWorld
    (by decide) (by decide) (by decide) (by decide) (Or.inl (by decide))

/-- C7, as the code behaves.  Suppose a frame is submitted to a manager that has
not failed, with a session and a left chain, initialisation (if it ran) succeeded,
and the `try` block of `OnFrameSubmission` (post-processing, then the hotkey
check) raises.  Then the call returns normally with the manager torn down and
the failure flag set, and the next `OnFrameSubmission` call, whatever session,
chains and backend it is given, returns at once: it runs neither initialisation
nor post-processing, the manager stays uninitialised and failed, no outside call
is made, and the layer is passed through as submitted. -/
theorem OnFrameSubmission_failure_is_not_rebuilt (rt : Runtime) (session : ovrSession)
    (eyeLayer : ovrLayerEyeFovDepth) (w : World)
    (hfailed : w.self.failed = false) (hs : session ≠ none)
    (hl : eyeLayer.ColorTexture.get 0 ≠ none)
    (hE : (EnsureInit rt session (eyeLayer.ColorTexture.get 0) (eyeLayer.ColorTexture.get 1)
      { w with eyeLayer := eyeLayer }).1 = Outcome.ok ())
    (hEf : (EnsureInit rt session (eyeLayer.ColorTexture.get 0) (eyeLayer.ColorTexture.get 1)
      { w with eyeLayer := eyeLayer }).2.self.failed = false)
    (hthrow : (OnFrameSubmission_try rt
      (EnsureInit rt session (eyeLayer.ColorTexture.get 0) (eyeLayer.ColorTexture.get 1)
        { w with eyeLayer := eyeLayer }).2).1 = Outcome.threw) :
    ∃ w', submitFrame rt session eyeLayer w = (Outcome.ok (), w') ∧
      w'.self = { failed := true } ∧
      ∀ (rt2 : Runtime) (session2 : ovrSession) (eyeLayer2 : ovrLayerEyeFovDepth),
        submitFrame rt2 session2 eyeLayer2 w' = (Outcome.ok (), { w' with eyeLayer := eyeLayer2 }) ∧
        (submitFrame rt2 session2 eyeLayer2 w').2.self.initialized = false ∧
        (submitFrame rt2 session2 eyeLayer2 w').2.events = w'.events := by
  rcases hEeq : EnsureInit rt session (eyeLayer.ColorTexture.get 0) (eyeLayer.ColorTexture.get 1)
      { w with eyeLayer := eyeLayer } with ⟨o, wE⟩
  rw [hEeq] at hE hEf hthrow
  simp only at hE hEf hthrow
  subst hE
  rcases hT : OnFrameSubmission_try rt wE with ⟨oT, wT⟩
  rw [hT] at hthrow
  simp only at hthrow
  subst hthrow
  refine ⟨markFailed wT, ?_, rfl, fun rt2 s2 l2 => ?_⟩
  · rw [submitFrame_of_EnsureInit hfailed hs hl hEeq]
    simp [hEf, tryCatch, hT, OnFrameSubmission_catch_eq]
  · have h := submitFrame_of_failed rt2 s2 l2 (markFailed wT) rfl
    rw [h]
    exact ⟨rfl, rfl, rfl⟩

/-- The statement above for the first frame of `demoLayer` when the current-index
query fails after a successful initialisation. -/
theorem OnFrameSubmission_failure_is_not_rebuilt_witness :
    ∃ w', submitFrame indexFailingRuntime (some 1) demoLayer initialWorld = (Outcome.ok (), w') ∧
      w'.self = { failed := true } ∧
      ∀ (rt2 : Runtime) (session2 : ovrSession) (eyeLayer2 : ovrLayerEyeFovDepth),
        submitFrame rt2 session2 eyeLayer2 w' = (Outcome.ok (), { w' with eyeLayer := eyeLayer2 }) ∧
        (submitFrame rt2 session2 eyeLayer2 w').2.self.initialized = false ∧
        (submitFrame rt2 session2 eyeLayer2 w').2.events = w'.events :=
  OnFrameSubmission_failure_is_not_rebuilt indexFailingRuntime (some 1) demoLayer initialWorld
    (by decide) (by decide) (by decide) (by decide!) (by decide!) (by decide!)

/-- C7 fails as stated.  The first frame initialises the session and then fails
in post-processing (the current-index query fails), so the session is torn
down.  The next frame comes with a session, a left chain and an available
backend, with which a fresh manager does initialise and post-process; yet this
call does not rebuild: the manager stays uninitialised, no outside call is made
and the layer is returned as submitted. -/
theorem OnFrameSubmission_rebuild_counterexample :
    (OnFrameSubmission_try indexFailingRuntime
        (EnsureInit indexFailingRuntime (some 1) (some 10) (some 11) initialWorld).2).1
      = Outcome.threw ∧
    (submitFrame indexFailingRuntime (some 1) demoLayer initialWorld).2.self.initialized = false ∧
    (submitFrame availableRuntime (some 1) demoLayer initialWorld).2.self.initialized = true ∧
    (submitFrame availableRuntime (some 1) demoLayer
        (submitFrame indexFailingRuntime (some 1) demoLayer initialWorld).2).2.self.initialized
      = false ∧
    (submitFrame availableRuntime (some 1) demoLayer
        (submitFrame indexFailingRuntime (some 1) demoLayer initialWorld).2).2.events
      = (submitFrame indexFailingRuntime (some 1) demoLayer initialWorld).2.events ∧
    (submitFrame availableRuntime (some 1) demoLayer
        (submitFrame indexFailingRuntime (some 1) demoLayer initialWorld).2).2.eyeLayer
      = demoLayer := by
  decide!

/-! ### One frame of post-processing -/

/-- The first part of the per-eye body: it changes neither the manager nor the
layer, makes at most the resolve call, and what it returns is the frame context
described by `FrameInput`. -/
theorem PostProcessD3D12_input_spec (rt : Runtime) (isFlippedY : Bool) (eye : Fin 2) (w : World) :
    wp (PostProcessD3D12_input rt isFlippedY eye)
      (fun o w' => w'.self = w.self ∧ w'.eyeLayer = w.eyeLayer ∧
        match o with
        | Outcome.ok inp => ∃ r reported index,
            FrameInput rt w.self r (w.eyeLayer.Viewport.get eye) isFlippedY eye reported index inp ∧
            w'.events = w.events ++ resolveEvents rt w.self r eye inp.inputTexture
        | _ => True) w := by
  unfold PostProcessD3D12_input
  simp only [wp_bind, wp_getSelf, bindPost_ok, wp_Check, wp_getRes, wp_defined, bindPost_threw,
    bindPost_undefined, wp_ite, wp_emit, wp_pure, wp_getLayer, and_self, implies_true, and_true,
    true_and]
  intro reported hrep r hr index hidx
  refine ⟨fun hms => ⟨fun hc src hsrc t ht v hv ot hot ov hov ou hou => ?_,
      fun hc t ht v hv ot hot ov hov ou hou => ?_⟩,
    fun hms t ht v hv ot hot ov hov ou hou => ?_⟩
  · have hst : src = t := by rw [hsrc] at ht; exact Option.some.inj ht
    subst hst
    refine ⟨r, reported, index, ⟨hr, hrep, hidx, ht, hv, hot, hov, hou, rfl, rfl, rfl, rfl⟩, ?_⟩
    simp only [resolveEvents, hms, true_and]
    rw [if_pos hc]
  · refine ⟨r, reported, index, ⟨hr, hrep, hidx, ht, hv, hot, hov, hou, rfl, rfl, rfl, rfl⟩, ?_⟩
    simp only [resolveEvents, hms, true_and]
    rw [if_neg hc]; simp
  · refine ⟨r, reported, index, ⟨hr, hrep, hidx, ht, hv, hot, hov, hou, rfl, rfl, rfl, rfl⟩, ?_⟩
    simp [resolveEvents, hms]

@[simp] theorem PerEye_get_set_same {α : Type} (p : PerEye α) (eye : Fin 2) (v : α) :
    (p.set eye v).get eye = v := by
  unfold PerEye.get PerEye.set
  split <;> rfl

theorem PerEye_get_set_ne {α : Type} (p : PerEye α) (eye other : Fin 2) (v : α)
    (h : other ≠ eye) : (p.set eye v).get other = p.get other := by
  unfold PerEye.get PerEye.set
  by_cases h1 : eye = 0 <;> by_cases h2 : other = 0 <;> simp_all
  omega

@[simp] theorem PerEye_get_one_set_zero {α : Type} (p : PerEye α) (v : α) :
    (p.set 0 v).get 1 = p.get 1 := PerEye_get_set_ne p 0 1 v (by decide)

@[simp] theorem PerEye_get_zero_set_one {α : Type} (p : PerEye α) (v : α) :
    (p.set 1 v).get 0 = p.get 0 := PerEye_get_set_ne p 1 0 v (by decide)

/-- A completed iteration of the per-eye loop: the manager is unchanged, the
outside calls are the resolve (if any), `Apply` and `UpdateTargetInformation`,
and the layer is rewritten for this eye exactly when `Apply` returned true. -/
theorem PostProcessD3D12_eye_spec (rt : Runtime) (flip : Bool) (eye : Fin 2) (s : Bool)
    (w : World) :
    wp (PostProcessD3D12_eye rt flip eye s)
      (fun o w' => w'.self = w.self ∧
        match o with
        | Outcome.ok b => ∃ r reported index inp,
            FrameInput rt w.self r (w.eyeLayer.Viewport.get eye) flip eye reported index inp ∧
            w'.events = w.events ++ eyeEvents rt w.self r flip eye inp ∧
            w'.eyeLayer = applyResult w.self eye (rt.Apply inp) w.eyeLayer ∧
            b = ((rt.Apply inp).isSome || s)
        | _ => True) w := by
  unfold PostProcessD3D12_eye
  rw [wp_bind]
  refine wp_mono (PostProcessD3D12_input_spec rt flip eye w) ?_
  rintro o w1 ⟨hself, hlayer, h⟩
  cases o with
  | threw => exact ⟨hself, trivial⟩
  | undefined => exact ⟨hself, trivial⟩
  | ok inp =>
    obtain ⟨r, reported, index, hin, hev⟩ := h
    simp only [bindPost_ok, wp_bind, wp_getSelf, wp_emit]
    cases hA : rt.Apply inp with
    | none =>
      simp only [wp_pure, bindPost_ok, wp_bind, wp_emit]
      refine ⟨hself, r, reported, index, inp, hin, ?_, ?_, ?_⟩
      · simp [hev, eyeEvents, hA]
      · simp [applyResult, hA, hlayer]
      · simp [hA]
    | some vp =>
      simp only [wp_pure, bindPost_ok, wp_bind, wp_emit, wp_modifyLayer]
      refine ⟨hself, r, reported, index, inp, hin, ?_, ?_, ?_⟩
      · simp [hev, eyeEvents, hA]
      · simp [applyResult, hA, hlayer, hself]
      · simp [hA]

/-- A completed `PostProcessD3D12`, in closed form: the manager is unchanged; the
outside calls are `SetProjCenters`, the calls of the left eye, the calls of the
right eye, `EndFrame` and the commits; the layer is rewritten per eye. -/
theorem PostProcessD3D12_spec (rt : Runtime) (w : World) :
    wp (PostProcessD3D12 rt)
      (fun o w' => w'.self = w.self ∧
        match o with
        | Outcome.ok _ => ∃ r reported0 index0 inp0 reported1 index1 inp1,
            FrameInput rt w.self r (w.eyeLayer.Viewport.get 0) (isFlippedY w.eyeLayer) 0
              reported0 index0 inp0 ∧
            FrameInput rt w.self r (w.eyeLayer.Viewport.get 1) (isFlippedY w.eyeLayer) 1
              reported1 index1 inp1 ∧
            w'.eyeLayer = applyResult w.self 1 (rt.Apply inp1)
              (applyResult w.self 0 (rt.Apply inp0) w.eyeLayer) ∧
            w'.events = w.events ++ [Event.SetProjCenters] ++
              eyeEvents rt w.self r (isFlippedY w.eyeLayer) 0 inp0 ++
              eyeEvents rt w.self r (isFlippedY w.eyeLayer) 1 inp1 ++
              [Event.EndFrame] ++
              commitEvents w.self ((rt.Apply inp0).isSome || (rt.Apply inp1).isSome)
        | _ => True) w := by
  unfold PostProcessD3D12 CalculateProjectionCenter
  simp only [wp_bind, wp_getRes, bindPost_ok, wp_emit, wp_getLayer, bindPost_undefined,
    and_true, implies_true]
  intro r0 hr0
  refine wp_mono (PostProcessD3D12_eye_spec rt _ 0 false _) ?_
  rintro o w1 ⟨hself1, h1⟩
  cases o with
  | threw => exact ⟨hself1, trivial⟩
  | undefined => exact ⟨hself1, trivial⟩
  | ok b0 =>
    obtain ⟨r, rep0, idx0, inp0, hin0, hev0, hl0, hb0⟩ := h1
    simp only [bindPost_ok, wp_bind]
    refine wp_mono (PostProcessD3D12_eye_spec rt _ 1 b0 w1) ?_
    rintro o w2 ⟨hself2, h2⟩
    cases o with
    | threw => exact ⟨hself2.trans hself1, trivial⟩
    | undefined => exact ⟨hself2.trans hself1, trivial⟩
    | ok b1 =>
      obtain ⟨r', rep1, idx1, inp1, hin1, hev1, hl1, hb1⟩ := h2
      have hself1' : w1.self = w.self := hself1
      have hrr : r' = r := by
        have h1 := hin1.res
        have h0 := hin0.res
        rw [hself1'] at h1
        simp only at h0
        rw [h0] at h1
        exact (Option.some.inj h1).symm
      subst hrr
      have hvp : w1.eyeLayer.Viewport.get 1 = w.eyeLayer.Viewport.get 1 := by
        rw [hl0]; simp only [applyResult]
        split <;> simp
      rw [hself1', hvp] at hin1
      rw [hself1'] at hev1 hl1
      have hself2' : w2.self = w.self := hself2.trans hself1
      have hb : b1 = ((rt.Apply inp0).isSome || (rt.Apply inp1).isSome) := by
        rw [hb1, hb0, Bool.or_false, Bool.or_comm]
      have hev2 : w2.events = w.events ++ [Event.SetProjCenters] ++
          eyeEvents rt w.self r' (isFlippedY w.eyeLayer) 0 inp0 ++
          eyeEvents rt w.self r' (isFlippedY w.eyeLayer) 1 inp1 := by
        rw [hev1, hev0]
        simp [isFlippedY]
      have hlayer : w2.eyeLayer = applyResult w.self 1 (rt.Apply inp1)
          (applyResult w.self 0 (rt.Apply inp0) w.eyeLayer) := by
        rw [hl1, hl0]
      simp only [bindPost_ok, wp_bind, wp_emit, wp_getSelf, wp_ite, wp_pure, hself2']
      refine ⟨fun hb1t => ⟨fun hne => ⟨trivial, r', rep0, idx0, inp0, rep1, idx1, inp1, hin0, hin1,
          hlayer, ?_⟩, fun hne => ⟨trivial, r', rep0, idx0, inp0, rep1, idx1, inp1, hin0, hin1,
          hlayer, ?_⟩⟩, fun hb1f => ⟨trivial, r', rep0, idx0, inp0, rep1, idx1, inp1, hin0, hin1,
          hlayer, ?_⟩⟩
      · rw [hev2, ← hb]; simp [commitEvents, hb1t, hne]
      · rw [hev2, ← hb]; simp [commitEvents, hb1t, hne]
      · rw [hev2, ← hb]; simp [commitEvents, hb1f]

theorem PostProcessD3D12_ok {rt : Runtime} {w w' : World}
    (h : PostProcessD3D12 rt w = (Outcome.ok (), w')) :
    w'.self = w.self ∧ ∃ r reported0 index0 inp0 reported1 index1 inp1,
      FrameInput rt w.self r (w.eyeLayer.Viewport.get 0) (isFlippedY w.eyeLayer) 0
        reported0 index0 inp0 ∧
      FrameInput rt w.self r (w.eyeLayer.Viewport.get 1) (isFlippedY w.eyeLayer) 1
        reported1 index1 inp1 ∧
      w'.eyeLayer = applyResult w.self 1 (rt.Apply inp1)
        (applyResult w.self 0 (rt.Apply inp0) w.eyeLayer) ∧
      newEvents w w' = frameEvents rt w.self r (isFlippedY w.eyeLayer) inp0 inp1 := by
  have hs := PostProcessD3D12_spec rt w
  rw [wp_of_eq h] at hs
  obtain ⟨hself, r, rep0, idx0, inp0, rep1, idx1, inp1, h0, h1, hl, hev⟩ := hs
  refine ⟨hself, r, rep0, idx0, inp0, rep1, idx1, inp1, h0, h1, hl, ?_⟩
  simp only [newEvents, hev, frameEvents, List.append_assoc, List.drop_left]

theorem mem_Apply_frameEvents {rt : Runtime} {m : OculusManager} {r : OculusD3D12Resources}
    {flip : Bool} {inp0 inp1 inp : D3D12PostProcessInput} {res : Option Viewport} :
    Event.Apply inp res ∈ frameEvents rt m r flip inp0 inp1 ↔
      (inp = inp0 ∧ res = rt.Apply inp0) ∨ (inp = inp1 ∧ res = rt.Apply inp1) := by
  simp only [frameEvents, eyeEvents, resolveEvents, commitEvents]
  split_ifs <;> simp

theorem mem_Commit_frameEvents {rt : Runtime} {m : OculusManager} {r : OculusD3D12Resources}
    {flip : Bool} {inp0 inp1 : D3D12PostProcessInput} {e : Event} :
    e ∈ commitEvents m ((rt.Apply inp0).isSome || (rt.Apply inp1).isSome) →
      e ∈ frameEvents rt m r flip inp0 inp1 := by
  intro h
  simp only [frameEvents, List.mem_append]
  exact Or.inr h

theorem count_Commit_frameEvents {rt : Runtime} {m : OculusManager} {r : OculusD3D12Resources}
    {flip : Bool} {inp0 inp1 : D3D12PostProcessInput} (s : ovrSession)
    (c : ovrTextureSwapChain) :
    (frameEvents rt m r flip inp0 inp1).count (Event.CommitTextureSwapChain s c) =
      (commitEvents m ((rt.Apply inp0).isSome || (rt.Apply inp1).isSome)).count
        (Event.CommitTextureSwapChain s c) := by
  simp only [frameEvents, eyeEvents, resolveEvents, List.count_append]
  split_ifs <;> simp [List.count_cons]

/-- C2. In a completed `PostProcessD3D12`, every `Apply` call receives, as output
texture, output view and output UAV, the entries of its eye's output lists at the
index that the current-index query on that eye's output chain reports.  The
index reported for the submitted chain plays no part: a second run from the same
world, under any other runtime that answers the output chains' query alike,
passes the same three output entries for the same eye. -/
theorem PostProcessD3D12_output_follows_output_index (rt : Runtime) (w w' : World)
    (h : PostProcessD3D12 rt w = (Outcome.ok (), w')) :
    ∃ r, w.self.d3d12Res = some r ∧
      (∀ eye : Fin 2, ∃ inp res, Event.Apply inp res ∈ newEvents w w' ∧ inp.eye = eye) ∧
      (∀ inp res, Event.Apply inp res ∈ newEvents w w' →
        ∀ j, rt.GetTextureSwapChainCurrentIndex w.self.session
            (w.self.outputEyeChains.get inp.eye) = some j →
          (r.outputTextures.get inp.eye)[toSizeT j]? = some inp.outputTexture ∧
          (r.outputViews.get inp.eye)[toSizeT j]? = some inp.outputView ∧
          (r.outputUavs.get inp.eye)[toSizeT j]? = some inp.outputUav) ∧
      (∀ (rt2 : Runtime) (w2' : World), PostProcessD3D12 rt2 w = (Outcome.ok (), w2') →
        (∀ eye, rt2.GetTextureSwapChainCurrentIndex w.self.session (w.self.outputEyeChains.get eye)
          = rt.GetTextureSwapChainCurrentIndex w.self.session (w.self.outputEyeChains.get eye)) →
        ∀ inp res inp2 res2, Event.Apply inp res ∈ newEvents w w' →
          Event.Apply inp2 res2 ∈ newEvents w w2' → inp2.eye = inp.eye →
          inp2.outputTexture = inp.outputTexture ∧ inp2.outputView = inp.outputView ∧
            inp2.outputUav = inp.outputUav) := by
  obtain ⟨_, r, rep0, idx0, inp0, rep1, idx1, inp1, h0, h1, _, hev⟩ := PostProcessD3D12_ok h
  have key : ∀ (rt' : Runtime) (w'' : World), PostProcessD3D12 rt' w = (Outcome.ok (), w'') →
      ∀ inp res, Event.Apply inp res ∈ newEvents w w'' →
        (r.outputTextures.get inp.eye)[toSizeT (outIndex rt' w.self inp.eye)]?
            = some inp.outputTexture ∧
          (r.outputViews.get inp.eye)[toSizeT (outIndex rt' w.self inp.eye)]?
            = some inp.outputView ∧
          (r.outputUavs.get inp.eye)[toSizeT (outIndex rt' w.self inp.eye)]?
            = some inp.outputUav := by
    intro rt' w'' h' inp res hmem
    obtain ⟨_, r', _, _, i0, _, _, i1, g0, g1, _, hev'⟩ := PostProcessD3D12_ok h'
    have hr : r' = r := by
      have a := g0.res; have b := h0.res
      rw [b] at a; exact (Option.some.inj a).symm
    subst hr
    rw [hev', mem_Apply_frameEvents] at hmem
    rcases hmem with ⟨rfl, _⟩ | ⟨rfl, _⟩
    · rw [g0.eye_eq]; exact ⟨g0.outputTexture, g0.outputView, g0.outputUav⟩
    · rw [g1.eye_eq]; exact ⟨g1.outputTexture, g1.outputView, g1.outputUav⟩
  refine ⟨r, h0.res, ?_, ?_, ?_⟩
  · intro eye
    rw [hev]
    by_cases he : eye = 0
    · exact ⟨inp0, rt.Apply inp0, mem_Apply_frameEvents.mpr (Or.inl ⟨rfl, rfl⟩), by rw [he, h0.eye_eq]⟩
    · have he1 : eye = 1 := by omega
      exact ⟨inp1, rt.Apply inp1, mem_Apply_frameEvents.mpr (Or.inr ⟨rfl, rfl⟩), by rw [he1, h1.eye_eq]⟩
  · intro inp res hmem j hj
    have := key rt w' h inp res hmem
    simpa only [outIndex, hj, Option.getD_some] using this
  · intro rt2 w2' h2 hagree inp res inp2 res2 hm hm2 heye
    have a := key rt w' h inp res hm
    have b := key rt2 w2' h2 inp2 res2 hm2
    have hidx : outIndex rt2 w.self inp2.eye = outIndex rt w.self inp.eye := by
      simp only [outIndex, heye, hagree]
    rw [hidx, heye] at b
    refine ⟨?_, ?_, ?_⟩
    · exact Option.some.inj (b.1.symm.trans a.1)
    · exact Option.some.inj (b.2.1.symm.trans a.2.1)
    · exact Option.some.inj (b.2.2.symm.trans a.2.2)

/-- The statement above for a frame of the session started with `demoLayer`. -/
theorem PostProcessD3D12_output_follows_output_index_witness :
    ∃ r, frameStart.self.d3d12Res = some r ∧
      (∀ eye : Fin 2, ∃ inp res, Event.Apply inp res ∈ newEvents frameStart frameEnd ∧
        inp.eye = eye) ∧
      (∀ inp res, Event.Apply inp res ∈ newEvents frameStart frameEnd →
        ∀ j, availableRuntime.GetTextureSwapChainCurrentIndex frameStart.self.session
            (frameStart.self.outputEyeChains.get inp.eye) = some j →
          (r.outputTextures.get inp.eye)[toSizeT j]? = some inp.outputTexture ∧
          (r.outputViews.get inp.eye)[toSizeT j]? = some inp.outputView ∧
          (r.outputUavs.get inp.eye)[toSizeT j]? = some inp.outputUav) ∧
      (∀ (rt2 : Runtime) (w2' : World),
        PostProcessD3D12 rt2 frameStart = (Outcome.ok (), w2') →
        (∀ eye, rt2.GetTextureSwapChainCurrentIndex frameStart.self.session
            (frameStart.self.outputEyeChains.get eye)
          = availableRuntime.GetTextureSwapChainCurrentIndex frameStart.self.session
            (frameStart.self.outputEyeChains.get eye)) →
        ∀ inp res inp2 res2, Event.Apply inp res ∈ newEvents frameStart frameEnd →
          Event.Apply inp2 res2 ∈ newEvents frameStart w2' → inp2.eye = inp.eye →
          inp2.outputTexture = inp.outputTexture ∧ inp2.outputView = inp.outputView ∧
            inp2.outputUav = inp.outputUav) :=
  PostProcessD3D12_output_follows_output_index availableRuntime frameStart frameEnd (by decide!)

theorem applyResult_get_same (m : OculusManager) (eye : Fin 2) (res : Option Viewport)
    (l : ovrLayerEyeFovDepth) :
    ((applyResult m eye res l).ColorTexture.get eye, (applyResult m eye res l).Viewport.get eye) =
      match res with
      | some vp => (m.outputEyeChains.get eye, outputRect vp)
      | none => (l.ColorTexture.get eye, l.Viewport.get eye) := by
  cases res <;> simp [applyResult]

theorem applyResult_get_ne (m : OculusManager) (eye other : Fin 2) (res : Option Viewport)
    (l : ovrLayerEyeFovDepth) (h : other ≠ eye) :
    (applyResult m eye res l).ColorTexture.get other = l.ColorTexture.get other ∧
      (applyResult m eye res l).Viewport.get other = l.Viewport.get other := by
  cases res <;> simp [applyResult, PerEye_get_set_ne _ _ _ _ h]

/-- C4. In a completed `PostProcessD3D12`, for each eye there is exactly one
`Apply` call, and what the layer holds for that eye afterwards is decided by that
call alone: if it returned failure, the colour target and the viewport of the eye
are what the application submitted; if it returned success with an output
viewport, the colour target is the eye's output chain and the viewport has the
position `x`, `y` and the size `width`, `height` of that output viewport.  The
other eye's `Apply` result does not enter. -/
theorem PostProcessD3D12_rewrites_each_eye_on_its_own_result (rt : Runtime) (w w' : World)
    (h : PostProcessD3D12 rt w = (Outcome.ok (), w')) (eye : Fin 2) :
    ∃ inp, inp.eye = eye ∧ Event.Apply inp (rt.Apply inp) ∈ newEvents w w' ∧
      (∀ inp' res', Event.Apply inp' res' ∈ newEvents w w' → inp'.eye = eye →
        inp' = inp ∧ res' = rt.Apply inp) ∧
      (rt.Apply inp = none →
        w'.eyeLayer.ColorTexture.get eye = w.eyeLayer.ColorTexture.get eye ∧
        w'.eyeLayer.Viewport.get eye = w.eyeLayer.Viewport.get eye) ∧
      (∀ outputViewport, rt.Apply inp = some outputViewport →
        w'.eyeLayer.ColorTexture.get eye = w.self.outputEyeChains.get eye ∧
        (w'.eyeLayer.Viewport.get eye).Pos.x = outputViewport.x ∧
        (w'.eyeLayer.Viewport.get eye).Pos.y = outputViewport.y ∧
        (w'.eyeLayer.Viewport.get eye).Size.w = outputViewport.width ∧
        (w'.eyeLayer.Viewport.get eye).Size.h = outputViewport.height) := by
  obtain ⟨_, r, rep0, idx0, inp0, rep1, idx1, inp1, h0, h1, hl, hev⟩ := PostProcessD3D12_ok h
  have e0 := h0.eye_eq
  have e1 := h1.eye_eq
  by_cases he : eye = 0
  · subst he
    have hs := applyResult_get_same w.self 0 (rt.Apply inp0) w.eyeLayer
    have hn := applyResult_get_ne w.self 1 0 (rt.Apply inp1)
      (applyResult w.self 0 (rt.Apply inp0) w.eyeLayer) (by decide)
    rw [← hl] at hn
    refine ⟨inp0, e0, ?_, ?_, ?_, ?_⟩
    · rw [hev]; exact mem_Apply_frameEvents.mpr (Or.inl ⟨rfl, rfl⟩)
    · intro inp' res' hm heye
      rw [hev, mem_Apply_frameEvents] at hm
      rcases hm with ⟨rfl, rfl⟩ | ⟨rfl, rfl⟩
      · exact ⟨rfl, rfl⟩
      · rw [e1] at heye; exact absurd heye (by decide)
    · intro hA
      rw [hA] at hs hn
      simp only [Prod.mk.injEq] at hs
      exact ⟨hn.1.trans hs.1, hn.2.trans hs.2⟩
    · intro vp hA
      rw [hA] at hs hn
      simp only [Prod.mk.injEq] at hs
      have hv := hn.2.trans hs.2
      rw [hv]
      exact ⟨hn.1.trans hs.1, rfl, rfl, rfl, rfl⟩
  · have he1 : eye = 1 := by omega
    subst he1
    have hs := applyResult_get_same w.self 1 (rt.Apply inp1)
      (applyResult w.self 0 (rt.Apply inp0) w.eyeLayer)
    have hn := applyResult_get_ne w.self 0 1 (rt.Apply inp0) w.eyeLayer (by decide)
    rw [← hl] at hs
    refine ⟨inp1, e1, ?_, ?_, ?_, ?_⟩
    · rw [hev]; exact mem_Apply_frameEvents.mpr (Or.inr ⟨rfl, rfl⟩)
    · intro inp' res' hm heye
      rw [hev, mem_Apply_frameEvents] at hm
      rcases hm with ⟨rfl, rfl⟩ | ⟨rfl, rfl⟩
      · rw [e0] at heye; exact absurd heye (by decide)
      · exact ⟨rfl, rfl⟩
    · intro hA
      rw [hA] at hs
      simp only [Prod.mk.injEq] at hs
      exact ⟨hs.1.trans hn.1, hs.2.trans hn.2⟩
    · intro vp hA
      rw [hA] at hs
      simp only [Prod.mk.injEq] at hs
      rw [hs.2]
      exact ⟨hs.1, rfl, rfl, rfl, rfl⟩

/-- The statement above for the right eye in a frame of the session started with
`demoLayer`. -/
theorem PostProcessD3D12_rewrites_each_eye_on_its_own_result_witness :
    ∃ inp, inp.eye = 1 ∧
      Event.Apply inp (availableRuntime.Apply inp) ∈ newEvents frameStart frameEnd ∧
      (∀ inp' res', Event.Apply inp' res' ∈ newEvents frameStart frameEnd → inp'.eye = 1 →
        inp' = inp ∧ res' = availableRuntime.Apply inp) ∧
      (availableRuntime.Apply inp = none →
        frameEnd.eyeLayer.ColorTexture.get 1 = frameStart.eyeLayer.ColorTexture.get 1 ∧
        frameEnd.eyeLayer.Viewport.get 1 = frameStart.eyeLayer.Viewport.get 1) ∧
      (∀ outputViewport, availableRuntime.Apply inp = some outputViewport →
        frameEnd.eyeLayer.ColorTexture.get 1 = frameStart.self.outputEyeChains.get 1 ∧
        (frameEnd.eyeLayer.Viewport.get 1).Pos.x = outputViewport.x ∧
        (frameEnd.eyeLayer.Viewport.get 1).Pos.y = outputViewport.y ∧
        (frameEnd.eyeLayer.Viewport.get 1).Size.w = outputViewport.width ∧
        (frameEnd.eyeLayer.Viewport.get 1).Size.h = outputViewport.height) :=
  PostProcessD3D12_rewrites_each_eye_on_its_own_result availableRuntime frameStart frameEnd
    (by decide!) 1

/-- C5. At the end of a completed `PostProcessD3D12`: if no `Apply` call returned
success, no `ovr_CommitTextureSwapChain` call is made; if at least one did, each
eye's output chain is committed exactly once (so a chain shared by both eyes is
committed once, and two different chains once each), and nothing else is
committed. -/
theorem PostProcessD3D12_commits_each_chain_once (rt : Runtime) (w w' : World)
    (h : PostProcessD3D12 rt w = (Outcome.ok (), w')) :
    ((∀ inp res, Event.Apply inp res ∈ newEvents w w' → res = none) →
      ∀ s c, Event.CommitTextureSwapChain s c ∉ newEvents w w') ∧
    ((∃ inp res, Event.Apply inp res ∈ newEvents w w' ∧ res ≠ none) →
      (∀ eye : Fin 2, (newEvents w w').count
        (Event.CommitTextureSwapChain w.self.session (w.self.outputEyeChains.get eye)) = 1) ∧
      ∀ s c, Event.CommitTextureSwapChain s c ∈ newEvents w w' →
        s = w.self.session ∧ ∃ eye : Fin 2, c = w.self.outputEyeChains.get eye) := by
  obtain ⟨_, r, rep0, idx0, inp0, rep1, idx1, inp1, h0, h1, hl, hev⟩ := PostProcessD3D12_ok h
  rw [hev]
  constructor
  · intro hnone s c hmem
    have a0 := hnone inp0 (rt.Apply inp0) (mem_Apply_frameEvents.mpr (Or.inl ⟨rfl, rfl⟩))
    have a1 := hnone inp1 (rt.Apply inp1) (mem_Apply_frameEvents.mpr (Or.inr ⟨rfl, rfl⟩))
    have hc := List.count_pos_iff.mpr hmem
    rw [count_Commit_frameEvents, a0, a1] at hc
    simp [commitEvents] at hc
  · rintro ⟨inp, res, hmem, hres⟩
    have hsucc : ((rt.Apply inp0).isSome || (rt.Apply inp1).isSome) = true := by
      rw [mem_Apply_frameEvents] at hmem
      rcases hmem with ⟨_, rfl⟩ | ⟨_, rfl⟩
      · simp [Option.isSome_iff_ne_none.mpr hres]
      · simp [Option.isSome_iff_ne_none.mpr hres]
    constructor
    · intro eye
      rw [count_Commit_frameEvents, hsucc]
      by_cases he : eye = 0
      · subst he
        by_cases hne : w.self.outputEyeChains.get 1 = w.self.outputEyeChains.get 0
        · simp [commitEvents, hne]
        · simp [commitEvents, hne, List.count_cons]
      · have he1 : eye = 1 := by omega
        subst he1
        by_cases hne : w.self.outputEyeChains.get 1 = w.self.outputEyeChains.get 0
        · simp [commitEvents, hne]
        · simp [commitEvents, hne, List.count_cons]
    · intro s c hmem
      have hc := List.count_pos_iff.mpr hmem
      rw [count_Commit_frameEvents, hsucc] at hc
      have hmem' := List.count_pos_iff.mp hc
      simp only [commitEvents, ↓reduceIte, List.mem_cons] at hmem'
      rcases hmem' with h1 | h2
      · simp only [Event.CommitTextureSwapChain.injEq] at h1
        exact ⟨h1.1, 0, h1.2⟩
      · split_ifs at h2
        · simp only [List.mem_singleton, Event.CommitTextureSwapChain.injEq] at h2
          exact ⟨h2.1, 1, h2.2⟩
        · simp at h2

/-- The statement above for a frame of the session started with `demoLayer`. -/
theorem PostProcessD3D12_commits_each_chain_once_witness :
    ((∀ inp res, Event.Apply inp res ∈ newEvents frameStart frameEnd → res = none) →
      ∀ s c, Event.CommitTextureSwapChain s c ∉ newEvents frameStart frameEnd) ∧
    ((∃ inp res, Event.Apply inp res ∈ newEvents frameStart frameEnd ∧ res ≠ none) →
      (∀ eye : Fin 2, (newEvents frameStart frameEnd).count
        (Event.CommitTextureSwapChain frameStart.self.session
          (frameStart.self.outputEyeChains.get eye)) = 1) ∧
      ∀ s c, Event.CommitTextureSwapChain s c ∈ newEvents frameStart frameEnd →
        s = frameStart.self.session ∧ ∃ eye : Fin 2, c = frameStart.self.outputEyeChains.get eye) :=
  PostProcessD3D12_commits_each_chain_once availableRuntime frameStart frameEnd (by decide!)

/-! ### The hook dispatcher -/

/-- Inside another intercepted call (flag set) the sampler trampoline only
forwards to the original implementation: no listener is invoked. -/
theorem D3D12ContextHook_PSSetSamplers_nested (call : Call → HookWorld → Option HookWorld)
    (self : Context) (StartSlot NumSamplers ppSamplers : Nat) (w : HookWorld)
    (h : w.alreadyInsideHook = true) :
    D3D12ContextHook_PSSetSamplers call self StartSlot NumSamplers ppSamplers w =
      some (CallOriginal (Call.PSSetSamplers StartSlot NumSamplers ppSamplers) w) := by
  rcases w with ⟨f, t⟩
  simp only at h
  subst h
  unfold D3D12ContextHook_PSSetSamplers
  cases self.injector <;> simp [HookGuard_enter, HookGuard_exit, CallOriginal]

/-- A listener that rebinds render targets whenever it is told of a bind makes
the render-target trampoline recurse without end: the call returns at no depth. -/
theorem rebindingListener_never_returns (depth : Nat) (n v d : Nat) (w : HookWorld) :
    hookedCall (contextWith rebindingListener) depth (Call.OMSetRenderTargets n v d) w = none := by
  induction depth generalizing w with
  | zero => rfl
  | succ k ih =>
    have hi : (contextWith rebindingListener).injector = some { listeners := [1] } := rfl
    have ho : ∀ p, (contextWith rebindingListener).objects p = rebindingListener := fun _ => rfl
    have hp : ∀ n v d, rebindingListener.PostOMSetRenderTargets n v d
        = [Call.OMSetRenderTargets n v d] := fun _ _ _ => rfl
    simp only [hookedCall, trampoline, D3D12ContextHook_OMSetRenderTargets, hi, ho, hp,
      D3D12Injector.PostOMSetRenderTargets, issue, ih]

/-- C10 fails on three of the four call sites.  One application call that binds
render targets, with a listener that itself binds render targets while it is
notified: the nested call is not just forwarded, the listener is notified a
second time (likewise for the combined render-target/UAV bind and for the
depth-stencil clear); and with a listener that rebinds on every notification the
call never returns.  On the sampler call site the nested call is forwarded
without notification. -/
theorem nested_intercepted_call_notifies_again :
    hookedCall (contextWith rebindingOnceListener) 2 (Call.OMSetRenderTargets 2 0 0) {} =
      some { alreadyInsideHook := false,
             trace := [HookEvent.CallOriginal (Call.OMSetRenderTargets 2 0 0),
                       HookEvent.PostOMSetRenderTargets 1 2 0 0,
                       HookEvent.CallOriginal (Call.OMSetRenderTargets 1 0 0),
                       HookEvent.PostOMSetRenderTargets 1 1 0 0] } ∧
    hookedCall (contextWith rebindingOnceListener) 2
        (Call.OMSetRenderTargetsAndUnorderedAccessViews 2 0 0 0 0 0 0) {} =
      some { alreadyInsideHook := false,
             trace := [HookEvent.CallOriginal
                         (Call.OMSetRenderTargetsAndUnorderedAccessViews 2 0 0 0 0 0 0),
                       HookEvent.PostOMSetRenderTargets 1 2 0 0,
                       HookEvent.CallOriginal (Call.OMSetRenderTargets 1 0 0),
                       HookEvent.PostOMSetRenderTargets 1 1 0 0] } ∧
    hookedCall (contextWith reclearingOnceListener) 2 (Call.ClearDepthStencilView 0 1 0 1) {} =
      some { alreadyInsideHook := false,
             trace := [HookEvent.CallOriginal (Call.ClearDepthStencilView 0 1 0 1),
                       HookEvent.ClearDepthStencilView 1 0 1 0 1,
                       HookEvent.CallOriginal (Call.ClearDepthStencilView 0 1 0 0),
                       HookEvent.ClearDepthStencilView 1 0 1 0 0] } ∧
    (∀ depth, hookedCall (contextWith rebindingListener) depth (Call.OMSetRenderTargets 2 0 0) {}
      = none) ∧
    hookedCall (contextWith resamplingListener) 2 (Call.PSSetSamplers 0 1 0) {} =
      some { alreadyInsideHook := false,
             trace := [HookEvent.PrePSSetSamplers 1 0 1 0,
                       HookEvent.CallOriginal (Call.PSSetSamplers 0 1 0),
                       HookEvent.CallOriginal (Call.PSSetSamplers 0 1 0)] } := by
  refine ⟨by decide, by decide, by decide, fun depth => rebindingListener_never_returns depth 2 0 0 {},
    by decide⟩

/-! ### What the loops of `InitD3D12` build -/

@[simp] theorem PerEye_set_set {α : Type} (p : PerEye α) (eye : Fin 2) (v v' : α) :
    (p.set eye v).set eye v' = p.set eye v' := by
  unfold PerEye.set
  split <;> rfl

@[simp] theorem PerEye_set_get {α : Type} (p : PerEye α) (eye : Fin 2) :
    p.set eye (p.get eye) = p := by
  unfold PerEye.set PerEye.get
  split <;> rfl

theorem updRes_updRes (f g : OculusD3D12Resources → OculusD3D12Resources) (w : World) :
    updRes g (updRes f w) = updRes (g ∘ f) w := by
  simp only [updRes, Option.map_map]

theorem updRes_of_some {f : OculusD3D12Resources → OculusD3D12Resources} {w : World}
    {r : OculusD3D12Resources} (h : w.self.d3d12Res = some r) :
    ({ w with self := { w.self with d3d12Res := some (f r) } } : World) = updRes f w := by
  simp only [updRes, h, Option.map_some']

theorem updRes_id (w : World) : updRes (fun r => r) w = w := by
  simp only [updRes, Option.map_id', id_eq]

@[simp] theorem updRes_session (f : OculusD3D12Resources → OculusD3D12Resources) (w : World) :
    (updRes f w).self.session = w.self.session := rfl

@[simp] theorem updRes_submittedEyeChains (f : OculusD3D12Resources → OculusD3D12Resources)
    (w : World) : (updRes f w).self.submittedEyeChains = w.self.submittedEyeChains := rfl

@[simp] theorem updRes_outputEyeChains (f : OculusD3D12Resources → OculusD3D12Resources)
    (w : World) : (updRes f w).self.outputEyeChains = w.self.outputEyeChains := rfl

@[simp] theorem updRes_events (f : OculusD3D12Resources → OculusD3D12Resources) (w : World) :
    (updRes f w).events = w.events := rfl

@[simp] theorem updRes_eyeLayer (f : OculusD3D12Resources → OculusD3D12Resources) (w : World) :
    (updRes f w).eyeLayer = w.eyeLayer := rfl

@[simp] theorem updRes_d3d12Res (f : OculusD3D12Resources → OculusD3D12Resources) (w : World) :
    (updRes f w).self.d3d12Res = w.self.d3d12Res.map f := rfl

theorem wp_modifyRes_upd (f : OculusD3D12Resources → OculusD3D12Resources)
    (Q : Outcome Unit → World → Prop) (w : World) :
    wp (modifyRes f) Q w ↔
      (∀ r, w.self.d3d12Res = some r → Q (Outcome.ok ()) (updRes f w)) ∧
      (w.self.d3d12Res = none → Q Outcome.undefined w) := by
  rw [wp_modifyRes]
  constructor
  · rintro ⟨h1, h2⟩
    exact ⟨fun r hr => by rw [← updRes_of_some hr]; exact h1 r hr, h2⟩
  · rintro ⟨h1, h2⟩
    exact ⟨fun r hr => by rw [updRes_of_some hr]; exact h1 r hr, h2⟩

theorem pushSubmittedTextures_nil (eye : Fin 2) :
    pushSubmittedTextures eye [] = fun r => r := by
  funext r; simp [pushSubmittedTextures]

theorem pushSubmittedViews_nil (eye : Fin 2) : pushSubmittedViews eye [] = fun r => r := by
  funext r; simp [pushSubmittedViews]

theorem pushOutputTextures_nil (eye : Fin 2) : pushOutputTextures eye [] = fun r => r := by
  funext r; simp [pushOutputTextures]

/-- The loop of lines 181-185, when it completes, has appended to
`submittedTextures[eye]` the buffers the compositor gave for the indices, in
order, and changed nothing else. -/
theorem InitD3D12_submittedTextures_spec (rt : Runtime) (eye : Fin 2) (is : List Nat)
    (w : World) :
    wp (InitD3D12_submittedTextures rt eye is)
      (fun o w' => o = Outcome.ok () → ∃ texs : List ID3D12Resource,
        List.Forall₂ (fun (i : Nat) t => rt.GetTextureSwapChainBufferDX w.self.session
          (w.self.submittedEyeChains.get eye) (i : Int) = some t) is texs ∧
        w' = updRes (pushSubmittedTextures eye texs) w) w := by
  induction is generalizing w with
  | nil =>
    rw [InitD3D12_submittedTextures, wp_pure]
    intro _
    refine ⟨[], List.Forall₂.nil, ?_⟩
    rw [pushSubmittedTextures_nil, updRes_id]
  | cons i rest ih =>
    rw [InitD3D12_submittedTextures]
    simp only [wp_bind, wp_getSelf, bindPost_ok, wp_Check, bindPost_threw, wp_modifyRes_upd,
      bindPost_undefined, reduceCtorEq, false_implies, implies_true, and_true]
    intro t ht r hr
    refine wp_mono (ih _) ?_
    intro o w' h ho
    obtain ⟨texs, hf, hw⟩ := h ho
    refine ⟨t :: texs, List.Forall₂.cons ht hf, ?_⟩
    rw [hw, updRes_updRes]
    congr 1
    funext r
    simp [pushSubmittedTextures]

/-- The loop of lines 199-205, when it completes, has appended one view per
index to `submittedViews[eye]` and changed nothing else. -/
theorem InitD3D12_submittedViews_spec (rt : Runtime) (eye : Fin 2) (n : Int) (is : List Nat)
    (w : World) :
    wp (InitD3D12_submittedViews rt eye n is)
      (fun o w' => o = Outcome.ok () → ∃ views : List ShaderResourceView,
        views.length = is.length ∧ w' = updRes (pushSubmittedViews eye views) w) w := by
  induction is generalizing w with
  | nil =>
    rw [InitD3D12_submittedViews, wp_pure]
    intro _
    refine ⟨[], rfl, ?_⟩
    rw [pushSubmittedViews_nil, updRes_id]
  | cons i rest ih =>
    rw [InitD3D12_submittedViews]
    unfold CreateShaderResourceView
    simp only [wp_bind, wp_getRes, bindPost_ok, wp_ite, wp_pure, wp_raise, bindPost_threw,
      wp_defined, wp_modifyRes_upd, bindPost_undefined, reduceCtorEq, false_implies,
      implies_true, and_true]
    intro r hr
    have step : ∀ v : ShaderResourceView,
        wp (InitD3D12_submittedViews rt eye n rest)
          (fun o w' => o = Outcome.ok () → ∃ views : List ShaderResourceView,
            views.length = (i :: rest).length ∧ w' = updRes (pushSubmittedViews eye views) w)
          (updRes (pushSubmittedViews eye [v]) w) := by
      intro v
      refine wp_mono (ih _) ?_
      intro o w' h ho
      obtain ⟨views, hl, hw⟩ := h ho
      refine ⟨v :: views, by simp [hl], ?_⟩
      rw [hw, updRes_updRes]
      congr 1
      funext r
      simp [pushSubmittedViews]
    refine ⟨fun _ _ r' hr' => ?_, fun _ t _ _ r' hr' => ?_⟩
    · exact step { texture := r.resolveTexture.get eye, arrayIndex := 0 }
    · exact step { texture := some t, arrayIndex := 0 }

/-- The loop of lines 223-233, when it completes, has appended to
`outputTextures[eye]` the buffers the compositor gave for the indices, in order,
and to `outputViews[eye]` and `outputUavs[eye]` a view and a UAV of each, and
changed nothing else. -/
theorem InitD3D12_outputTextures_spec (rt : Runtime) (eye : Fin 2) (is : List Nat)
    (w : World) :
    wp (InitD3D12_outputTextures rt eye is)
      (fun o w' => o = Outcome.ok () → ∃ texs : List ID3D12Resource,
        List.Forall₂ (fun (i : Nat) t => rt.GetTextureSwapChainBufferDX w.self.session
          (w.self.outputEyeChains.get eye) (i : Int) = some t) is texs ∧
        w' = updRes (pushOutputTextures eye texs) w) w := by
  induction is generalizing w with
  | nil =>
    rw [InitD3D12_outputTextures, wp_pure]
    intro _
    refine ⟨[], List.Forall₂.nil, ?_⟩
    rw [pushOutputTextures_nil, updRes_id]
  | cons i rest ih =>
    rw [InitD3D12_outputTextures]
    unfold CreateShaderResourceView CreateUnorderedAccessView
    simp only [wp_bind, wp_getSelf, bindPost_ok, wp_Check, bindPost_threw, wp_modifyRes_upd,
      bindPost_undefined, reduceCtorEq, false_implies, implies_true, and_true, wp_getRes,
      wp_ite, wp_pure, wp_raise, updRes_d3d12Res, Option.map_eq_some', Option.map_eq_none',
      forall_exists_index, and_imp]
    intro t ht r hr
    intros
    refine wp_mono (ih _) ?_
    intro o w' h ho
    obtain ⟨texs, hf, hw⟩ := h ho
    refine ⟨t :: texs, List.Forall₂.cons ht hf, ?_⟩
    rw [hw, updRes_updRes, updRes_updRes, updRes_updRes]
    congr 1
    funext r
    simp [pushOutputTextures, viewOf, uavOf]

theorem forall₂_length_range {α : Type} {P : Nat → α → Prop} {n : Nat} {xs : List α}
    (h : List.Forall₂ P (List.range n) xs) : xs.length = n := by
  have := h.length_eq
  simpa using this.symm

theorem storeOutputChain_updRes (eye : Fin 2) (desc : ovrTextureSwapChainDesc) (chain : Nat)
    (f : OculusD3D12Resources → OculusD3D12Resources) (w : World) :
    storeOutputChain eye desc chain (updRes f w) = updRes f (storeOutputChain eye desc chain w) :=
  rfl

/-- Lines 193-197, when they complete: a resolve texture was created and the eye
marked exactly when the chain is multi-sampled. -/
theorem InitD3D12_resolve_spec (rt : Runtime) (eye : Fin 2)
    (chainDesc : ovrTextureSwapChainDesc) (w : World) :
    wp (InitD3D12_resolve rt eye chainDesc)
      (fun o w' => o = Outcome.ok () → ∃ resolve : Option ID3D12Resource,
        (resolve ≠ none ↔ chainDesc.SampleCount > 1) ∧ w' = updRes (setResolve eye resolve) w)
      w := by
  unfold InitD3D12_resolve
  simp only [wp_ite, wp_bind, wp_getRes, bindPost_ok, wp_defined, wp_Check, bindPost_threw,
    bindPost_undefined, wp_modifyRes_upd, wp_pure, reduceCtorEq, false_implies, implies_true,
    and_true, forall_const]
  refine ⟨fun hs r hr t ht resolve hres r' hr' => ⟨some resolve, by simp [hs], rfl⟩,
    fun hs => ⟨none, by simp [hs], ?_⟩⟩
  rw [show setResolve eye none = fun r => r from rfl, updRes_id]

/-- Lines 207-233, when they complete: the chain the compositor created is
stored for the eye and recorded, and its images, with a view and a UAV each, are
appended to the eye's output lists. -/
theorem InitD3D12_outputChain_spec (rt : Runtime) (eye : Fin 2)
    (chainDesc : ovrTextureSwapChainDesc) (w : World) :
    wp (InitD3D12_outputChain rt eye chainDesc)
      (fun o w' => o = Outcome.ok () → ∃ (chain : Nat) (outLength : Int)
          (otexs : List ID3D12Resource),
        rt.GetTextureSwapChainLength w.self.session (some chain) = some outLength ∧
        otexs.length = outLength.toNat ∧
        List.Forall₂ (fun (i : Nat) t => rt.GetTextureSwapChainBufferDX w.self.session
          (some chain) (i : Int) = some t) (List.range outLength.toNat) otexs ∧
        w' = updRes (pushOutputTextures eye otexs)
          (storeOutputChain eye (outputChainDesc rt chainDesc) chain w)) w := by
  unfold InitD3D12_outputChain
  simp only [wp_bind, wp_getSelf, bindPost_ok, wp_getRes, wp_Check, bindPost_threw,
    bindPost_undefined, wp_modifySelf, wp_emit, reduceCtorEq, false_implies, implies_true,
    and_true]
  intro r hr chain hchain outLength hlen
  refine wp_mono (InitD3D12_outputTextures_spec rt eye _ _) ?_
  intro o w' h ho
  obtain ⟨otexs, hf, hw⟩ := h ho
  simp only [PerEye_get_set_same] at hf
  exact ⟨chain, outLength, otexs, hlen, forall₂_length_range hf, hf, hw⟩

/-- A completed iteration of the per-eye loop of `InitD3D12`: for a skipped eye
only `multisampled[eye]` is cleared; otherwise the iteration did what `EyeInit`
describes. -/
theorem InitD3D12_eye_spec (rt : Runtime) (eye : Fin 2) (w : World) :
    wp (InitD3D12_eye rt eye)
      (fun o w' => o = Outcome.ok () →
        (skipsEye w.self eye ∧ w' = updRes (clearMultisampled eye) w) ∨
        (¬ skipsEye w.self eye ∧ EyeInit rt eye w w')) w := by
  unfold InitD3D12_eye
  simp only [wp_bind, wp_modifyRes_upd, bindPost_ok, wp_getSelf, wp_ite, wp_pure, wp_Check,
    bindPost_threw, bindPost_undefined, reduceCtorEq, false_implies, implies_true, and_true,
    updRes_submittedEyeChains, updRes_session]
  intro r hr
  refine ⟨fun hskip _ => Or.inl hskip, fun hskip length hlen => ?_⟩
  refine wp_mono (InitD3D12_submittedTextures_spec rt eye _ _) ?_
  intro o w1 h1
  cases o with
  | threw => simp
  | undefined => simp
  | ok u =>
    obtain ⟨texs, hf, hw1⟩ := h1 rfl
    have htl := forall₂_length_range hf
    subst hw1
    simp only [bindPost_ok, wp_bind, wp_getRes, updRes_d3d12Res, hr, Option.map_some',
      Option.some.injEq, forall_eq', wp_defined, wp_modifyRes_upd, bindPost_undefined,
      reduceCtorEq, false_implies, implies_true, and_true, wp_Check, bindPost_threw,
      Option.map_eq_some', forall_exists_index, and_imp, Option.map_eq_none',
      updRes_updRes, updRes_session, updRes_submittedEyeChains]
    intro first hfirst chainDesc hdesc
    refine wp_mono (InitD3D12_resolve_spec rt eye chainDesc _) ?_
    intro o w2 h2
    cases o with
    | threw => simp
    | undefined => simp
    | ok u =>
      obtain ⟨resolve, hres, hw2⟩ := h2 rfl
      subst hw2
      simp only [bindPost_ok, wp_bind]
      refine wp_mono (InitD3D12_submittedViews_spec rt eye _ _ _) ?_
      intro o w3 h3
      cases o with
      | threw => simp
      | undefined => simp
      | ok u =>
        obtain ⟨views, hvl, hw3⟩ := h3 rfl
        subst hw3
        simp only [bindPost_ok]
        refine wp_mono (InitD3D12_outputChain_spec rt eye chainDesc _) ?_
        intro o w4 h4 ho
        obtain ⟨chain, outLength, otexs, hol, hotl, _, hw4⟩ := h4 ho
        refine Or.inr ⟨hskip, ⟨length, texs, first, chainDesc, resolve, views, chain, outLength,
          otexs, hlen, htl, ?_, hdesc, hres, ?_, hol, hotl, ?_⟩⟩
        · refine ⟨r, hr, ?_⟩
          simpa [pushSubmittedTextures, clearMultisampled] using hfirst
        · simpa using hvl
        · rw [hw4]
          simp only [updRes_updRes, storeOutputChain_updRes]
          rfl

theorem InitD3D12_arraySubmittedViews_spec (rt : Runtime) (texs : List ID3D12Resource)
    (w : World) :
    wp (InitD3D12_arraySubmittedViews rt texs)
      (fun o w' => o = Outcome.ok () →
        w' = updRes (pushSubmittedViews 1 (texs.map arrayViewOf)) w) w := by
  induction texs generalizing w with
  | nil =>
    rw [InitD3D12_arraySubmittedViews, wp_pure]
    intro _
    rw [List.map_nil, pushSubmittedViews_nil, updRes_id]
  | cons t rest ih =>
    rw [InitD3D12_arraySubmittedViews]
    unfold CreateShaderResourceView
    simp only [wp_bind, wp_getRes, bindPost_ok, wp_ite, wp_pure, wp_raise, bindPost_threw,
      wp_modifyRes_upd, bindPost_undefined, reduceCtorEq, false_implies, implies_true, and_true]
    intro r hr _ r' hr'
    refine wp_mono (ih _) ?_
    intro o w' h ho
    rw [h ho, updRes_updRes]
    congr 1
    funext r
    simp [pushSubmittedViews, arrayViewOf]

theorem InitD3D12_arrayOutputViews_spec (rt : Runtime) (texs : List ID3D12Resource)
    (w : World) :
    wp (InitD3D12_arrayOutputViews rt texs)
      (fun o w' => o = Outcome.ok () → w' = updRes (pushArrayOutputViews texs) w) w := by
  induction texs generalizing w with
  | nil =>
    rw [InitD3D12_arrayOutputViews, wp_pure]
    intro _
    rw [show pushArrayOutputViews [] = fun r => r from by
      funext r; simp [pushArrayOutputViews], updRes_id]
  | cons t rest ih =>
    rw [InitD3D12_arrayOutputViews]
    unfold CreateShaderResourceView CreateUnorderedAccessView
    simp only [wp_bind, wp_getRes, bindPost_ok, wp_ite, wp_pure, wp_raise, bindPost_threw,
      wp_modifyRes_upd, bindPost_undefined, reduceCtorEq, false_implies, implies_true, and_true,
      updRes_d3d12Res, Option.map_eq_some', forall_exists_index, and_imp]
    intro r hr
    intros
    refine wp_mono (ih _) ?_
    intro o w' h ho
    rw [h ho, updRes_updRes, updRes_updRes]
    simp only [updRes, hr, Option.map_some']
    congr 3
    simp [pushArrayOutputViews, resolvedTex]

/-- The block of lines 238-266, when it completes: the right eye's output chain
is the left eye's, and the resources are shared as `sharedResources` describes
for the array size the compositor reports for the left chain. -/
theorem InitD3D12_shared_spec (rt : Runtime) (w : World) :
    wp (InitD3D12_shared rt)
      (fun o w' => o = Outcome.ok () → ∃ chainDesc,
        rt.GetTextureSwapChainDesc w.self.session (w.self.submittedEyeChains.get 0)
          = some chainDesc ∧
        w' = updRes (sharedResources chainDesc.ArraySize) (shareOutputChain w)) w := by
  unfold InitD3D12_shared
  simp only [wp_bind, wp_modifySelf, bindPost_ok, wp_modifyRes_upd, wp_getSelf, wp_Check,
    bindPost_threw, bindPost_undefined, wp_ite, reduceCtorEq, false_implies, implies_true,
    and_true, updRes_session, updRes_submittedEyeChains, updRes_d3d12Res, Option.map_eq_some',
    forall_exists_index, and_imp, wp_getRes, updRes_updRes]
  intro r hr chainDesc hdesc
  have hupd : ∀ f g : OculusD3D12Resources → OculusD3D12Resources, f r = g r →
      updRes f (shareOutputChain w) = updRes g (shareOutputChain w) := by
    intro f g hfg
    simp only [updRes, shareOutputChain, hr, Option.map_some', hfg]
  refine ⟨fun h1 _ _ _ _ _ => ⟨chainDesc, hdesc, ?_⟩, fun hn => ?_⟩
  · refine hupd _ _ ?_
    simp [sharedResources, h1]
  · intro _ _ _ _ r2 x2 hx2 hr2
    rw [hr] at hx2
    cases hx2
    subst hr2
    refine wp_mono (InitD3D12_arraySubmittedViews_spec rt _ _) ?_
    intro o w1 h1
    cases o with
    | threw => simp
    | undefined => simp
    | ok u =>
      have hw1 := h1 rfl
      subst hw1
      simp only [bindPost_ok, wp_bind, wp_getRes, updRes_d3d12Res, Option.map_eq_some',
        forall_exists_index, and_imp, bindPost_undefined, reduceCtorEq, false_implies,
        implies_true, and_true, updRes_updRes, hr, Option.some.injEq, forall_eq',
        Option.map_some', Option.map_eq_none']
      refine wp_mono (InitD3D12_arrayOutputViews_spec rt _ _) ?_
      intro o w2 h2 ho
      refine ⟨chainDesc, hdesc, ?_⟩
      rw [h2 ho, updRes_updRes]
      simp only [updRes, shareOutputChain, hr, Option.map_some', Function.comp_apply]
      simp [sharedResources, hn, setUsingArrayTex, shareTextures, pushSubmittedViews]

/-- Lines 268-272, when they complete: the components are stored and nothing
else is changed. -/
theorem InitD3D12_components_spec (rt : Runtime) (w : World) :
    wp (InitD3D12_components rt)
      (fun o w' => o = Outcome.ok () → ∃ postProcessor variableRateShading : ListenerPtr,
        w' = updRes (setComponents postProcessor variableRateShading) w) w := by
  unfold InitD3D12_components
  rw [wp_bind, wp_getRes]
  refine ⟨fun r hr => ?_, fun _ => by simp⟩
  rw [bindPost_ok, wp_bind, wp_Check]
  refine ⟨fun pp _ => ?_, fun _ => by simp⟩
  rw [bindPost_ok, wp_bind, wp_modifyRes_upd]
  refine ⟨fun _ _ => ?_, fun _ => by simp⟩
  rw [bindPost_ok, wp_bind, wp_Check]
  refine ⟨fun vrs _ => ?_, fun _ => by simp⟩
  rw [bindPost_ok]
  simp only [wp_bind, wp_modifyRes_upd, bindPost_ok, bindPost_undefined, wp_ite, wp_pure,
    wp_raise, bindPost_threw, reduceCtorEq, false_implies, implies_true, and_true,
    updRes_d3d12Res, Option.map_eq_some', forall_exists_index, and_imp, updRes_updRes,
    forall_const]
  intros
  refine ⟨pp, vrs, ?_⟩
  simp only [updRes, hr, Option.map_some', Function.comp_apply]
  simp [setComponents]

/-- A completed `InitD3D12`, step by step: the left eye's iteration, the right
eye's iteration, `usingArrayTex` cleared, the sharing block, the creation of the
components, and `initialized` set. -/
theorem InitD3D12_spec (rt : Runtime) (w : World) :
    wp (InitD3D12 rt)
      (fun o w' => o = Outcome.ok () → ∃ (w1 w2 w3 : World) (postProcessor
          variableRateShading : ListenerPtr),
        EyeStep rt 0 (initStart w) w1 ∧ EyeStep rt 1 w1 w2 ∧
        SharedStep rt (updRes (setUsingArrayTex false) w2) w3 ∧
        w' = initFinish (updRes (setComponents postProcessor variableRateShading) w3)) w := by
  unfold InitD3D12
  simp only [wp_bind, wp_modifySelf, bindPost_ok]
  refine wp_mono (InitD3D12_eye_spec rt 0 _) ?_
  intro o w1 h1
  cases o with
  | threw => simp
  | undefined => simp
  | ok u =>
    have e1 : EyeStep rt 0 (initStart w) w1 := h1 rfl
    simp only [bindPost_ok, wp_bind]
    refine wp_mono (InitD3D12_eye_spec rt 1 _) ?_
    intro o w2 h2
    cases o with
    | threw => simp
    | undefined => simp
    | ok u =>
      have e2 : EyeStep rt 1 w1 w2 := h2 rfl
      simp only [bindPost_ok, wp_bind, wp_modifyRes_upd, bindPost_undefined, wp_getSelf,
        reduceCtorEq, false_implies, implies_true, and_true, updRes_outputEyeChains, wp_ite]
      intro r2 hr2
      have tail : ∀ w3 : World, SharedStep rt (updRes (setUsingArrayTex false) w2) w3 →
          wp (InitD3D12_components rt)
            (bindPost (fun _ => modifySelf fun m => { m with initialized := true })
              (fun o w' => o = Outcome.ok () → ∃ (w1 w2 w3 : World) (postProcessor
                variableRateShading : ListenerPtr),
              EyeStep rt 0 (initStart w) w1 ∧ EyeStep rt 1 w1 w2 ∧
              SharedStep rt (updRes (setUsingArrayTex false) w2) w3 ∧
              w' = initFinish (updRes (setComponents postProcessor variableRateShading) w3)))
            w3 := by
        intro w3 hs
        refine wp_mono (InitD3D12_components_spec rt w3) ?_
        intro o w4 h4
        cases o with
        | threw => simp
        | undefined => simp
        | ok u =>
          obtain ⟨pp, vrs, hw4⟩ := h4 rfl
          simp only [bindPost_ok, wp_modifySelf, forall_const]
          exact ⟨w1, w2, w3, pp, vrs, e1, e2, hs, by rw [hw4]; rfl⟩
      refine ⟨fun hnone => ?_, fun hsome => ?_⟩
      · refine wp_mono (InitD3D12_shared_spec rt _) ?_
        intro o w3 h3
        cases o with
        | threw => simp
        | undefined => simp
        | ok u =>
          obtain ⟨chainDesc, hdesc, hw3⟩ := h3 rfl
          simp only [bindPost_ok]
          rw [wp_bind]
          exact tail w3 (Or.inl ⟨hnone, chainDesc, hdesc, hw3⟩)
      · simp only [wp_pure, bindPost_ok]
        rw [wp_bind]
        exact tail _ (Or.inr ⟨hsome, rfl⟩)

theorem InitD3D12_ok {rt : Runtime} {w w' : World} (h : InitD3D12 rt w = (Outcome.ok (), w')) :
    ∃ (w1 w2 w3 : World) (postProcessor variableRateShading : ListenerPtr),
      EyeStep rt 0 (initStart w) w1 ∧ EyeStep rt 1 w1 w2 ∧
      SharedStep rt (updRes (setUsingArrayTex false) w2) w3 ∧
      w' = initFinish (updRes (setComponents postProcessor variableRateShading) w3) := by
  have hs := InitD3D12_spec rt w
  rw [wp_of_eq h] at hs
  exact hs rfl

@[simp] theorem PerEye_get_mk_zero {α : Type} (a b : α) :
    ({ left := a, right := b } : PerEye α).get 0 = a := rfl

@[simp] theorem PerEye_get_mk_one {α : Type} (a b : α) :
    ({ left := a, right := b } : PerEye α).get 1 = b := rfl

@[simp] theorem setResolve_submittedTextures (eye : Fin 2) (res : Option ID3D12Resource)
    (r : OculusD3D12Resources) : (setResolve eye res r).submittedTextures = r.submittedTextures := by
  cases res <;> rfl

@[simp] theorem setResolve_outputTextures (eye : Fin 2) (res : Option ID3D12Resource)
    (r : OculusD3D12Resources) : (setResolve eye res r).outputTextures = r.outputTextures := by
  cases res <;> rfl

@[simp] theorem setResolve_usingArrayTex (eye : Fin 2) (res : Option ID3D12Resource)
    (r : OculusD3D12Resources) : (setResolve eye res r).usingArrayTex = r.usingArrayTex := by
  cases res <;> rfl

@[simp] theorem eyeResources_submittedTextures (rt : Runtime) (eye : Fin 2)
    (texs : List ID3D12Resource) (first : ID3D12Resource) (res : Option ID3D12Resource)
    (views : List ShaderResourceView) (otexs : List ID3D12Resource) (r : OculusD3D12Resources) :
    (eyeResources rt eye texs first res views otexs r).submittedTextures =
      r.submittedTextures.set eye (r.submittedTextures.get eye ++ texs) := by
  simp [eyeResources, pushOutputTextures, pushSubmittedViews, setDevice, pushSubmittedTextures,
    clearMultisampled]

@[simp] theorem eyeResources_outputTextures (rt : Runtime) (eye : Fin 2)
    (texs : List ID3D12Resource) (first : ID3D12Resource) (res : Option ID3D12Resource)
    (views : List ShaderResourceView) (otexs : List ID3D12Resource) (r : OculusD3D12Resources) :
    (eyeResources rt eye texs first res views otexs r).outputTextures =
      r.outputTextures.set eye (r.outputTextures.get eye ++ otexs) := by
  simp [eyeResources, pushOutputTextures, pushSubmittedViews, setDevice, pushSubmittedTextures,
    clearMultisampled]

@[simp] theorem eyeResources_usingArrayTex (rt : Runtime) (eye : Fin 2)
    (texs : List ID3D12Resource) (first : ID3D12Resource) (res : Option ID3D12Resource)
    (views : List ShaderResourceView) (otexs : List ID3D12Resource) (r : OculusD3D12Resources) :
    (eyeResources rt eye texs first res views otexs r).usingArrayTex = r.usingArrayTex := by
  simp [eyeResources, pushOutputTextures, pushSubmittedViews, setDevice, pushSubmittedTextures,
    clearMultisampled]

@[simp] theorem sharedResources_submittedTextures (a : Int) (r : OculusD3D12Resources) :
    (sharedResources a r).submittedTextures =
      r.submittedTextures.set 1 (r.submittedTextures.get 0) := by
  unfold sharedResources
  split <;> simp [shareViews, shareTextures, pushArrayOutputViews, pushSubmittedViews,
    setUsingArrayTex]

@[simp] theorem sharedResources_outputTextures (a : Int) (r : OculusD3D12Resources) :
    (sharedResources a r).outputTextures = r.outputTextures.set 1 (r.outputTextures.get 0) := by
  unfold sharedResources
  split <;> simp [shareViews, shareTextures, pushArrayOutputViews, pushSubmittedViews,
    setUsingArrayTex]

@[simp] theorem sharedResources_usingArrayTex (a : Int) (r : OculusD3D12Resources) :
    (sharedResources a r).usingArrayTex = if a = 1 then r.usingArrayTex else true := by
  unfold sharedResources
  split <;> simp [shareViews, shareTextures, pushArrayOutputViews, pushSubmittedViews,
    setUsingArrayTex]

/-- What a completed `InitD3D12` has built, when it started with no output chain
and a left submitted chain: for each eye, as many submitted textures as the
compositor reports for the chain that backs the eye and as many output textures
as it reports for the eye's output chain; and `usingArrayTex` set exactly when
the right eye shares the left chain and that chain's array size is not one. -/
theorem InitD3D12_built (rt : Runtime) (w w' : World)
    (hclean : w.self.outputEyeChains = ⟨none, none⟩)
    (hleft : w.self.submittedEyeChains.get 0 ≠ none)
    (h : InitD3D12 rt w = (Outcome.ok (), w')) :
    ∃ r, w'.self.d3d12Res = some r ∧ w'.self.session = w.self.session ∧
      w'.self.submittedEyeChains = w.self.submittedEyeChains ∧
      (∀ eye : Fin 2, ∃ ls lo : Int,
        rt.GetTextureSwapChainLength w.self.session (curSwapChain w.self eye) = some ls ∧
        rt.GetTextureSwapChainLength w.self.session (w'.self.outputEyeChains.get eye) = some lo ∧
        (r.submittedTextures.get eye).length = ls.toNat ∧
        (r.outputTextures.get eye).length = lo.toNat) ∧
      (if skipsEye w.self 1 then
        ∃ desc, rt.GetTextureSwapChainDesc w.self.session (w.self.submittedEyeChains.get 0)
            = some desc ∧
          r.usingArrayTex = decide (desc.ArraySize ≠ 1) ∧
          w'.self.outputEyeChains.get 1 = w'.self.outputEyeChains.get 0
      else r.usingArrayTex = false) := by
  obtain ⟨w1, w2, w3, pp, vrs, e0, e1, es, hw'⟩ := InitD3D12_ok h
  -- the left eye is never skipped
  have hns0 : ¬ skipsEye (initStart w).self 0 := by
    simp only [skipsEye, initStart, Fin.isValue, zero_ne_one, false_and, or_false]
    exact hleft
  rcases e0 with ⟨hs0, _⟩ | ⟨_, ⟨ls0, texs0, first0, desc0, res0, views0, chain0, lo0, otexs0,
    hls0, htl0, _, _, _, _, hlo0, hotl0, hw1⟩⟩
  · exact absurd hs0 hns0
  have hcur0 : curSwapChain w.self 0 = w.self.submittedEyeChains.get 0 := by
    simp [curSwapChain, hleft]
  rcases e1 with ⟨hs1, hw2⟩ | ⟨hs1, ⟨ls1, texs1, first1, desc1, res1, views1, chain1, lo1, otexs1,
    hls1, htl1, _, _, _, _, hlo1, hotl1, hw2⟩⟩
  · -- the right eye shares the left chain
    have hskip : skipsEye w.self 1 := by
      rw [hw1] at hs1; exact hs1
    have hout1 : (updRes (setUsingArrayTex false) w2).self.outputEyeChains.get 1 = none := by
      rw [hw2, hw1]
      simp [storeOutputChain, initStart, hclean, PerEye.get, PerEye.set]
    rcases es with ⟨_, desc, hdesc, hw3⟩ | ⟨hne, _⟩
    swap
    · exact absurd hout1 hne
    rw [hw2, hw1] at hdesc
    simp only [updRes_session, updRes_submittedEyeChains] at hdesc
    subst hw'
    subst hw3
    subst hw2
    subst hw1
    refine ⟨_, rfl, rfl, rfl, ?_, ?_⟩
    · intro eye
      refine ⟨ls0, lo0, ?_, ?_, ?_, ?_⟩
      · by_cases he : eye = 0
        · subst he; rw [hcur0]; exact hls0
        · have he1 : eye = 1 := by omega
          subst he1
          rcases hskip with hn | ⟨_, heq⟩
          · simp only [curSwapChain, hn, ne_eq, not_true_eq_false, ↓reduceIte]; exact hls0
          · simp only [curSwapChain]
            split
            · rw [heq]; exact hls0
            · exact hls0
      · by_cases he : eye = 0
        · subst he
          simpa [initFinish, shareOutputChain, storeOutputChain, initStart] using hlo0
        · have he1 : eye = 1 := by omega
          subst he1
          simpa [initFinish, shareOutputChain, storeOutputChain, initStart] using hlo0
      · by_cases he : eye = 0
        · subst he; simp [setComponents, setUsingArrayTex, clearMultisampled, initStart, htl0]
        · have he1 : eye = 1 := by omega
          subst he1
          simp [setComponents, setUsingArrayTex, clearMultisampled, initStart, htl0]
      · by_cases he : eye = 0
        · subst he; simp [setComponents, setUsingArrayTex, clearMultisampled, initStart, hotl0]
        · have he1 : eye = 1 := by omega
          subst he1
          simp [setComponents, setUsingArrayTex, clearMultisampled, initStart, hotl0]
    · rw [if_pos hskip]
      refine ⟨desc, hdesc, ?_, ?_⟩
      · simp [setComponents, setUsingArrayTex, clearMultisampled, initStart]
      · simp [initFinish, shareOutputChain, storeOutputChain, initStart]
  · -- the right eye has a chain of its own
    have hskip : ¬ skipsEye w.self 1 := by
      rw [hw1] at hs1; exact hs1
    have hR : w.self.submittedEyeChains.get 1 ≠ none := fun hn => hskip (Or.inl hn)
    have hout1 : (updRes (setUsingArrayTex false) w2).self.outputEyeChains.get 1 ≠ none := by
      rw [hw2]
      simp [storeOutputChain]
    rcases es with ⟨hn, _⟩ | ⟨_, hw3⟩
    · exact absurd hn hout1
    rw [hw1] at hls1 hlo1
    simp only [updRes_session, updRes_submittedEyeChains] at hls1 hlo1
    subst hw'
    subst hw3
    subst hw2
    subst hw1
    refine ⟨_, rfl, rfl, rfl, ?_, ?_⟩
    · intro eye
      by_cases he : eye = 0
      · subst he
        refine ⟨ls0, lo0, ?_, ?_, ?_, ?_⟩
        · rw [hcur0]; exact hls0
        · simpa [initFinish, storeOutputChain, initStart] using hlo0
        · simp [setComponents, setUsingArrayTex, initStart, htl0]
        · simp [setComponents, setUsingArrayTex, initStart, hotl0]
      · have he1 : eye = 1 := by omega
        subst he1
        refine ⟨ls1, lo1, ?_, ?_, ?_, ?_⟩
        · simp only [curSwapChain, ne_eq, hR, not_false_eq_true, ↓reduceIte]; exact hls1
        · simpa [initFinish, storeOutputChain, initStart] using hlo1
        · simp [setComponents, setUsingArrayTex, initStart, htl1]
        · simp [setComponents, setUsingArrayTex, initStart, hotl1]
    · rw [if_neg hskip]
      simp [setComponents, setUsingArrayTex, initStart]

/-- C3 fails as stated.  The compositor reports three images for the submitted
chains and two for the output chains it creates; `InitD3D12` completes, and the
left eye has three submitted textures and two output textures. -/
theorem InitD3D12_output_count_counterexample :
    (InitD3D12 shortOutputRuntime initWorld).1 = Outcome.ok () ∧
    (InitD3D12 shortOutputRuntime initWorld).2.self.initialized = true ∧
    ((InitD3D12 shortOutputRuntime initWorld).2.self.d3d12Res.map fun r =>
        ((r.submittedTextures.get 0).length, (r.outputTextures.get 0).length)) = some (3, 2) := by
  decide!

/-- C3, as the code behaves.  After `InitD3D12` completes, started with no output
chain and a left submitted chain, in every layout and for each eye: the number of
submitted textures recorded is the length the compositor reports for the
submitted chain that backs the eye, the number of output textures recorded is the
length it reports for the eye's output chain, and so the two numbers are equal
whenever these two reported lengths are. -/
theorem InitD3D12_counts_follow_reported_lengths (rt : Runtime) (w w' : World)
    (hclean : w.self.outputEyeChains = ⟨none, none⟩)
    (hleft : w.self.submittedEyeChains.get 0 ≠ none)
    (h : InitD3D12 rt w = (Outcome.ok (), w')) :
    ∃ r, w'.self.d3d12Res = some r ∧
      ∀ eye : Fin 2, ∃ submittedLength outputLength : Int,
        rt.GetTextureSwapChainLength w.self.session (curSwapChain w.self eye)
          = some submittedLength ∧
        rt.GetTextureSwapChainLength w.self.session (w'.self.outputEyeChains.get eye)
          = some outputLength ∧
        (r.submittedTextures.get eye).length = submittedLength.toNat ∧
        (r.outputTextures.get eye).length = outputLength.toNat ∧
        (outputLength = submittedLength →
          (r.outputTextures.get eye).length = (r.submittedTextures.get eye).length) := by
  obtain ⟨r, hr, _, _, hcount, _⟩ := InitD3D12_built rt w w' hclean hleft h
  refine ⟨r, hr, fun eye => ?_⟩
  obtain ⟨ls, lo, h1, h2, h3, h4⟩ := hcount eye
  exact ⟨ls, lo, h1, h2, h3, h4, fun he => by rw [h3, h4, he]⟩

/-- The statement above for the initialisation of the session started with
`demoLayer`. -/
theorem InitD3D12_counts_follow_reported_lengths_witness :
    ∃ r, initialisedWorld.self.d3d12Res = some r ∧
      ∀ eye : Fin 2, ∃ submittedLength outputLength : Int,
        availableRuntime.GetTextureSwapChainLength initWorld.self.session
          (curSwapChain initWorld.self eye) = some submittedLength ∧
        availableRuntime.GetTextureSwapChainLength initWorld.self.session
          (initialisedWorld.self.outputEyeChains.get eye) = some outputLength ∧
        (r.submittedTextures.get eye).length = submittedLength.toNat ∧
        (r.outputTextures.get eye).length = outputLength.toNat ∧
        (outputLength = submittedLength →
          (r.outputTextures.get eye).length = (r.submittedTextures.get eye).length) :=
  InitD3D12_counts_follow_reported_lengths availableRuntime initWorld initialisedWorld
    (by decide) (by decide) (by decide!)

/-- C6. Let `InitD3D12` complete (entered as `EnsureInit` enters it: no output
chain held, a left submitted chain) and let `PostProcessD3D12` later complete on
a world that holds
the manager as that initialisation left it.  Then the mode in the frame context
of every `Apply` call is `layoutMode` of the two submitted chains and of the array
size the compositor reported for the left chain at initialisation: `SINGLE`
exactly when the right chain is non-null and differs from the left one, otherwise
`ARRAY` when that array size is not one and `COMBINED` when it is one; in
particular both eyes of the frame get the same mode. -/
theorem PostProcessD3D12_mode_is_layout (rtInit rt : Runtime) (w0 w wf w' : World)
    (hclean : w0.self.outputEyeChains = ⟨none, none⟩)
    (hleft : w0.self.submittedEyeChains.get 0 ≠ none)
    (hinit : InitD3D12 rtInit w0 = (Outcome.ok (), w))
    (hself : wf.self = w.self)
    (hframe : PostProcessD3D12 rt wf = (Outcome.ok (), w')) :
    (∀ eye : Fin 2, ∃ inp res, Event.Apply inp res ∈ newEvents wf w' ∧ inp.eye = eye) ∧
    (∀ inp res inp2 res2, Event.Apply inp res ∈ newEvents wf w' →
      Event.Apply inp2 res2 ∈ newEvents wf w' → inp.mode = inp2.mode) ∧
    ∀ inp res, Event.Apply inp res ∈ newEvents wf w' →
      (inp.mode = TextureMode.SINGLE ↔
        (w0.self.submittedEyeChains.get 1 ≠ none ∧
          w0.self.submittedEyeChains.get 1 ≠ w0.self.submittedEyeChains.get 0)) ∧
      ((w0.self.submittedEyeChains.get 1 ≠ none ∧
          w0.self.submittedEyeChains.get 1 ≠ w0.self.submittedEyeChains.get 0) ∨
        ∃ desc, rtInit.GetTextureSwapChainDesc w0.self.session (w0.self.submittedEyeChains.get 0)
            = some desc ∧
          inp.mode = layoutMode (w0.self.submittedEyeChains.get 0)
            (w0.self.submittedEyeChains.get 1) desc.ArraySize ∧
          (inp.mode = TextureMode.ARRAY ↔ desc.ArraySize ≠ 1) ∧
          (inp.mode = TextureMode.COMBINED ↔ desc.ArraySize = 1)) := by
  obtain ⟨r, hr, _, hsub, _, hlayout⟩ := InitD3D12_built rtInit w0 w hclean hleft hinit
  obtain ⟨_, r', rep0, idx0, inp0, rep1, idx1, inp1, h0, h1, _, hev⟩ := PostProcessD3D12_ok hframe
  have hrr : r' = r := by
    have a := h0.res
    rw [hself, hr] at a
    exact (Option.some.inj a).symm
  subst hrr
  have hmode : ∀ inp res, Event.Apply inp res ∈ newEvents wf w' →
      inp.mode = textureMode w0.self.submittedEyeChains r'.usingArrayTex := by
    intro inp res hm
    rw [hev, mem_Apply_frameEvents] at hm
    rcases hm with ⟨rfl, _⟩ | ⟨rfl, _⟩
    · rw [h0.mode, hself, hsub]
    · rw [h1.mode, hself, hsub]
  refine ⟨fun eye => ?_, fun inp res inp2 res2 hm hm2 => by
    rw [hmode inp res hm, hmode inp2 res2 hm2], fun inp res hm => ?_⟩
  · rw [hev]
    by_cases he : eye = 0
    · exact ⟨inp0, _, mem_Apply_frameEvents.mpr (Or.inl ⟨rfl, rfl⟩), by rw [he, h0.eye_eq]⟩
    · have he1 : eye = 1 := by omega
      exact ⟨inp1, _, mem_Apply_frameEvents.mpr (Or.inr ⟨rfl, rfl⟩), by rw [he1, h1.eye_eq]⟩
  · rw [hmode inp res hm]
    by_cases hind : w0.self.submittedEyeChains.get 1 ≠ none ∧
        w0.self.submittedEyeChains.get 1 ≠ w0.self.submittedEyeChains.get 0
    · refine ⟨⟨fun _ => hind, fun _ => ?_⟩, Or.inl hind⟩
      simp only [textureMode]
      rw [if_neg]
      rintro (h | h)
      · exact hind.1 h
      · exact hind.2 h
    · have hskip : skipsEye w0.self 1 := by
        simp only [skipsEye, true_and]
        by_contra hc
        exact hind ⟨fun h => hc (Or.inl h), fun h => hc (Or.inr h)⟩
      rw [if_pos hskip] at hlayout
      obtain ⟨desc, hdesc, hu, _⟩ := hlayout
      have hcond : w0.self.submittedEyeChains.get 1 = none ∨
          w0.self.submittedEyeChains.get 1 = w0.self.submittedEyeChains.get 0 := by
        rcases hskip with h | ⟨_, h⟩
        · exact Or.inl h
        · exact Or.inr h
      have hm : textureMode w0.self.submittedEyeChains r'.usingArrayTex
          = layoutMode (w0.self.submittedEyeChains.get 0) (w0.self.submittedEyeChains.get 1)
            desc.ArraySize := by
        simp only [textureMode, layoutMode, if_pos hcond, if_neg hind, hu]
        by_cases ha : desc.ArraySize = 1 <;> simp [ha]
      refine ⟨⟨fun hS => ?_, fun hI => absurd hI hind⟩, Or.inr ⟨desc, hdesc, hm, ?_, ?_⟩⟩
      · rw [hm] at hS
        simp only [layoutMode, if_neg hind] at hS
        split at hS <;> cases hS
      · rw [hm]
        simp only [layoutMode, if_neg hind]
        by_cases ha : desc.ArraySize = 1 <;> simp [ha]
      · rw [hm]
        simp only [layoutMode, if_neg hind]
        by_cases ha : desc.ArraySize = 1 <;> simp [ha]

/-- The statement above for the initialisation of the session started with
`demoLayer` and a later frame of it. -/
theorem PostProcessD3D12_mode_is_layout_witness :
    (∀ eye : Fin 2, ∃ inp res, Event.Apply inp res ∈ newEvents frameStart frameEnd ∧
      inp.eye = eye) ∧
    (∀ inp res inp2 res2, Event.Apply inp res ∈ newEvents frameStart frameEnd →
      Event.Apply inp2 res2 ∈ newEvents frameStart frameEnd → inp.mode = inp2.mode) ∧
    ∀ inp res, Event.Apply inp res ∈ newEvents frameStart frameEnd →
      (inp.mode = TextureMode.SINGLE ↔
        (initWorld.self.submittedEyeChains.get 1 ≠ none ∧
          initWorld.self.submittedEyeChains.get 1 ≠ initWorld.self.submittedEyeChains.get 0)) ∧
      ((initWorld.self.submittedEyeChains.get 1 ≠ none ∧
          initWorld.self.submittedEyeChains.get 1 ≠ initWorld.self.submittedEyeChains.get 0) ∨
        ∃ desc, availableRuntime.GetTextureSwapChainDesc initWorld.self.session
            (initWorld.self.submittedEyeChains.get 0) = some desc ∧
          inp.mode = layoutMode (initWorld.self.submittedEyeChains.get 0)
            (initWorld.self.submittedEyeChains.get 1) desc.ArraySize ∧
          (inp.mode = TextureMode.ARRAY ↔ desc.ArraySize ≠ 1) ∧
          (inp.mode = TextureMode.COMBINED ↔ desc.ArraySize = 1)) :=
  PostProcessD3D12_mode_is_layout availableRuntime availableRuntime initWorld initialisedWorld
    frameStart frameEnd (by decide) (by decide) (by decide!) (by decide!) (by decide!)

/-- C1. For a submitted chain of length `n` (an `int`, at least one) and a
reported current index `i` with `0 <= i < n`, the index computed at line 288,
under the conversions between `int` and the 64-bit unsigned `size_t`, is
`(i - 1) mod n`: `i - 1` when `i > 0` and `n - 1` when `i = 0`; it is a valid
position in the submitted image list; and the frame context that
`PostProcessD3D12` hands to `Apply` takes its input texture and input view from
that position of the eye's lists. -/
theorem PostProcessD3D12_submitted_index (n : Nat) (i : Int)
    (hn : 1 ≤ n) (hmax : n ≤ 2147483647) (h0 : 0 ≤ i) (hi : i < n) :
    submittedIndex i n = some ((i - 1) % (n : Int)) ∧
      (0 < i → (i - 1) % (n : Int) = i - 1) ∧
      (i = 0 → (i - 1) % (n : Int) = (n : Int) - 1) ∧
      toSizeT ((i - 1) % (n : Int)) < n ∧
      ∀ (rt : Runtime) (m : OculusManager) (r : OculusD3D12Resources) (vp : ovrRecti)
        (flip : Bool) (eye : Fin 2) (index : Int) (inp : D3D12PostProcessInput),
        (r.submittedTextures.get eye).length = n →
        FrameInput rt m r vp flip eye i index inp →
        index = (i - 1) % (n : Int) ∧
        (r.submittedTextures.get eye)[toSizeT ((i - 1) % (n : Int))]? = some inp.inputTexture ∧
        (r.submittedViews.get eye)[toSizeT ((i - 1) % (n : Int))]? = some inp.inputView := by
  obtain ⟨h1, h2, h3, h4⟩ := submittedIndex_eq n i hn hmax h0 hi
  refine ⟨h1, h2, h3, h4, ?_⟩
  intro rt m r vp flip eye index inp hlen hin
  have hidx : index = (i - 1) % (n : Int) := by
    have := hin.index_eq
    rw [hlen, h1] at this
    exact (Option.some.inj this).symm
  subst hidx
  exact ⟨rfl, hin.inputTexture, hin.inputView⟩

/-- The statement above for a chain of three images and reported index zero: the
populated image is the last one. -/
theorem PostProcessD3D12_submitted_index_witness :
    submittedIndex 0 3 = some ((0 - 1) % ((3 : Nat) : Int)) ∧
      (0 < (0 : Int) → (0 - 1) % ((3 : Nat) : Int) = 0 - 1) ∧
      ((0 : Int) = 0 → (0 - 1) % ((3 : Nat) : Int) = ((3 : Nat) : Int) - 1) ∧
      toSizeT ((0 - 1) % ((3 : Nat) : Int)) < 3 ∧
      ∀ (rt : Runtime) (m : OculusManager) (r : OculusD3D12Resources) (vp : ovrRecti)
        (flip : Bool) (eye : Fin 2) (index : Int) (inp : D3D12PostProcessInput),
        (r.submittedTextures.get eye).length = 3 →
        FrameInput rt m r vp flip eye 0 index inp →
        index = (0 - 1) % ((3 : Nat) : Int) ∧
        (r.submittedTextures.get eye)[toSizeT ((0 - 1) % ((3 : Nat) : Int))]?
          = some inp.inputTexture ∧
        (r.submittedViews.get eye)[toSizeT ((0 - 1) % ((3 : Nat) : Int))]? = some inp.inputView :=
  PostProcessD3D12_submitted_index 3 0 (by decide) (by decide) (by decide) (by decide)

/-! ### The sampler-bind trampoline -/

theorem issue_nestedQuiet {call : Call → HookWorld → Option HookWorld} (hc : NestedQuiet call)
    (cs : List Call) (w w' : HookWorld) (hw : w.alreadyInsideHook = true)
    (h : issue call cs w = some w') :
    w'.alreadyInsideHook = true ∧
      ∃ t, w'.trace = w.trace ++ t ∧ ∀ e ∈ t, HookEvent.isPrePSSetSamplers e = false := by
  induction cs generalizing w with
  | nil =>
    simp only [issue, Option.some.injEq] at h
    subst h
    exact ⟨hw, [], by simp, by simp⟩
  | cons c rest ih =>
    simp only [issue] at h
    cases h1 : call c w with
    | none => simp [h1] at h
    | some w1 =>
      rw [h1] at h
      obtain ⟨hf1, t1, ht1, hq1⟩ := hc c w w1 hw h1
      obtain ⟨hf2, t2, ht2, hq2⟩ := ih w1 hf1 h
      refine ⟨hf2, t1 ++ t2, by rw [ht2, ht1, List.append_assoc], ?_⟩
      intro e he
      rcases List.mem_append.1 he with he | he
      · exact hq1 e he
      · exact hq2 e he

theorem PostOMSetRenderTargets_nestedQuiet {call : Call → HookWorld → Option HookWorld}
    (hc : NestedQuiet call) (objects : ListenerPtr → D3D12Listener) (n v d : Nat)
    (ls : List ListenerPtr) (w w' : HookWorld) (hw : w.alreadyInsideHook = true)
    (h : D3D12Injector.PostOMSetRenderTargets call objects n v d ls w = some w') :
    w'.alreadyInsideHook = true ∧
      ∃ t, w'.trace = w.trace ++ t ∧ ∀ e ∈ t, HookEvent.isPrePSSetSamplers e = false := by
  induction ls generalizing w with
  | nil =>
    simp only [D3D12Injector.PostOMSetRenderTargets, Option.some.injEq] at h
    subst h
    exact ⟨hw, [], by simp, by simp⟩
  | cons l rest ih =>
    simp only [D3D12Injector.PostOMSetRenderTargets] at h
    split at h
    · cases h
    · rename_i w1 h1
      obtain ⟨hf1, t1, ht1, hq1⟩ := issue_nestedQuiet hc _ _ w1 (by exact hw) h1
      obtain ⟨hf2, t2, ht2, hq2⟩ := ih w1 hf1 h
      refine ⟨hf2, HookEvent.PostOMSetRenderTargets l n v d :: (t1 ++ t2), ?_, ?_⟩
      · rw [ht2, ht1]; simp
      · intro e he
        rcases List.mem_cons.1 he with he | he
        · subst he; rfl
        · rcases List.mem_append.1 he with he | he
          · exact hq1 e he
          · exact hq2 e he

theorem ClearDepthStencilView_loop_nestedQuiet {call : Call → HookWorld → Option HookWorld}
    (hc : NestedQuiet call) (objects : ListenerPtr → D3D12Listener) (p f d s : Nat)
    (ls : List ListenerPtr) (w w' : HookWorld) (hw : w.alreadyInsideHook = true)
    (h : D3D12Injector.ClearDepthStencilView_loop call objects p f d s ls w = some w') :
    w'.alreadyInsideHook = true ∧
      ∃ t, w'.trace = w.trace ++ t ∧ ∀ e ∈ t, HookEvent.isPrePSSetSamplers e = false := by
  induction ls generalizing w with
  | nil =>
    simp only [D3D12Injector.ClearDepthStencilView_loop, Option.some.injEq] at h
    subst h
    exact ⟨hw, [], by simp, by simp⟩
  | cons l rest ih =>
    simp only [D3D12Injector.ClearDepthStencilView_loop] at h
    split at h
    · cases h
    · rename_i w1 h1
      obtain ⟨hf1, t1, ht1, hq1⟩ := issue_nestedQuiet hc _ _ w1 (by exact hw) h1
      obtain ⟨hf2, t2, ht2, hq2⟩ := ih w1 hf1 h
      refine ⟨hf2, HookEvent.ClearDepthStencilView l p f d s :: (t1 ++ t2), ?_, ?_⟩
      · rw [ht2, ht1]; simp
      · intro e he
        rcases List.mem_cons.1 he with he | he
        · subst he; rfl
        · rcases List.mem_append.1 he with he | he
          · exact hq1 e he
          · exact hq2 e he

/-- The trampolines preserve `NestedQuiet`: if the calls made from inside are
quiet under the flag, so is the call that enters a trampoline. -/
theorem trampoline_nestedQuiet {call : Call → HookWorld → Option HookWorld}
    (hc : NestedQuiet call) (self : Context) : NestedQuiet (trampoline call self) := by
  intro c w w' hw h
  have hq : ∀ e, e ∈ ([] : List HookEvent) → HookEvent.isPrePSSetSamplers e = false := by simp
  cases c with
  | PSSetSamplers a b c =>
    simp only [trampoline] at h
    rw [D3D12ContextHook_PSSetSamplers_nested call self a b c w hw, Option.some.injEq] at h
    subst h
    refine ⟨hw, [_], rfl, ?_⟩
    intro e he
    rw [List.mem_singleton] at he
    subst he; rfl
  | OMSetRenderTargets a b c =>
    simp only [trampoline, D3D12ContextHook_OMSetRenderTargets] at h
    cases hi : self.injector with
    | none =>
      simp only [hi, Option.some.injEq] at h
      subst h
      refine ⟨hw, [_], rfl, ?_⟩
      intro e he
      rw [List.mem_singleton] at he
      subst he; rfl
    | some inj =>
      simp only [hi] at h
      split at h
      · cases h
      · rename_i w2 h2
        rw [Option.some.injEq] at h
        subst h
        obtain ⟨hf, t, ht, hqt⟩ := PostOMSetRenderTargets_nestedQuiet hc _ _ _ _ _ _ w2 rfl h2
        refine ⟨hw, HookEvent.CallOriginal (Call.OMSetRenderTargets a b c) :: t, ?_, ?_⟩
        · simp only [HookGuard_exit, ht, CallOriginal, HookGuard_enter]; simp
        · intro e he
          rcases List.mem_cons.1 he with he | he
          · subst he; rfl
          · exact hqt e he
  | OMSetRenderTargetsAndUnorderedAccessViews a b c d1 e1 f g =>
    simp only [trampoline, D3D12ContextHook_OMSetRenderTargetsAndUnorderedAccessViews] at h
    cases hi : self.injector with
    | none =>
      simp only [hi, Option.some.injEq] at h
      subst h
      refine ⟨hw, [_], rfl, ?_⟩
      intro e he
      rw [List.mem_singleton] at he
      subst he; rfl
    | some inj =>
      simp only [hi] at h
      split at h
      · cases h
      · rename_i w2 h2
        rw [Option.some.injEq] at h
        subst h
        obtain ⟨hf, t, ht, hqt⟩ := PostOMSetRenderTargets_nestedQuiet hc _ _ _ _ _ _ w2 rfl h2
        refine ⟨hw, HookEvent.CallOriginal
          (Call.OMSetRenderTargetsAndUnorderedAccessViews a b c d1 e1 f g) :: t, ?_, ?_⟩
        · simp only [HookGuard_exit, ht, CallOriginal, HookGuard_enter]; simp
        · intro e he
          rcases List.mem_cons.1 he with he | he
          · subst he; rfl
          · exact hqt e he
  | ClearDepthStencilView a b c d1 =>
    simp only [trampoline, D3D12ContextHook_ClearDepthStencilView] at h
    cases hi : self.injector with
    | none =>
      simp only [hi, Option.some.injEq] at h
      subst h
      refine ⟨hw, [_], rfl, ?_⟩
      intro e he
      rw [List.mem_singleton] at he
      subst he; rfl
    | some inj =>
      simp only [hi, D3D12Injector.ClearDepthStencilView] at h
      split at h
      · cases h
      · rename_i w2 h2
        rw [Option.some.injEq] at h
        subst h
        split at h2
        · obtain ⟨hf, t, ht, hqt⟩ :=
            ClearDepthStencilView_loop_nestedQuiet hc _ _ _ _ _ _ _ w2 rfl h2
          refine ⟨hw, HookEvent.CallOriginal (Call.ClearDepthStencilView a b c d1) :: t, ?_, ?_⟩
          · simp only [HookGuard_exit, ht, CallOriginal, HookGuard_enter]; simp
          · intro e he
            rcases List.mem_cons.1 he with he | he
            · subst he; rfl
            · exact hqt e he
        · rw [Option.some.injEq] at h2
          subst h2
          refine ⟨hw, [_], rfl, ?_⟩
          intro e he
          rw [List.mem_singleton] at he
          subst he; rfl

/-- Every intercepted call made while the flag is set returns with the flag set
and notifies no listener of a sampler bind. -/
theorem hookedCall_nestedQuiet (self : Context) (depth : Nat) :
    NestedQuiet (hookedCall self depth) := by
  induction depth with
  | zero =>
    intro c w w' _ h
    simp [hookedCall] at h
  | succ k ih => exact trampoline_nestedQuiet ih self

theorem notifiedListeners_cons (handled : ListenerPtr → Bool) (l : ListenerPtr)
    (rest : List ListenerPtr) :
    notifiedListeners handled (l :: rest) =
      l :: (if handled l then [] else notifiedListeners handled rest) := by
  unfold notifiedListeners
  cases hl : handled l <;> simp [List.takeWhile, List.find?, hl]

/-- The dispatcher's pre-hook, run with the flag set: it returns handled exactly
when some registered listener does, and the listeners it has notified are, in
order, those up to and including the first that returned handled. -/
theorem PrePSSetSamplers_spec {call : Call → HookWorld → Option HookWorld}
    (hc : NestedQuiet call) (objects : ListenerPtr → D3D12Listener) (a b c : Nat)
    (ls : List ListenerPtr) (w w2 : HookWorld) (handled : Bool)
    (hw : w.alreadyInsideHook = true)
    (h : D3D12Injector.PrePSSetSamplers call objects a b c ls w = some (handled, w2)) :
    w2.alreadyInsideHook = true ∧
      handled = ls.any (returnsHandled objects a b c) ∧
      ∃ t, w2.trace = w.trace ++ t ∧
        t.filter HookEvent.isPrePSSetSamplers =
          prePSSetSamplersEvents a b c (notifiedListeners (returnsHandled objects a b c) ls) := by
  unfold prePSSetSamplersEvents
  induction ls generalizing w with
  | nil =>
    simp only [D3D12Injector.PrePSSetSamplers, Option.some.injEq, Prod.mk.injEq] at h
    obtain ⟨h1, h2⟩ := h
    subst h1; subst h2
    exact ⟨hw, rfl, [], by simp, by simp [notifiedListeners]⟩
  | cons l rest ih =>
    simp only [D3D12Injector.PrePSSetSamplers] at h
    split at h
    · cases h
    · rename_i w1 h1
      obtain ⟨hf1, t1, ht1, hq1⟩ := issue_nestedQuiet hc _ _ w1 (by exact hw) h1
      have hfil : t1.filter HookEvent.isPrePSSetSamplers = [] := by
        rw [List.filter_eq_nil_iff]
        intro e he
        simp [hq1 e he]
      rw [notifiedListeners_cons]
      by_cases hl : ((objects l).PrePSSetSamplers a b c).2 = true
      · rw [if_pos hl, Option.some.injEq, Prod.mk.injEq] at h
        obtain ⟨h2, h3⟩ := h
        subst h2; subst h3
        have hr : returnsHandled objects a b c l = true := hl
        refine ⟨hf1, by simp [hr], HookEvent.PrePSSetSamplers l a b c :: t1, ?_, ?_⟩
        · rw [ht1]; simp
        · simp [List.filter_cons, HookEvent.isPrePSSetSamplers, hfil, hr]
      · rw [if_neg hl] at h
        obtain ⟨hf2, hh, t2, ht2, hq2⟩ := ih w1 hf1 h
        have hr : returnsHandled objects a b c l = false := by
          simpa [returnsHandled] using hl
        refine ⟨hf2, by simp [hr, hh], HookEvent.PrePSSetSamplers l a b c :: (t1 ++ t2), ?_, ?_⟩
        · rw [ht2, ht1]; simp
        · simp [List.filter_cons, HookEvent.isPrePSSetSamplers, hfil, hr, hq2]

/-- When no registered listener issues a call from its pre-hook, the dispatcher's
pre-hook returns, and all it leaves is the notifications. -/
theorem PrePSSetSamplers_quiet (call : Call → HookWorld → Option HookWorld)
    (objects : ListenerPtr → D3D12Listener) (a b c : Nat) (ls : List ListenerPtr)
    (hq : ∀ l ∈ ls, ((objects l).PrePSSetSamplers a b c).1 = []) (w : HookWorld) :
    D3D12Injector.PrePSSetSamplers call objects a b c ls w =
      some (ls.any (returnsHandled objects a b c),
        w.record (prePSSetSamplersEvents a b c
          (notifiedListeners (returnsHandled objects a b c) ls))) := by
  unfold prePSSetSamplersEvents HookWorld.record
  induction ls generalizing w with
  | nil => simp [D3D12Injector.PrePSSetSamplers, notifiedListeners]
  | cons l rest ih =>
    simp only [D3D12Injector.PrePSSetSamplers, hq l (List.mem_cons_self _ _), issue,
      notifiedListeners_cons]
    by_cases hl : ((objects l).PrePSSetSamplers a b c).2 = true
    · have hr : returnsHandled objects a b c l = true := hl
      simp [hl, hr]
    · have hr : returnsHandled objects a b c l = false := by simpa [returnsHandled] using hl
      rw [if_neg hl, ih (fun l hl => hq l (List.mem_cons_of_mem _ hl))]
      simp [hr]

/-- C11. The sampler-bind trampoline, entered by a call on a hooked context.
With no dispatcher attached to the context, or nested inside another intercepted
call, it invokes the original implementation with the arguments it received and
notifies nobody.  With a dispatcher attached and not nested, it runs the
dispatcher's pre-hook and then invokes the original with the same arguments
exactly when the pre-hook did not return handled.  The pre-hook returns handled
exactly when some registered listener does, and the listeners it notifies are, in
registration order, those up to and including the first that returns handled: the
ones registered after it are not notified.  When no listener issues a call of
its own while notified, the trampoline returns and leaves exactly these
notifications, followed by the original call unless it was handled. -/
theorem PSSetSamplers_original_invoked_unless_handled (self : Context) (depth : Nat)
    (StartSlot NumSamplers ppSamplers : Nat) (w : HookWorld) :
    ((self.injector = none ∨ w.alreadyInsideHook = true) →
      hookedCall self (depth + 1) (Call.PSSetSamplers StartSlot NumSamplers ppSamplers) w =
        some (CallOriginal (Call.PSSetSamplers StartSlot NumSamplers ppSamplers) w)) ∧
    (∀ injector, self.injector = some injector → w.alreadyInsideHook = false →
      hookedCall self (depth + 1) (Call.PSSetSamplers StartSlot NumSamplers ppSamplers) w =
        (D3D12Injector.PrePSSetSamplers (hookedCall self depth) self.objects StartSlot NumSamplers
          ppSamplers injector.listeners { w with alreadyInsideHook := true }).map
          (fun p => afterPrePSSetSamplers StartSlot NumSamplers ppSamplers p.1 p.2) ∧
      (∀ handled w2,
        D3D12Injector.PrePSSetSamplers (hookedCall self depth) self.objects StartSlot NumSamplers
          ppSamplers injector.listeners { w with alreadyInsideHook := true } = some (handled, w2) →
        (handled = true ↔ ∃ l ∈ injector.listeners,
          returnsHandled self.objects StartSlot NumSamplers ppSamplers l = true) ∧
        ∃ t, w2.trace = w.trace ++ t ∧
          t.filter HookEvent.isPrePSSetSamplers =
            prePSSetSamplersEvents StartSlot NumSamplers ppSamplers
              (notifiedListeners (returnsHandled self.objects StartSlot NumSamplers ppSamplers)
                injector.listeners)) ∧
      ((∀ l ∈ injector.listeners,
          ((self.objects l).PrePSSetSamplers StartSlot NumSamplers ppSamplers).1 = []) →
        hookedCall self (depth + 1) (Call.PSSetSamplers StartSlot NumSamplers ppSamplers) w =
          some (afterPrePSSetSamplers StartSlot NumSamplers ppSamplers
            (injector.listeners.any (returnsHandled self.objects StartSlot NumSamplers ppSamplers))
            (w.record (prePSSetSamplersEvents StartSlot NumSamplers ppSamplers
              (notifiedListeners (returnsHandled self.objects StartSlot NumSamplers ppSamplers)
                injector.listeners)))))) := by
  have htramp : ∀ injector, self.injector = some injector → w.alreadyInsideHook = false →
      hookedCall self (depth + 1) (Call.PSSetSamplers StartSlot NumSamplers ppSamplers) w =
        (D3D12Injector.PrePSSetSamplers (hookedCall self depth) self.objects StartSlot NumSamplers
          ppSamplers injector.listeners { w with alreadyInsideHook := true }).map
          (fun p => afterPrePSSetSamplers StartSlot NumSamplers ppSamplers p.1 p.2) := by
    intro injector hi hw
    simp only [hookedCall, trampoline, D3D12ContextHook_PSSetSamplers, hi, HookGuard_enter, hw]
    cases hp : D3D12Injector.PrePSSetSamplers (hookedCall self depth) self.objects StartSlot
        NumSamplers ppSamplers injector.listeners
        { alreadyInsideHook := true, trace := w.trace } with
    | none => simp
    | some p =>
      rcases p with ⟨handled, w2⟩
      cases handled <;>
        simp [afterPrePSSetSamplers, HookGuard_exit, CallOriginal]
  refine ⟨?_, fun injector hi hw => ⟨htramp injector hi hw, ?_, ?_⟩⟩
  · rintro (hn | hw)
    · simp only [hookedCall, trampoline, D3D12ContextHook_PSSetSamplers, hn, HookGuard_enter,
        HookGuard_exit, CallOriginal]
    · exact D3D12ContextHook_PSSetSamplers_nested _ self _ _ _ w hw
  · intro handled w2 hp
    obtain ⟨_, hh, t, ht, hf⟩ :=
      PrePSSetSamplers_spec (hookedCall_nestedQuiet self depth) self.objects StartSlot NumSamplers
        ppSamplers injector.listeners _ w2 handled rfl hp
    refine ⟨?_, t, ht, hf⟩
    rw [hh, List.any_eq_true]
  · intro hq
    rw [htramp injector hi hw, PrePSSetSamplers_quiet _ _ _ _ _ _ hq]
    rfl

/-- The statement above on `threeListenerContext`: nested, the call is forwarded
and nobody is notified; not nested, listeners `1` and `2` are notified, `2`
handles, listener `3` is not notified and the original is not invoked. -/
theorem PSSetSamplers_original_invoked_unless_handled_witness :
    hookedCall threeListenerContext 1 (Call.PSSetSamplers 0 1 0) { alreadyInsideHook := true } =
      some { alreadyInsideHook := true,
             trace := [HookEvent.CallOriginal (Call.PSSetSamplers 0 1 0)] } ∧
    hookedCall threeListenerContext 1 (Call.PSSetSamplers 0 1 0) {} =
      some { alreadyInsideHook := false,
             trace := [HookEvent.PrePSSetSamplers 1 0 1 0, HookEvent.PrePSSetSamplers 2 0 1 0] } ∧
    ((true = true ↔ ∃ l ∈ [1, 2, 3], returnsHandled threeListenerContext.objects 0 1 0 l = true) ∧
      ∃ t, [HookEvent.PrePSSetSamplers 1 0 1 0, HookEvent.PrePSSetSamplers 2 0 1 0] = [] ++ t ∧
        t.filter HookEvent.isPrePSSetSamplers =
          prePSSetSamplersEvents 0 1 0
            (notifiedListeners (returnsHandled threeListenerContext.objects 0 1 0) [1, 2, 3])) :=
  ⟨(PSSetSamplers_original_invoked_unless_handled threeListenerContext 0 0 1 0
      { alreadyInsideHook := true }).1 (Or.inr rfl),
    ((PSSetSamplers_original_invoked_unless_handled threeListenerContext 0 0 1 0 {}).2
      { listeners := [1, 2, 3] } rfl rfl).2.2 (by decide),
    ((PSSetSamplers_original_invoked_unless_handled threeListenerContext 0 0 1 0 {}).2
      { listeners := [1, 2, 3] } rfl rfl).2.1 true
      { alreadyInsideHook := true,
        trace := [HookEvent.PrePSSetSamplers 1 0 1 0, HookEvent.PrePSSetSamplers 2 0 1 0] }
      (by decide)⟩

/-! ### Registration of listeners -/

theorem registeredSince_nil (l : ListenerPtr) : registeredSince [] l = none := rfl

theorem registeredSince_add (calls : List ListenerCall) (l' l : ListenerPtr) :
    registeredSince (calls ++ [ListenerCall.AddListener l']) l =
      if l' = l then
        match registeredSince calls l with
        | some t => some t
        | none => some calls.length
      else registeredSince calls l := by
  simp [registeredSince, registeredSinceRev]

theorem registeredSince_remove (calls : List ListenerCall) (l' l : ListenerPtr) :
    registeredSince (calls ++ [ListenerCall.RemoveListener l']) l =
      if l' = l then none else registeredSince calls l := by
  simp [registeredSince, registeredSinceRev]

theorem D3D12Injector_calls_append (inj : D3D12Injector) (calls : List ListenerCall)
    (c : ListenerCall) : inj.calls (calls ++ [c]) = (inj.calls calls).call c := by
  simp [D3D12Injector.calls, List.foldl_append]

/-- The listener vector after any sequence of registration calls on a new
dispatcher: no listener occurs twice, the listeners in it are those registered,
each has been registered since a call already made, and they stand in the order
in which they were registered. -/
theorem D3D12Injector_calls_listeners (calls : List ListenerCall) :
    (D3D12Injector.calls { listeners := [] } calls).listeners.Nodup ∧
    (∀ l, l ∈ (D3D12Injector.calls { listeners := [] } calls).listeners ↔
      registeredSince calls l ≠ none) ∧
    (∀ l t, registeredSince calls l = some t → t < calls.length) ∧
    (D3D12Injector.calls { listeners := [] } calls).listeners.Pairwise
      (registeredBefore calls) := by
  induction calls using List.reverseRecOn with
  | nil =>
    refine ⟨List.nodup_nil, fun l => ?_, fun l t h => ?_, List.Pairwise.nil⟩
    · simp [D3D12Injector.calls, registeredSince_nil]
    · simp [registeredSince_nil] at h
  | append_singleton cs c ih =>
    obtain ⟨hnd, hmem, hlt, hord⟩ := ih
    rw [D3D12Injector_calls_append]
    generalize D3D12Injector.calls { listeners := [] } cs = inj at hnd hmem hord
    cases c with
    | AddListener l' =>
      by_cases hin : l' ∈ inj.listeners
      · -- already registered: nothing changes
        have hcall : inj.call (ListenerCall.AddListener l') = inj := by
          simp [D3D12Injector.call, D3D12Injector.AddListener, hin]
        have hsome : registeredSince cs l' ≠ none := (hmem l').1 hin
        have hsame : ∀ l, registeredSince (cs ++ [ListenerCall.AddListener l']) l =
            registeredSince cs l := by
          intro l
          rw [registeredSince_add]
          split
          · rename_i h; subst h
            cases hs : registeredSince cs l' with
            | none => exact absurd hs hsome
            | some t => rfl
          · rfl
        rw [hcall]
        refine ⟨hnd, fun l => by rw [hsame]; exact hmem l, fun l t h => ?_, ?_⟩
        · rw [hsame] at h
          have := hlt l t h
          simp only [List.length_append, List.length_singleton]; omega
        · refine hord.imp ?_
          rintro a b ⟨ta, tb, ha, hb, hab⟩
          exact ⟨ta, tb, by rw [hsame]; exact ha, by rw [hsame]; exact hb, hab⟩
      · -- newly registered: appended at the end
        have hcall : (inj.call (ListenerCall.AddListener l')).listeners = inj.listeners ++ [l'] := by
          simp [D3D12Injector.call, D3D12Injector.AddListener, hin]
        have hnone : registeredSince cs l' = none := by
          by_contra h
          exact hin ((hmem l').2 h)
        have hnew : registeredSince (cs ++ [ListenerCall.AddListener l']) l' = some cs.length := by
          rw [registeredSince_add, if_pos rfl, hnone]
        have hold : ∀ l, l ≠ l' → registeredSince (cs ++ [ListenerCall.AddListener l']) l =
            registeredSince cs l := by
          intro l hl
          rw [registeredSince_add, if_neg (Ne.symm hl)]
        rw [hcall]
        refine ⟨?_, fun l => ?_, fun l t h => ?_, ?_⟩
        · rw [List.nodup_append]
          refine ⟨hnd, List.nodup_singleton _, ?_⟩
          intro a ha hb
          rw [List.mem_singleton] at hb
          subst hb
          exact hin ha
        · by_cases hl : l = l'
          · subst hl; simp [hnew]
          · rw [hold l hl, ← hmem l]
            simp [hl]
        · simp only [List.length_append, List.length_singleton]
          by_cases hl : l = l'
          · subst hl
            rw [hnew] at h
            cases h; omega
          · rw [hold l hl] at h
            have := hlt l t h
            omega
        · rw [List.pairwise_append]
          refine ⟨?_, List.pairwise_singleton _ _, ?_⟩
          · refine hord.imp_of_mem ?_
            intro a b ha hb ⟨ta, tb, hta, htb, hab⟩
            have ha' : a ≠ l' := fun h => hin (h ▸ ha)
            have hb' : b ≠ l' := fun h => hin (h ▸ hb)
            exact ⟨ta, tb, by rw [hold a ha']; exact hta, by rw [hold b hb']; exact htb, hab⟩
          · intro a ha b hb
            rw [List.mem_singleton] at hb
            subst hb
            have ha' : a ≠ b := fun h => hin (h ▸ ha)
            cases hs : registeredSince cs a with
            | none => exact absurd hs ((hmem a).1 ha)
            | some ta =>
              exact ⟨ta, cs.length, by rw [hold a ha']; exact hs, hnew, hlt a ta hs⟩
    | RemoveListener l' =>
      have hcall : (inj.call (ListenerCall.RemoveListener l')).listeners =
          inj.listeners.erase l' := rfl
      have hgone : registeredSince (cs ++ [ListenerCall.RemoveListener l']) l' = none := by
        rw [registeredSince_remove, if_pos rfl]
      have hold : ∀ l, l ≠ l' → registeredSince (cs ++ [ListenerCall.RemoveListener l']) l =
          registeredSince cs l := by
        intro l hl
        rw [registeredSince_remove, if_neg (Ne.symm hl)]
      rw [hcall]
      refine ⟨hnd.erase _, fun l => ?_, fun l t h => ?_, ?_⟩
      · rw [hnd.mem_erase_iff]
        by_cases hl : l = l'
        · subst hl; simp [hgone]
        · rw [hold l hl, ← hmem l]
          simp [hl]
      · simp only [List.length_append, List.length_singleton]
        by_cases hl : l = l'
        · subst hl
          rw [hgone] at h
          cases h
        · rw [hold l hl] at h
          have := hlt l t h
          omega
      · have hsub : (inj.listeners.erase l').Pairwise (registeredBefore cs) :=
          hord.sublist (List.erase_sublist _ _)
        refine hsub.imp_of_mem ?_
        intro a b ha hb ⟨ta, tb, hta, htb, hab⟩
        have ha' : a ≠ l' := ((hnd.mem_erase_iff).1 ha).1
        have hb' : b ≠ l' := ((hnd.mem_erase_iff).1 hb).1
        exact ⟨ta, tb, by rw [hold a ha']; exact hta, by rw [hold b hb']; exact htb, hab⟩

/-- When no listener issues a call while notified, the dispatcher's target-bind
notification returns, having notified every listener once, in vector order. -/
theorem PostOMSetRenderTargets_quiet (call : Call → HookWorld → Option HookWorld)
    (objects : ListenerPtr → D3D12Listener) (n v d : Nat) (ls : List ListenerPtr)
    (hq : ∀ l ∈ ls, (objects l).PostOMSetRenderTargets n v d = []) (w : HookWorld) :
    D3D12Injector.PostOMSetRenderTargets call objects n v d ls w =
      some (w.record (postOMSetRenderTargetsEvents n v d ls)) := by
  unfold postOMSetRenderTargetsEvents HookWorld.record
  induction ls generalizing w with
  | nil => simp [D3D12Injector.PostOMSetRenderTargets]
  | cons l rest ih =>
    simp only [D3D12Injector.PostOMSetRenderTargets, hq l (List.mem_cons_self _ _), issue]
    rw [ih (fun l hl => hq l (List.mem_cons_of_mem _ hl))]
    simp

/-- C12. After any sequence of `AddListener` and `RemoveListener` calls on a new
dispatcher: the listener vector holds exactly the listeners currently registered
(added and not removed since), none of them twice, in the order in which they
were registered; a target-bind notification (`PostOMSetRenderTargets`, with
listeners that issue no call of their own while notified) returns and has
notified each of them exactly once, in that order, and nobody else; adding a
listener that is registered and removing one that is not leave the dispatcher as
it was. -/
theorem PostOMSetRenderTargets_notifies_registered_in_order (calls : List ListenerCall) :
    (∀ l, l ∈ (D3D12Injector.calls { listeners := [] } calls).listeners ↔
      registeredSince calls l ≠ none) ∧
    (D3D12Injector.calls { listeners := [] } calls).listeners.Pairwise
      (registeredBefore calls) ∧
    (∀ (call : Call → HookWorld → Option HookWorld) (objects : ListenerPtr → D3D12Listener)
        (n v d : Nat) (w : HookWorld),
      (∀ l ∈ (D3D12Injector.calls { listeners := [] } calls).listeners,
        (objects l).PostOMSetRenderTargets n v d = []) →
      D3D12Injector.PostOMSetRenderTargets call objects n v d
          (D3D12Injector.calls { listeners := [] } calls).listeners w =
        some (w.record (postOMSetRenderTargetsEvents n v d
          (D3D12Injector.calls { listeners := [] } calls).listeners))) ∧
    (∀ l n v d,
      (postOMSetRenderTargetsEvents n v d
          (D3D12Injector.calls { listeners := [] } calls).listeners).count
        (HookEvent.PostOMSetRenderTargets l n v d) =
          if registeredSince calls l = none then 0 else 1) ∧
    (∀ l, registeredSince calls l ≠ none →
      (D3D12Injector.calls { listeners := [] } calls).AddListener l =
        D3D12Injector.calls { listeners := [] } calls) ∧
    (∀ l, registeredSince calls l = none →
      (D3D12Injector.calls { listeners := [] } calls).RemoveListener l =
        D3D12Injector.calls { listeners := [] } calls) := by
  obtain ⟨hnd, hmem, _, hord⟩ := D3D12Injector_calls_listeners calls
  refine ⟨hmem, hord, fun call objects n v d w hq => ?_, fun l n v d => ?_, fun l hl => ?_,
    fun l hl => ?_⟩
  · exact PostOMSetRenderTargets_quiet call objects n v d _ hq w
  · have hinj : Function.Injective fun l => HookEvent.PostOMSetRenderTargets l n v d := by
      intro a b h
      simpa using h
    unfold postOMSetRenderTargetsEvents
    rw [List.count_map_of_injective _ _ hinj]
    by_cases hl : registeredSince calls l = none
    · rw [if_pos hl]
      exact List.count_eq_zero_of_not_mem (fun h => (hmem l).1 h hl)
    · rw [if_neg hl]
      exact List.count_eq_one_of_mem hnd ((hmem l).2 hl)
  · have hin := (hmem l).2 hl
    simp [D3D12Injector.AddListener, hin]
  · have hin : l ∉ (D3D12Injector.calls { listeners := [] } calls).listeners :=
      fun h => (hmem l).1 h hl
    simp only [D3D12Injector.RemoveListener, List.erase_of_not_mem hin]

/-- The statement above for the calls add 1, add 2, add 1, remove 1, add 3,
add 1, remove 7: the listeners registered are 2, 3 and 1, in this order. -/
theorem PostOMSetRenderTargets_notifies_registered_in_order_witness :
    D3D12Injector.PostOMSetRenderTargets (fun _ _ => none) (fun _ => {}) 2 0 0
        (D3D12Injector.calls { listeners := [] }
          [ListenerCall.AddListener 1, ListenerCall.AddListener 2, ListenerCall.AddListener 1,
            ListenerCall.RemoveListener 1, ListenerCall.AddListener 3,
            ListenerCall.AddListener 1, ListenerCall.RemoveListener 7]).listeners {} =
      some { alreadyInsideHook := false,
             trace := [HookEvent.PostOMSetRenderTargets 2 2 0 0,
                       HookEvent.PostOMSetRenderTargets 3 2 0 0,
                       HookEvent.PostOMSetRenderTargets 1 2 0 0] } ∧
    (D3D12Injector.calls { listeners := [] }
        [ListenerCall.AddListener 1, ListenerCall.AddListener 2, ListenerCall.AddListener 1,
          ListenerCall.RemoveListener 1, ListenerCall.AddListener 3,
          ListenerCall.AddListener 1, ListenerCall.RemoveListener 7]).AddListener 3 =
      { listeners := [2, 3, 1] } ∧
    (D3D12Injector.calls { listeners := [] }
        [ListenerCall.AddListener 1, ListenerCall.AddListener 2, ListenerCall.AddListener 1,
          ListenerCall.RemoveListener 1, ListenerCall.AddListener 3,
          ListenerCall.AddListener 1, ListenerCall.RemoveListener 7]).RemoveListener 7 =
      { listeners := [2, 3, 1] } :=
  ⟨(PostOMSetRenderTargets_notifies_registered_in_order _).2.2.1 _ _ 2 0 0 {}
      (fun _ _ => rfl),
    (PostOMSetRenderTargets_notifies_registered_in_order _).2.2.2.2.1 3 (by decide),
    (PostOMSetRenderTargets_notifies_registered_in_order _).2.2.2.2.2 7 (by decide)⟩

/-! ### Installation and removal of the hooks -/

/-- C13 fails as stated.  With upscaling enabled the constructor installs the
sampler-bind, render-target-bind and combined-bind hooks in this order, and the
destructor removes them in this same order, which is not the reverse. -/
theorem D3D12Injector_dtor_reverse_counterexample :
    installedHooks (D3D12Injector_ctor upscalingConfig) =
      [Trampoline.D3D12ContextHook_PSSetSamplers, Trampoline.D3D12ContextHook_OMSetRenderTargets,
        Trampoline.D3D12ContextHook_OMSetRenderTargetsAndUnorderedAccessViews] ∧
    removedHooks (D3D12Injector_dtor upscalingConfig) =
      [Trampoline.D3D12ContextHook_PSSetSamplers, Trampoline.D3D12ContextHook_OMSetRenderTargets,
        Trampoline.D3D12ContextHook_OMSetRenderTargetsAndUnorderedAccessViews] ∧
    removedHooks (D3D12Injector_dtor upscalingConfig) ≠
      (installedHooks (D3D12Injector_ctor upscalingConfig)).reverse := by
  decide

/-- C13, as the code behaves.  For every configuration, the hooks the destructor
removes are exactly the hooks the constructor installed under that
configuration, each once, and they are removed in the order in which they were
installed. -/
theorem D3D12Injector_dtor_removes_installed_in_order (g_config : Config) :
    removedHooks (D3D12Injector_dtor g_config) = installedHooks (D3D12Injector_ctor g_config) ∧
    (installedHooks (D3D12Injector_ctor g_config)).Nodup ∧
    (∀ hook, hook ∈ removedHooks (D3D12Injector_dtor g_config) ↔
      hook ∈ installedHooks (D3D12Injector_ctor g_config)) := by
  have h : removedHooks (D3D12Injector_dtor g_config) =
      installedHooks (D3D12Injector_ctor g_config) := by
    unfold D3D12Injector_dtor D3D12Injector_ctor removedHooks installedHooks
    cases g_config.upscalingOrVRS <;> cases g_config.hiddenMaskOrRDM <;> rfl
  refine ⟨h, ?_, fun hook => by rw [h]⟩
  unfold D3D12Injector_ctor installedHooks
  cases g_config.upscalingOrVRS <;> cases g_config.hiddenMaskOrRDM <;> decide

/-! ### The shading-rate controller in one frame -/

/-- C14 fails as stated.  In the frame after the first frame of a session with
`demoLayer`, `PostProcessD3D12` completes and calls `UpdateTargetInformation`
twice, not once. -/
theorem PostProcessD3D12_update_count_counterexample :
    (PostProcessD3D12 availableRuntime frameStart).1 = Outcome.ok () ∧
    ((newEvents frameStart frameEnd).filter Event.isUpdateTargetInformation).length = 2 ∧
    (newEvents frameStart frameEnd).count Event.EndFrame = 1 := by
  decide!

/-- C14, as the code behaves.  In a completed `PostProcessD3D12` the outside
calls split at the single `EndFrame` call.  Before it come, among others, the
`Apply` call of the left eye, the `UpdateTargetInformation` call with the
dimensions and mode of the left eye's input, the `Apply` call of the right eye
and the `UpdateTargetInformation` call for the right eye's input, in this order,
and neither an `EndFrame` nor a commit.  After it come commits only.  So
`UpdateTargetInformation` is called once per eye, twice in the frame, and
`EndFrame` once, after both `Apply` calls and before every commit. -/
theorem PostProcessD3D12_updates_target_per_eye (rt : Runtime) (w w' : World)
    (h : PostProcessD3D12 rt w = (Outcome.ok (), w')) :
    ∃ inp0 inp1 before after,
      inp0.eye = 0 ∧ inp1.eye = 1 ∧
      newEvents w w' = before ++ [Event.EndFrame] ++ after ∧
      before.filter (fun e => e.isApply || e.isUpdateTargetInformation) =
        [Event.Apply inp0 (rt.Apply inp0),
          updateTargetInformationEvent rt (isFlippedY w.eyeLayer) inp0,
          Event.Apply inp1 (rt.Apply inp1),
          updateTargetInformationEvent rt (isFlippedY w.eyeLayer) inp1] ∧
      (∀ e ∈ before, e ≠ Event.EndFrame ∧ e.isCommit = false) ∧
      (∀ e ∈ after, e.isCommit = true) ∧
      ((newEvents w w').filter Event.isUpdateTargetInformation).length = 2 ∧
      (newEvents w w').count Event.EndFrame = 1 := by
  obtain ⟨_, r, rep0, idx0, inp0, rep1, idx1, inp1, h0, h1, _, hev⟩ := PostProcessD3D12_ok h
  refine ⟨inp0, inp1,
    [Event.SetProjCenters] ++ eyeEvents rt w.self r (isFlippedY w.eyeLayer) 0 inp0 ++
      eyeEvents rt w.self r (isFlippedY w.eyeLayer) 1 inp1,
    commitEvents w.self ((rt.Apply inp0).isSome || (rt.Apply inp1).isSome),
    h0.eye_eq, h1.eye_eq, ?_, ?_, ?_, ?_, ?_, ?_⟩
  · rw [hev]; rfl
  · simp only [eyeEvents, resolveEvents, updateTargetInformationEvent]
    split_ifs <;> simp [List.filter_cons, Event.isApply, Event.isUpdateTargetInformation]
  · intro e he
    simp only [eyeEvents, resolveEvents] at he
    split_ifs at he <;> simp at he <;> (try casesm* _ ∨ _) <;> subst_vars <;> simp [Event.isCommit]
  · intro e he
    simp only [commitEvents] at he
    split_ifs at he <;> simp at he <;> (try casesm* _ ∨ _) <;> subst_vars <;> rfl
  · rw [hev]
    simp only [frameEvents, eyeEvents, resolveEvents, commitEvents]
    split_ifs <;> simp [List.filter_cons, Event.isUpdateTargetInformation]
  · rw [hev]
    simp only [frameEvents, eyeEvents, resolveEvents, commitEvents]
    split_ifs <;> simp [List.count_cons]

/-- The statement above for the frame after the first frame of a session with
`demoLayer`. -/
theorem PostProcessD3D12_updates_target_per_eye_witness :
    ∃ inp0 inp1 before after,
      inp0.eye = 0 ∧ inp1.eye = 1 ∧
      newEvents frameStart frameEnd = before ++ [Event.EndFrame] ++ after ∧
      before.filter (fun e => e.isApply || e.isUpdateTargetInformation) =
        [Event.Apply inp0 (availableRuntime.Apply inp0),
          updateTargetInformationEvent availableRuntime (isFlippedY frameStart.eyeLayer) inp0,
          Event.Apply inp1 (availableRuntime.Apply inp1),
          updateTargetInformationEvent availableRuntime (isFlippedY frameStart.eyeLayer) inp1] ∧
      (∀ e ∈ before, e ≠ Event.EndFrame ∧ e.isCommit = false) ∧
      (∀ e ∈ after, e.isCommit = true) ∧
      ((newEvents frameStart frameEnd).filter Event.isUpdateTargetInformation).length = 2 ∧
      (newEvents frameStart frameEnd).count Event.EndFrame = 1 :=
  PostProcessD3D12_updates_target_per_eye availableRuntime frameStart frameEnd (by decide!)

/-! ### A shared multi-sampled array chain -/

/-- C15 fails on the code for the right eye of a shared chain.  A session whose
only chain is a two-slice array texture with four samples: the first frame is
initialised and post-processed without error, the layout is the array layout, and
the left eye is marked multi-sampled while the right eye, backed by the same
multi-sampled chain, is not.  The frame makes a single `ResolveSubresource` call,
of array slice 0 (subresource 0), before the `Apply` of the left eye; none is
made between the two `Apply` calls, so slice 1 is not resolved before the
`Apply` of the right eye. -/
theorem shared_right_eye_is_not_resolved :
    arrayFrame.1 = Outcome.ok () ∧
    arrayFrame.2.self.initialized = true ∧
    (arrayMultisampledRuntime.GetTextureSwapChainDesc (some 1) (some 10)).map
      (fun d => (d.SampleCount, d.ArraySize)) = some (4, 2) ∧
    (arrayFrame.2.self.d3d12Res.map fun r => (r.usingArrayTex, r.multisampled)) =
      some (true, ⟨true, false⟩) ∧
    arrayFrame.2.events.filter Event.isResolve =
      [Event.ResolveSubresource (some 99) 0 1000 0 28] ∧
    (arrayFrame.2.events.filter fun e => e.isResolve || e.isApply).map Event.isApply =
      [false, true, true] := by
  decide!

/-! ### Output formats -/

/-- C17 fails on the code in the array layout with a multi-sampled chain.  In the
session of `arrayFrame`, after initialisation the right eye's output textures are
those of the output chain (`2000`, `2001`, `2002`), but its output views and UAVs
are all views of slice 1 of the resolve texture `99`; and the `Apply` call of the
right eye is passed output texture `2001` with an output view and an output UAV
over texture `99`.  The left eye's views and UAVs are over its output textures. -/
theorem array_output_views_address_resolve_texture :
    arrayFrame.1 = Outcome.ok () ∧
    arrayFrame.2.self.d3d12Res.map (fun r => r.resolveTexture.get 1) = some (some 99) ∧
    arrayFrame.2.self.d3d12Res.map (fun r => r.outputTextures.get 1) =
      some [2000, 2001, 2002] ∧
    arrayFrame.2.self.d3d12Res.map (fun r => r.outputViews.get 1) =
      some [⟨some 99, 1⟩, ⟨some 99, 1⟩, ⟨some 99, 1⟩] ∧
    arrayFrame.2.self.d3d12Res.map (fun r => r.outputUavs.get 1) =
      some [⟨some 99, 1⟩, ⟨some 99, 1⟩, ⟨some 99, 1⟩] ∧
    arrayFrame.2.self.d3d12Res.map (fun r => r.outputTextures.get 0) =
      some [2000, 2001, 2002] ∧
    arrayFrame.2.self.d3d12Res.map (fun r => r.outputViews.get 0) =
      some [⟨some 2000, 0⟩, ⟨some 2001, 0⟩, ⟨some 2002, 0⟩] ∧
    arrayFrame.2.self.d3d12Res.map (fun r => r.outputUavs.get 0) =
      some [⟨some 2000, 0⟩, ⟨some 2001, 0⟩, ⟨some 2002, 0⟩] ∧
    (arrayFrame.2.events.filterMap Event.applyInput).map (fun i => i.eye) = [0, 1] ∧
    (arrayFrame.2.events.filterMap Event.applyInput).map (fun i => i.outputTexture) =
      [2001, 2001] ∧
    (arrayFrame.2.events.filterMap Event.applyInput).map (fun i => i.outputView) =
      [⟨some 2001, 0⟩, ⟨some 99, 1⟩] ∧
    (arrayFrame.2.events.filterMap Event.applyInput).map (fun i => i.outputUav) =
      [⟨some 2001, 0⟩, ⟨some 99, 1⟩] := by
  refine ⟨by decide!, by decide!, by decide!, by decide!, by decide!, by decide!, by decide!,
    by decide!, by decide!, by decide!, by decide!, by decide!⟩

/-! ### The states the manager reaches -/

/-- However it ends, `InitD3D12` writes nothing but the backend tag, the resource
record, the output chains, the record of outside calls and `initialized`. -/
theorem keeps_InitD3D12 {γ : Type} {p : World → γ} (rt : Runtime)
    (hres : ∀ w r, p { w with self := { w.self with d3d12Res := r } } = p w)
    (hout : ∀ w c, p { w with self := { w.self with outputEyeChains := c } } = p w)
    (hev : ∀ w e, p { w with events := e } = p w)
    (hapi : ∀ w g, p { w with self := { w.self with graphicsApi := g } } = p w)
    (hinit : ∀ w b, p { w with self := { w.self with initialized := b } } = p w) :
    Keeps p (InitD3D12 rt) := by
  have hres' : ∀ w r, p { w with self := { w.self with d3d12Res := some r } } = p w :=
    fun w r => hres w (some r)
  unfold vrperfkit.InitD3D12
  repeat' first
    | exact keeps_InitD3D12_eye _ _ hres' hout hev
    | exact keeps_InitD3D12_shared _ hres' hout
    | exact keeps_InitD3D12_components _ hres'
    | exact keeps_pure _ _
    | exact keeps_getSelf _
    | exact keeps_modifyRes _ (fun _ _ => hres' _ _)
    | exact keeps_modifySelf _ (fun _ => hapi _ _)
    | exact keeps_modifySelf _ (fun _ => hres _ _)
    | exact keeps_modifySelf _ (fun _ => hinit _ _)
    | apply keeps_bind
    | apply keeps_ite
    | intro _

theorem consistent_default : Consistent {} := by
  simp [Consistent]

theorem consistent_failed : Consistent { failed := true } := by
  simp [Consistent]

/-- An `Init` entered on a torn-down manager that returns leaves a consistent
manager: initialised and not failed, or torn down with the failure flag set. -/
theorem Init_consistent (rt : Runtime) (session : ovrSession)
    (leftEyeChain rightEyeChain : ovrTextureSwapChain) (w w' : World)
    (h : Init rt session leftEyeChain rightEyeChain (tornDown w) = (Outcome.ok (), w')) :
    Consistent w'.self := by
  rcases h2 : Init_try rt session leftEyeChain
    (storeIdentities session leftEyeChain rightEyeChain (tornDown w)) with ⟨o, w2⟩
  have hfailed : w2.self.failed = false := by
    have hk : Keeps (fun w => w.self.failed) (Init_try rt session leftEyeChain) := by
      unfold Init_try
      exact keeps_ite _ (keeps_InitD3D12 rt (fun _ _ => rfl) (fun _ _ => rfl) (fun _ _ => rfl)
        (fun _ _ => rfl) (fun _ _ => rfl)) (keeps_pure _ _)
    have := hk (storeIdentities session leftEyeChain rightEyeChain (tornDown w))
    rw [h2] at this
    exact this
  rw [Init_of_try h2] at h
  have key : (if w2.self.initialized then (Outcome.ok (), w2) else (Outcome.ok (), markFailed w2))
      = (Outcome.ok (), w') := by
    cases o
    · exact h
    · exact h
    · simp at h
  by_cases hi : w2.self.initialized = true
  · rw [if_pos hi] at key
    cases key
    exact ⟨fun hc => by simp [hfailed] at hc, fun hn => by simp [hi] at hn⟩
  · rw [if_neg hi] at key
    cases key
    exact consistent_failed

theorem EnsureInit_consistent (rt : Runtime) (session : ovrSession)
    (leftEyeChain rightEyeChain : ovrTextureSwapChain) (w w' : World)
    (hw : Consistent w.self)
    (h : EnsureInit rt session leftEyeChain rightEyeChain w = (Outcome.ok (), w')) :
    Consistent w'.self := by
  rw [EnsureInit_eq] at h
  split at h
  · simp only [bind_apply, Act.bind, Shutdown_eq] at h
    exact Init_consistent rt session leftEyeChain rightEyeChain w w' h
  · cases h
    exact hw

theorem PostProcessD3D12_self (rt : Runtime) (w : World) :
    (PostProcessD3D12 rt w).2.self = w.self :=
  (PostProcessD3D12_spec rt w).1

theorem OnFrameSubmission_try_self (rt : Runtime) (w : World) :
    (OnFrameSubmission_try rt w).2.self = w.self := by
  have hk : Keeps (fun w => w.self) (OnFrameSubmission_try rt) := by
    unfold OnFrameSubmission_try CheckHotkeys
    repeat' first
      | exact keeps_pure _ _
      | exact keeps_getSelf _
      | exact keeps_raise _
      | exact PostProcessD3D12_self rt
      | exact keeps_emit _ (fun _ => rfl)
      | apply keeps_bind
      | apply keeps_ite
      | intro _
  exact hk w

theorem submitFrame_consistent (rt : Runtime) (session : ovrSession)
    (eyeLayer : ovrLayerEyeFovDepth) (w w' : World) (hw : Consistent w.self)
    (h : submitFrame rt session eyeLayer w = (Outcome.ok (), w')) :
    Consistent w'.self := by
  by_cases hg : w.self.failed = true ∨ session = none ∨ eyeLayer.ColorTexture.get 0 = none
  · have : submitFrame rt session eyeLayer w = (Outcome.ok (), { w with eyeLayer := eyeLayer }) := by
      simp only [submitFrame, OnFrameSubmission, bind_apply, Act.bind, getSelf, getLayer]
      rw [if_pos hg]
      rfl
    rw [this] at h
    cases h
    exact hw
  · simp only [not_or] at hg
    obtain ⟨hf, hs, hl⟩ := hg
    have hf' : w.self.failed = false := by simpa using hf
    rcases hE : EnsureInit rt session (eyeLayer.ColorTexture.get 0) (eyeLayer.ColorTexture.get 1)
      { w with eyeLayer := eyeLayer } with ⟨o, wE⟩
    rw [submitFrame_of_EnsureInit hf' hs hl hE] at h
    cases o with
    | threw => simp at h
    | undefined => simp at h
    | ok u =>
      have hcE : Consistent wE.self :=
        EnsureInit_consistent rt session _ _ { w with eyeLayer := eyeLayer } wE hw hE
      simp only at h
      split at h
      · cases h
        exact hcE
      · have hself := OnFrameSubmission_try_self rt wE
        simp only [tryCatch] at h
        rcases hb : OnFrameSubmission_try rt wE with ⟨ob, wb⟩
        rw [hb] at h hself
        cases ob with
        | ok u =>
          simp only at h
          cases h
          simp only at hself
          rw [hself]
          exact hcE
        | threw =>
          simp only [OnFrameSubmission_catch_eq] at h
          cases h
          exact consistent_failed
        | undefined => simp at h

theorem runCall_consistent (c : ManagerCall) (w w' : World) (hw : Consistent w.self)
    (h : runCall c w = (Outcome.ok (), w')) : Consistent w'.self := by
  cases c with
  | OnFrameSubmission rt session eyeLayer => exact submitFrame_consistent rt session eyeLayer w w' hw h
  | EnsureInit rt session l r => exact EnsureInit_consistent rt session l r w w' hw h
  | Shutdown =>
    simp only [runCall, Shutdown_eq] at h
    cases h
    exact consistent_default

theorem runCalls_consistent (calls : List ManagerCall) (w w' : World) (hw : Consistent w.self)
    (h : runCalls calls w = some w') : Consistent w'.self := by
  induction calls generalizing w with
  | nil =>
    simp only [runCalls, Option.some.injEq] at h
    subst h
    exact hw
  | cons c rest ih =>
    simp only [runCalls] at h
    rcases hc : runCall c w with ⟨o, w1⟩
    rw [hc] at h
    cases o with
    | ok u => exact ih w1 (runCall_consistent c w w1 hw hc) h
    | threw => simp at h
    | undefined => simp at h

/-- No call into the manager ends with an exception in flight. -/
theorem runCall_ne_threw (c : ManagerCall) (w : World) : (runCall c w).1 ≠ Outcome.threw := by
  have hE : ∀ rt session l r w, (EnsureInit rt session l r w).1 ≠ Outcome.threw := by
    intro rt session l r w
    rw [EnsureInit_eq]
    split
    · simp only [bind_apply, Act.bind, Shutdown_eq]
      exact Init_ne_threw rt session l r (tornDown w)
    · simp
  cases c with
  | Shutdown => simp [runCall, Shutdown_eq]
  | EnsureInit rt session l r => exact hE rt session l r w
  | OnFrameSubmission rt session eyeLayer =>
    simp only [runCall]
    by_cases hg : w.self.failed = true ∨ session = none ∨ eyeLayer.ColorTexture.get 0 = none
    · simp only [submitFrame, OnFrameSubmission, bind_apply, Act.bind, getSelf, getLayer]
      rw [if_pos hg]
      simp [pure_apply]
    · simp only [not_or] at hg
      obtain ⟨hf, hs, hl⟩ := hg
      have hf' : w.self.failed = false := by simpa using hf
      rcases hEq : EnsureInit rt session (eyeLayer.ColorTexture.get 0)
        (eyeLayer.ColorTexture.get 1) { w with eyeLayer := eyeLayer } with ⟨o, wE⟩
      rw [submitFrame_of_EnsureInit hf' hs hl hEq]
      cases o with
      | threw =>
        have := hE rt session (eyeLayer.ColorTexture.get 0) (eyeLayer.ColorTexture.get 1)
          { w with eyeLayer := eyeLayer }
        rw [hEq] at this
        exact absurd rfl this
      | undefined => simp
      | ok u =>
        simp only
        split
        · simp
        · simp only [tryCatch]
          rcases hb : OnFrameSubmission_try rt wE with ⟨ob, wb⟩
          cases ob <;> simp [OnFrameSubmission_catch_eq]

/-- C18. Take any sequence of `OnFrameSubmission`, `EnsureInit` and `Shutdown`
calls, with any arguments and any answers of the outside, made one after the
other on a manager in its initial state, each call returning.  No call ends with
an exception in flight.  In the state reached the manager is not both
initialised and failed; and if it is not initialised, its backend is `UNKNOWN`,
it holds no resource record, and its session, its two submitted chains and its
two output chains are null. -/
theorem manager_states_are_consistent (calls : List ManagerCall) (w0 w : World)
    (hstart : w0.self = {}) (h : runCalls calls w0 = some w) :
    (∀ c w1, (runCall c w1).1 ≠ Outcome.threw) ∧
    ¬ (w.self.initialized = true ∧ w.self.failed = true) ∧
    (w.self.initialized = false →
      w.self.graphicsApi = GraphicsApi.UNKNOWN ∧ w.self.d3d12Res = none ∧
        w.self.session = none ∧ w.self.submittedEyeChains = ⟨none, none⟩ ∧
        w.self.outputEyeChains = ⟨none, none⟩) := by
  have h0 : Consistent w0.self := by
    rw [hstart]
    exact consistent_default
  exact ⟨runCall_ne_threw, runCalls_consistent calls w0 w h0 h⟩

/-- The statement above for `demoCalls`: the state after the first two calls
(failed, not initialised) and the state after all of them (initialised, not
failed). -/
theorem manager_states_are_consistent_witness :
    (demoFailedWorld.self.failed = true ∧
      ¬ (demoFailedWorld.self.initialized = true ∧ demoFailedWorld.self.failed = true) ∧
      (demoFailedWorld.self.initialized = false →
        demoFailedWorld.self.graphicsApi = GraphicsApi.UNKNOWN ∧
          demoFailedWorld.self.d3d12Res = none ∧ demoFailedWorld.self.session = none ∧
          demoFailedWorld.self.submittedEyeChains = ⟨none, none⟩ ∧
          demoFailedWorld.self.outputEyeChains = ⟨none, none⟩)) ∧
    (demoFinalWorld.self.initialized = true ∧
      ¬ (demoFinalWorld.self.initialized = true ∧ demoFinalWorld.self.failed = true) ∧
      (demoFinalWorld.self.initialized = false →
        demoFinalWorld.self.graphicsApi = GraphicsApi.UNKNOWN ∧
          demoFinalWorld.self.d3d12Res = none ∧ demoFinalWorld.self.session = none ∧
          demoFinalWorld.self.submittedEyeChains = ⟨none, none⟩ ∧
          demoFinalWorld.self.outputEyeChains = ⟨none, none⟩)) :=
  ⟨⟨by decide!, (manager_states_are_consistent (demoCalls.take 2) initialWorld demoFailedWorld
      rfl (by decide!)).2⟩,
    ⟨by decide!, (manager_states_are_consistent demoCalls initialWorld demoFinalWorld
      rfl (by decide!)).2⟩⟩

/-! ### Destruction of the output chains -/

/-- C19 fails on the code for a shared output chain.  Whenever both eyes hold the
same output chain, `Shutdown` calls `ovr_DestroyTextureSwapChain` on it twice.
In the session of `combinedFrame` (one chain `10` submitted for both eyes) the
manager created the single output chain `20`, committed it once in the frame, and
`Shutdown` then destroys it twice.  With the two independent output chains of
`frameStart` each is destroyed once, and no submitted chain is destroyed. -/
theorem Shutdown_destroys_shared_chain_twice :
    (∀ (w : World) (chain : Nat),
      (newEvents (w.withOutputEyeChains (some chain) (some chain))
          (Shutdown (w.withOutputEyeChains (some chain) (some chain))).2).count
        (Event.DestroyTextureSwapChain w.self.session (some chain)) = 2) ∧
    combinedFrame.1 = Outcome.ok () ∧
    combinedFrame.2.self.outputEyeChains = ⟨some 20, some 20⟩ ∧
    combinedFrame.2.events.count (Event.CommitTextureSwapChain (some 1) (some 20)) = 1 ∧
    newEvents combinedFrame.2 (Shutdown combinedFrame.2).2 =
      [Event.DestroyTextureSwapChain (some 1) (some 20),
        Event.DestroyTextureSwapChain (some 1) (some 20)] ∧
    newEvents frameStart (Shutdown frameStart).2 =
      [Event.DestroyTextureSwapChain (some 1) (some 20),
        Event.DestroyTextureSwapChain (some 1) (some 21)] := by
  refine ⟨fun w chain => ?_, by decide!, by decide!, by decide!, by decide!, by decide!⟩
  rw [Shutdown_eq]
  simp [newEvents, tornDown, shutdownEvents, World.withOutputEyeChains, List.count_cons]

end vrperfkit
